import Mathlib

/-!
ST7735 LCD shield driver (`src/omv/py/py_lcd.c`)

A shallow embedding of the LCD module of the OpenMV firmware.  The five
file-scope statics of `py_lcd.c` form the driver state `Lcd`; every public
function becomes a pure function from the state before the call to a `Step`:
the state after the call, the hardware events the call issued in program
order, and the object handed back to the host (or the exception raised).

C `int` values are modelled by `Int`; for the panel sizes the driver can hold
(0, 80, 128, 160) and rectangles inside an image no `int` operation leaves the
32-bit range.  A length passed as `uint32_t` is converted with `toU32`.
-/

namespace PyLcd

/-! ## Hardware events -/

/-- The four control lines (`RST_PIN`, `RS_PIN`, `CS_PIN`, `LED_PIN`, all on `GPIOE`). -/
inductive Pin where
  | RST | RS | CS | LED
deriving DecidableEq, Repr

/-- Field `Mode` of `GPIO_InitTypeDef`, as far as the driver uses it. -/
inductive GpioMode where
  | GPIO_MODE_OUTPUT_PP | GPIO_MODE_OUTPUT_OD
deriving DecidableEq, Repr

/-- Field `Pull` of `GPIO_InitTypeDef`. -/
inductive GpioPull where
  | GPIO_NOPULL | GPIO_PULLUP | GPIO_PULLDOWN
deriving DecidableEq, Repr

/-- Field `Speed` of `GPIO_InitTypeDef`. -/
inductive GpioSpeed where
  | GPIO_SPEED_LOW | GPIO_SPEED_MEDIUM | GPIO_SPEED_HIGH
deriving DecidableEq, Repr

/-- The record handed to `HAL_GPIO_Init`. -/
structure GPIO_InitTypeDef where
  Pin : Pin
  Mode : GpioMode
  Pull : GpioPull
  Speed : GpioSpeed
deriving DecidableEq, Repr

/-- Clock selection keyword given to `pyb_spi_make_new`. -/
inductive SpiClock where
  | baudrate (hz : Nat)
  | prescaler (div : Nat)
deriving DecidableEq, Repr

/-- The arguments of the `pyb_spi_make_new` call (master mode throughout). -/
structure SpiArgs where
  bus : Nat
  clock : SpiClock
  polarity : Nat
  phase : Nat
deriving DecidableEq, Repr

/-- The SPI object stored in `spi_port`. -/
structure SpiHandle where
  bus : Nat
deriving DecidableEq, Repr

/-- One call into a collaborator (GPIO HAL, SPI object, systick, scratch allocator). -/
inductive Event where
  | HAL_GPIO_WritePin (pin : Pin) (bit : Bool)
  | HAL_GPIO_Init (cfg : GPIO_InitTypeDef)
  | HAL_GPIO_DeInit (pin : Pin)
  | HAL_GPIO_ReadPin (pin : Pin)
  | pyb_spi_make_new (args : SpiArgs)
  | pyb_spi_deinit
  | pyb_spi_send_int (data_byte : Nat)
  | pyb_spi_send_bytes (len : Nat) (dat : List Nat)
  | systick_sleep (ms : Nat)
  | fb_alloc_mark
  | fb_alloc0 (size : Nat)
  | fb_alloc (size : Nat)
  | fb_alloc_free_till_mark
deriving DecidableEq, Repr

/-! ## Driver state -/

/-- The anonymous enum of the static `type`. -/
inductive LcdType where
  | LCD_NONE | LCD_SHIELD_1_8 | LCD_SHIELD_0_96
deriving DecidableEq, Repr

/-- Numeric value of an enumerator (`LCD_NONE = 0`, `LCD_SHIELD_1_8 = 1`, `LCD_SHIELD_0_96 = 2`). -/
def LcdType.toInt : LcdType → Int
  | .LCD_NONE => 0
  | .LCD_SHIELD_1_8 => 1
  | .LCD_SHIELD_0_96 => 2

/-- The file-scope statics `spi_port`, `width`, `height`, `type`, `backlight_init`. -/
structure Lcd where
  spi_port : Option SpiHandle
  width : Int
  height : Int
  type : LcdType
  backlight_init : Bool
deriving DecidableEq, Repr

/-- The values the statics are initialised with. -/
def Lcd.initial : Lcd :=
  { spi_port := none, width := 0, height := 0, type := .LCD_NONE, backlight_init := false }

/-- Exceptions that leave a public function through the host's non-local exit. -/
inductive Exn where
  | spi_unavailable
  | image_format_not_supported
  | invalid_roi
  | bgr_not_an_integer
deriving DecidableEq, Repr

/-- What a public function hands back to the host. -/
inductive Ret where
  | mp_const_none
  | mp_obj_new_int (v : Int)
  | raise (e : Exn)
deriving DecidableEq, Repr

/-- Outcome of one call: state afterwards, events issued, returned object. -/
structure Step where
  st : Lcd
  ev : List Event
  ret : Ret
deriving DecidableEq, Repr

/-- Conversion of an `int` argument to a `uint32_t` parameter. -/
def toU32 (x : Int) : Nat := (x % 4294967296).toNat

/-- Conversion of an `int` value to `uint8_t`. -/
def toU8 (x : Int) : Nat := (x % 256).toNat

/-! ## Byte-level SPI helpers -/

/-- Source `lcd_write_command_byte`: CS low, RS low (command), one byte, CS high. -/
def lcd_write_command_byte (data_byte : Nat) : List Event :=
  [ .HAL_GPIO_WritePin .CS false,
    .HAL_GPIO_WritePin .RS false,
    .pyb_spi_send_int data_byte,
    .HAL_GPIO_WritePin .CS true ]

/-- Source `lcd_write_data_byte`: CS low, RS high (data), one byte, CS high. -/
def lcd_write_data_byte (data_byte : Nat) : List Event :=
  [ .HAL_GPIO_WritePin .CS false,
    .HAL_GPIO_WritePin .RS true,
    .pyb_spi_send_int data_byte,
    .HAL_GPIO_WritePin .CS true ]

/-- Source `lcd_write_command`: the command byte, then the first `len` bytes of `dat`,
each in a frame of its own. -/
def lcd_write_command (data_byte : Nat) (len : Nat) (dat : List Nat) : List Event :=
  lcd_write_command_byte data_byte ++
    (List.range len).flatMap (fun i => lcd_write_data_byte (dat.getD i 0))

/-- Source `lcd_write_data`: one burst of `len` bytes read from the pointer `dat`
(`dat k` is the byte `k` places after the pointer). -/
def lcd_write_data (len : Nat) (dat : Nat → Nat) : List Event :=
  [ .HAL_GPIO_WritePin .CS false,
    .HAL_GPIO_WritePin .RS true,
    .pyb_spi_send_bytes len ((List.range len).map dat),
    .HAL_GPIO_WritePin .CS true ]

/-! ## Lifecycle -/

/-- Source `py_lcd_deinit`. -/
def py_lcd_deinit (s : Lcd) : Step :=
  match s.type with
  | .LCD_NONE => { st := s, ev := [], ret := .mp_const_none }
  | .LCD_SHIELD_0_96 | .LCD_SHIELD_1_8 =>
    let ev0 : List Event :=
      [ .HAL_GPIO_DeInit .RST, .HAL_GPIO_DeInit .RS, .HAL_GPIO_DeInit .CS, .pyb_spi_deinit ]
    let s1 : Lcd := { s with spi_port := none, width := 0, height := 0, type := .LCD_NONE }
    if s1.backlight_init then
      { st := { s1 with backlight_init := false },
        ev := ev0 ++ [ .HAL_GPIO_DeInit .LED ],
        ret := .mp_const_none }
    else
      { st := s1, ev := ev0, ret := .mp_const_none }

/-- Modelled from the spec: the host helper `py_helper_keyword_int` (its body is not part
of the driver file); the spec gives the host surface as a typed record of keyword
arguments with defaults, so the helper yields the keyword's value when it was given and
the default otherwise. -/
def py_helper_keyword_int (kw : Option Int) (default_val : Int) : Int :=
  kw.getD default_val

/-- The keyword arguments of `init`. -/
structure InitArgs where
  type : Option Int
  bgr : Option Int
deriving DecidableEq, Repr

/-- The block `Pin = p; P_PIN_WRITE(bit); HAL_GPIO_Init(...)` with `Pull = GPIO_NOPULL` and
`Speed = GPIO_SPEED_LOW`: the level is written first, then the pad becomes an output. -/
def gpio_output (p : Pin) (mode : GpioMode) (bit : Bool) : List Event :=
  [ .HAL_GPIO_WritePin p bit,
    .HAL_GPIO_Init { Pin := p, Mode := mode, Pull := .GPIO_NOPULL, Speed := .GPIO_SPEED_LOW } ]

/-- Lines 200-219 and 301-319, the same in both cases of `py_lcd_init`: reset, sleep
exit, frame-rate and power control. -/
def init_prologue : List Event :=
  lcd_write_command_byte 0x01 ++
  [ .HAL_GPIO_WritePin .RST false, .systick_sleep 120, .HAL_GPIO_WritePin .RST true ] ++
  lcd_write_command_byte 0x01 ++ [ .systick_sleep 120 ] ++
  lcd_write_command_byte 0x11 ++ [ .systick_sleep 120 ] ++
  lcd_write_command 0xB1 3 [0x01, 0x2C, 0x2D] ++
  lcd_write_command_byte 0xB2 ++
  lcd_write_command 0xB3 6 [0x01, 0x2c, 0x2d, 0x01, 0x2c, 0x2d] ++
  lcd_write_command 0xB4 1 [0x07] ++
  lcd_write_command 0xC0 3 [0xA2, 0x02, 0x84] ++
  lcd_write_command 0xC1 1 [0xC5] ++
  lcd_write_command 0xC2 2 [0x0A, 0x00] ++
  lcd_write_command 0xC3 2 [0x8A, 0x2A] ++
  lcd_write_command 0xC4 1 [0x8A, 0xEE] ++
  lcd_write_command 0xC5 1 [0x0E]

/-- Lines 235-247 and 339-350, the same in both cases of `py_lcd_init`: gamma tables,
normal display mode, display on. -/
def init_epilogue : List Event :=
  lcd_write_command 0xE0 16 [0x02, 0x1c, 0x07, 0x12, 0x37, 0x32, 0x29, 0x2d, 0x29,
                             0x25, 0x2b, 0x39, 0x00, 0x01, 0x03, 0x10] ++
  lcd_write_command 0xE1 16 [0x03, 0x1d, 0x07, 0x06, 0x2e, 0x2c, 0x29, 0x2d, 0x2e,
                             0x2e, 0x37, 0x3f, 0x00, 0x00, 0x02, 0x10] ++
  lcd_write_command_byte 0x13 ++ [ .systick_sleep 10 ] ++
  lcd_write_command_byte 0x29 ++ [ .systick_sleep 100 ]

/-- The closing `if (!backlight_init) { ... }` block of both cases of `py_lcd_init`. -/
def init_backlight (s : Lcd) : Lcd × List Event :=
  if !s.backlight_init then
    ({ s with backlight_init := true }, gpio_output .LED .GPIO_MODE_OUTPUT_OD false)
  else
    (s, [])

/-- Source `py_lcd_init`, for keyword arguments that are integers.  `spi_ok` tells whether
`pyb_spi_make_new` hands back an SPI object; when it raises instead, the exception leaves
`py_lcd_init` at that call.  The transmissions (`pyb_spi_send`), the GPIO HAL and
`systick_sleep` are taken to return, here as in every other function of the driver.  The
exit by an exception raised inside the command sequence, at the `bgr` conversion, is
`py_lcd_init_bgr_raises`. -/
def py_lcd_init (spi_ok : Bool) (args : InitArgs) (s : Lcd) : Step :=
  let d := py_lcd_deinit s
  let t := py_helper_keyword_int args.type LcdType.LCD_SHIELD_0_96.toInt
  if t = LcdType.LCD_NONE.toInt then
    { st := d.st, ev := d.ev, ret := .mp_const_none }
  else if t = LcdType.LCD_SHIELD_1_8.toInt then
    let pins : List Event :=
      gpio_output .CS .GPIO_MODE_OUTPUT_OD true ++ gpio_output .RST .GPIO_MODE_OUTPUT_PP true
    let mk : List Event :=
      [ .pyb_spi_make_new
          { bus := 4, clock := .baudrate (1000000000 / 66), polarity := 0, phase := 0 } ]
    if spi_ok then
      let s1 : Lcd := { d.st with spi_port := some { bus := 4 } }
      let s2 : Lcd :=
        { s1 with width := 128, height := 160, type := .LCD_SHIELD_1_8, backlight_init := false }
      let madctl : Nat := 0xC0
      let bgr : Nat := toU8 (py_helper_keyword_int args.bgr 0)
      let body : List Event :=
        init_prologue ++
        lcd_write_command 0x36 1 [(madctl ||| (bgr <<< 3)) % 256] ++
        lcd_write_command 0x3A 1 [0x05] ++
        lcd_write_command_byte 0x20 ++
        lcd_write_command 0x2A 4 [0, 0, 0, toU8 (s2.width - 1)] ++
        lcd_write_command 0x2B 4 [0, 0, 0, toU8 (s2.height - 1)] ++
        init_epilogue
      let b := init_backlight s2
      { st := b.1,
        ev := d.ev ++ pins ++ mk ++ gpio_output .RS .GPIO_MODE_OUTPUT_PP true ++ body ++ b.2,
        ret := .mp_const_none }
    else
      { st := d.st, ev := d.ev ++ pins ++ mk, ret := .raise .spi_unavailable }
  else if t = LcdType.LCD_SHIELD_0_96.toInt then
    let pins : List Event :=
      gpio_output .CS .GPIO_MODE_OUTPUT_OD true ++ gpio_output .RST .GPIO_MODE_OUTPUT_PP true
    let mk : List Event :=
      [ .pyb_spi_make_new { bus := 4, clock := .prescaler 8, polarity := 0, phase := 0 } ]
    if spi_ok then
      let s1 : Lcd := { d.st with spi_port := some { bus := 4 } }
      let s2 : Lcd :=
        { s1 with width := 160, height := 80, type := .LCD_SHIELD_0_96, backlight_init := false }
      let madctl : Nat := 0xA0
      let bgr : Nat := toU8 (py_helper_keyword_int args.bgr 1)
      let xPos : Int := 1
      let yPos : Int := 26
      let body : List Event :=
        init_prologue ++
        lcd_write_command_byte 0x21 ++
        lcd_write_command 0x36 1 [(madctl ||| (bgr <<< 3)) % 256] ++
        lcd_write_command 0x3A 1 [0x05] ++
        lcd_write_command 0x2A 4 [0, toU8 xPos % 256, 0, toU8 (xPos + s2.width - 1)] ++
        lcd_write_command 0x2B 4 [0, toU8 yPos % 256, 0, toU8 (yPos + s2.height - 1)] ++
        init_epilogue
      let b := init_backlight s2
      { st := b.1,
        ev := d.ev ++ pins ++ mk ++ gpio_output .RS .GPIO_MODE_OUTPUT_PP true ++ body ++ b.2,
        ret := .mp_const_none }
    else
      { st := d.st, ev := d.ev ++ pins ++ mk, ret := .raise .spi_unavailable }
  else
    { st := d.st, ev := d.ev, ret := .mp_const_none }

/-- Lines 162-194 and 263-295 of `py_lcd_init`: CS and RST pads, the SPI object, the RS
pad. -/
def init_setup (clock : SpiClock) : List Event :=
  gpio_output .CS .GPIO_MODE_OUTPUT_OD true ++ gpio_output .RST .GPIO_MODE_OUTPUT_PP true ++
  [ .pyb_spi_make_new { bus := 4, clock := clock, polarity := 0, phase := 0 } ] ++
  gpio_output .RS .GPIO_MODE_OUTPUT_PP true

/-- Modelled from the spec: an error raised inside the command sequence of `py_lcd_init`
(the specification names "any intra-sequence error" of init).  The place is the source's:
the call `py_helper_keyword_int(..., MP_QSTR_bgr, ...)` at line 223 / 325 converts a host
object to an integer (its body is not part of the driver file) and raises for a `bgr`
argument that is not an integer; `py_lcd_init` has no handler, so the exception leaves it
there, the SPI object having opened.  By then `py_lcd_deinit` has run, the CS, RST and RS
pads and the SPI object are set up, `width`, `height` and `type` are assigned and
`backlight_init` is false (lines 196-199 / 297-300), and the commands up to 0xC5 (for the
0.96 inch panel up to 0x21) are sent; the LED block (lines 249-258 / 351-360) is not
reached.  With `type = LCD_NONE` or an unknown type the conversion is not reached and the
call returns as `py_lcd_init` does. -/
def py_lcd_init_bgr_raises (type : Option Int) (s : Lcd) : Step :=
  let d := py_lcd_deinit s
  let t := py_helper_keyword_int type LcdType.LCD_SHIELD_0_96.toInt
  if t = LcdType.LCD_NONE.toInt then
    { st := d.st, ev := d.ev, ret := .mp_const_none }
  else if t = LcdType.LCD_SHIELD_1_8.toInt then
    let s1 : Lcd := { d.st with spi_port := some { bus := 4 } }
    let s2 : Lcd :=
      { s1 with width := 128, height := 160, type := .LCD_SHIELD_1_8, backlight_init := false }
    { st := s2,
      ev := d.ev ++ init_setup (.baudrate (1000000000 / 66)) ++ init_prologue,
      ret := .raise .bgr_not_an_integer }
  else if t = LcdType.LCD_SHIELD_0_96.toInt then
    let s1 : Lcd := { d.st with spi_port := some { bus := 4 } }
    let s2 : Lcd :=
      { s1 with width := 160, height := 80, type := .LCD_SHIELD_0_96, backlight_init := false }
    { st := s2,
      ev := d.ev ++ init_setup (.prescaler 8) ++ init_prologue ++ lcd_write_command_byte 0x21,
      ret := .raise .bgr_not_an_integer }
  else
    { st := d.st, ev := d.ev, ret := .mp_const_none }

/-- Source `py_lcd_width`. -/
def py_lcd_width (s : Lcd) : Step :=
  if s.type = .LCD_NONE then { st := s, ev := [], ret := .mp_const_none }
  else { st := s, ev := [], ret := .mp_obj_new_int s.width }

/-- Source `py_lcd_height`. -/
def py_lcd_height (s : Lcd) : Step :=
  if s.type = .LCD_NONE then { st := s, ev := [], ret := .mp_const_none }
  else { st := s, ev := [], ret := .mp_obj_new_int s.height }

/-- Source `py_lcd_type`. -/
def py_lcd_type (s : Lcd) : Step :=
  if s.type = .LCD_NONE then { st := s, ev := [], ret := .mp_const_none }
  else { st := s, ev := [], ret := .mp_obj_new_int s.type.toInt }

/-- Source `py_lcd_set_backlight`; `state_obj` is the integer `mp_obj_get_int` yields. -/
def py_lcd_set_backlight (state_obj : Int) (s : Lcd) : Step :=
  match s.type with
  | .LCD_NONE => { st := s, ev := [], ret := .mp_const_none }
  | .LCD_SHIELD_0_96 | .LCD_SHIELD_1_8 =>
    let bit : Bool := decide (state_obj = 0)
    if !s.backlight_init then
      { st := { s with backlight_init := true },
        ev := gpio_output .LED .GPIO_MODE_OUTPUT_OD bit ++ [ .HAL_GPIO_WritePin .LED bit ],
        ret := .mp_const_none }
    else
      { st := s, ev := [ .HAL_GPIO_WritePin .LED bit ], ret := .mp_const_none }

/-- Source `py_lcd_get_backlight`; `led_level` is what `HAL_GPIO_ReadPin` reads on the
LED line. -/
def py_lcd_get_backlight (led_level : Bool) (s : Lcd) : Step :=
  match s.type with
  | .LCD_NONE => { st := s, ev := [], ret := .mp_const_none }
  | .LCD_SHIELD_0_96 | .LCD_SHIELD_1_8 =>
    if !s.backlight_init then
      { st := s, ev := [], ret := .mp_const_none }
    else
      { st := s, ev := [ .HAL_GPIO_ReadPin .LED ],
        ret := .mp_obj_new_int (if led_level then 0 else 1) }

/-! ## Images and rectangles -/

/-- Pixel format of an image, as far as the driver tells formats apart. -/
inductive ImageFormat where
  | grayscale
  | rgb565
  | other
deriving DecidableEq, Repr

/-- Modelled from the spec: the image record of the imaging collaborator, `{w, h, format,
pixels}`.  `pixels k` is the byte `k` places after the `pixels` pointer. -/
structure image_t where
  w : Int
  h : Int
  format : ImageFormat
  pixels : Int → Nat

/-- Modelled from the spec: the rectangle `{x, y, w, h}` in image coordinates, with
integer fields. -/
structure rectangle_t where
  x : Int
  y : Int
  w : Int
  h : Int
deriving DecidableEq, Repr

/-- Modelled from the spec: the predicate `IM_IS_MUTABLE` holds for the supported formats,
grayscale-8 and RGB565. -/
def IM_IS_MUTABLE (img : image_t) : Bool :=
  img.format = .grayscale || img.format = .rgb565

/-- Modelled from the spec: `IM_IS_GS` holds for grayscale-8 images. -/
def IM_IS_GS (img : image_t) : Bool :=
  img.format = .grayscale

/-- Modelled from the spec: `IM_GET_GS_PIXEL` reads the 8-bit pixel at column `x`, row `y`
of a row-major grayscale image. -/
def IM_GET_GS_PIXEL (img : image_t) (x y : Int) : Nat :=
  img.pixels (img.w * y + x) % 256

/-- Modelled from the spec: `IM_R825`, the top five bits of an 8-bit value. -/
def IM_R825 (p : Nat) : Nat := p >>> 3

/-- Modelled from the spec: `IM_G826`, the top six bits of an 8-bit value. -/
def IM_G826 (p : Nat) : Nat := p >>> 2

/-- Modelled from the spec: `IM_B825`, the top five bits of an 8-bit value. -/
def IM_B825 (p : Nat) : Nat := p >>> 3

/-- Modelled from the spec: `IM_RGB565` packs the three channels into the RGB565 word
`(r << 11) | (g << 5) | b`. -/
def IM_RGB565 (r g b : Nat) : Nat := ((r <<< 11) ||| (g <<< 5) ||| b) % 65536

/-- Byte `k` (0 or 1) of a `uint16_t` in memory, as `(uint8_t *) line` reads it: the target
is a little-endian Cortex-M (STM32), so the low byte comes first.  The driver stores
`line[j]` as a host `uint16_t` and hands the line to `lcd_write_data` without a swap. -/
def pixel_byte (word : Nat) (k : Nat) : Nat :=
  if k % 2 = 0 then word % 256 else word / 256 % 256

/-! ## Geometry -/

/-- The locals of `py_lcd_display` once both fit steps have run. -/
structure Fit where
  rect : rectangle_t
  l_pad : Int
  r_pad : Int
  t_pad : Int
  b_pad : Int
deriving DecidableEq, Repr

/-- The `// Fit X.` block of `py_lcd_display`: the rectangle, `l_pad` and `r_pad`. -/
def fit_x (rect : rectangle_t) (width : Int) : rectangle_t × Int × Int :=
  if rect.w > width then
    let adjust := rect.w - width
    ({ rect with w := rect.w - adjust, x := rect.x + Int.tdiv adjust 2 }, 0, 0)
  else if rect.w < width then
    let adjust := width - rect.w
    (rect, Int.tdiv adjust 2, Int.tdiv (adjust + 1) 2)
  else
    (rect, 0, 0)

/-- The `// Fit Y.` block of `py_lcd_display`: the rectangle, `t_pad` and `b_pad`. -/
def fit_y (rect : rectangle_t) (height : Int) : rectangle_t × Int × Int :=
  if rect.h > height then
    let adjust := rect.h - height
    ({ rect with h := rect.h - adjust, y := rect.y + Int.tdiv adjust 2 }, 0, 0)
  else if rect.h < height then
    let adjust := height - rect.h
    (rect, Int.tdiv adjust 2, Int.tdiv (adjust + 1) 2)
  else
    (rect, 0, 0)

/-- Lines 435-457 of `py_lcd_display`: fit X, then fit Y. -/
def fit (rect : rectangle_t) (width height : Int) : Fit :=
  let fx := fit_x rect width
  let fy := fit_y fx.1 height
  { rect := fy.1, l_pad := fx.2.1, r_pad := fx.2.2, t_pad := fy.2.1, b_pad := fy.2.2 }

/-! ## Pixel pump -/

/-- The zero-filled scratch line `fb_alloc0(width*2)` seen through its pointer; the pump
reads `width*2`, `l_pad*2` or `r_pad*2` bytes from it, never more than were zeroed. -/
def zero_line : Nat → Nat := fun _ => 0

/-- The scratch line after the inner `j` loop of row `i`, seen through `(uint8_t *) line`:
the `uint16_t` entry `j` holds `IM_RGB565(IM_R825(pixel), IM_G826(pixel), IM_B825(pixel))`
for the grayscale pixel `(rect.x + j, rect.y + i)`, and byte `k` of the line is byte
`k % 2` of entry `k / 2` in memory order. -/
def gs_line (arg_img : image_t) (rect : rectangle_t) (i : Int) : Nat → Nat :=
  fun k =>
    let j : Int := (k / 2 : Nat)
    let pixel := IM_GET_GS_PIXEL arg_img (rect.x + j) (rect.y + i)
    pixel_byte (IM_RGB565 (IM_R825 pixel) (IM_G826 pixel) (IM_B825 pixel)) k

/-- The pointer `((uint16_t *) arg_img->pixels) + ((rect.y + i) * arg_img->w) + rect.x`
seen as bytes. -/
def rgb565_line (arg_img : image_t) (rect : rectangle_t) (i : Int) : Nat → Nat :=
  fun k => arg_img.pixels (2 * ((rect.y + i) * arg_img.w + rect.x) + (k : Int))

/-- One pass of the `for (int i=0; i<rect.h; i++)` loop of `py_lcd_display`. -/
def display_row (arg_img : image_t) (f : Fit) (i : Int) : List Event :=
  (if f.l_pad ≠ 0 then lcd_write_data (toU32 (f.l_pad * 2)) zero_line else []) ++
  (if IM_IS_GS arg_img then
     lcd_write_data (toU32 (f.rect.w * 2)) (gs_line arg_img f.rect i)
   else
     lcd_write_data (toU32 (f.rect.w * 2)) (rgb565_line arg_img f.rect i)) ++
  (if f.r_pad ≠ 0 then lcd_write_data (toU32 (f.r_pad * 2)) zero_line else [])

/-- The part of `py_lcd_display` that both initialised cases share, from
`lcd_write_command_byte(0x2C)` to `fb_alloc_free_till_mark()`. -/
def display_frame (width : Int) (arg_img : image_t) (f : Fit) : List Event :=
  lcd_write_command_byte 0x2C ++
  [ .fb_alloc_mark, .fb_alloc0 (toU32 (width * 2)), .fb_alloc (toU32 (width * 2)) ] ++
  (List.range f.t_pad.toNat).flatMap (fun _ => lcd_write_data (toU32 (width * 2)) zero_line) ++
  (List.range f.rect.h.toNat).flatMap (fun i => display_row arg_img f (i : Int)) ++
  (List.range f.b_pad.toNat).flatMap (fun _ => lcd_write_data (toU32 (width * 2)) zero_line) ++
  [ .fb_alloc_free_till_mark ]

/-- Source `py_lcd_display`.  `roi` is what `py_helper_keyword_rectangle_roi` stored in
`rect`, or `none` when that helper raised. -/
def py_lcd_display (arg_img : image_t) (roi : Option rectangle_t) (s : Lcd) : Step :=
  if !IM_IS_MUTABLE arg_img then
    { st := s, ev := [], ret := .raise .image_format_not_supported }
  else
    match roi with
    | none => { st := s, ev := [], ret := .raise .invalid_roi }
    | some rect =>
      let f := fit rect s.width s.height
      match s.type with
      | .LCD_NONE => { st := s, ev := [], ret := .mp_const_none }
      | .LCD_SHIELD_1_8 =>
        { st := s, ev := display_frame s.width arg_img f, ret := .mp_const_none }
      | .LCD_SHIELD_0_96 =>
        { st := s,
          ev := lcd_write_command 0x2A 2 [0, 1] ++ lcd_write_command 0x2B 2 [0, 26] ++
                display_frame s.width arg_img f,
          ret := .mp_const_none }

/-- The part of `py_lcd_clear` that both initialised cases share. -/
def clear_frame (width height : Int) : List Event :=
  lcd_write_command_byte 0x2C ++
  [ .fb_alloc_mark, .fb_alloc0 (toU32 (width * 2)) ] ++
  (List.range height.toNat).flatMap (fun _ => lcd_write_data (toU32 (width * 2)) zero_line) ++
  [ .fb_alloc_free_till_mark ]

/-- Source `py_lcd_clear`. -/
def py_lcd_clear (s : Lcd) : Step :=
  match s.type with
  | .LCD_NONE => { st := s, ev := [], ret := .mp_const_none }
  | .LCD_SHIELD_0_96 =>
    { st := s,
      ev := lcd_write_command 0x2A 2 [0, 1] ++ lcd_write_command 0x2B 2 [0, 26] ++
            clear_frame s.width s.height,
      ret := .mp_const_none }
  | .LCD_SHIELD_1_8 =>
    { st := s, ev := clear_frame s.width s.height, ret := .mp_const_none }

/-- The full-image rectangle `py_helper_keyword_rectangle_roi` yields when no roi is given. -/
def full_roi (img : image_t) : rectangle_t :=
  { x := 0, y := 0, w := img.w, h := img.h }

/-! ## Pads and reachable states -/

/-- One GPIO pad: the configuration `HAL_GPIO_Init` gave it (`none` while the pad is
released, that is not an output) and the level last written to it. -/
structure PinState where
  mode : Option GPIO_InitTypeDef
  level : Bool
deriving DecidableEq, Repr

/-- The four pads the driver owns. -/
structure Hw where
  rst : PinState
  rs : PinState
  cs : PinState
  led : PinState
deriving DecidableEq, Repr

/-- All pads released, as after reset. -/
def Hw.initial : Hw :=
  { rst := { mode := none, level := false },
    rs := { mode := none, level := false },
    cs := { mode := none, level := false },
    led := { mode := none, level := false } }

/-- The pad behind a pin name. -/
def Hw.get (hw : Hw) : Pin → PinState
  | .RST => hw.rst
  | .RS => hw.rs
  | .CS => hw.cs
  | .LED => hw.led

/-- Replace the pad behind a pin name. -/
def Hw.set (hw : Hw) (p : Pin) (v : PinState) : Hw :=
  match p with
  | .RST => { hw with rst := v }
  | .RS => { hw with rs := v }
  | .CS => { hw with cs := v }
  | .LED => { hw with led := v }

/-- Effect of one event on the pads: a write sets the level, `HAL_GPIO_Init` makes the
pad an output, `HAL_GPIO_DeInit` releases it; nothing else touches a pad. -/
def Hw.apply (hw : Hw) : Event → Hw
  | .HAL_GPIO_WritePin p bit => hw.set p { hw.get p with level := bit }
  | .HAL_GPIO_Init cfg => hw.set cfg.Pin { hw.get cfg.Pin with mode := some cfg }
  | .HAL_GPIO_DeInit p => hw.set p { hw.get p with mode := none }
  | _ => hw

/-- Effect of a trace on the pads. -/
def Hw.run (hw : Hw) (evs : List Event) : Hw := evs.foldl Hw.apply hw

/-- No pad of the driver is configured as an output. -/
def Hw.released (hw : Hw) : Prop :=
  hw.rst.mode = none ∧ hw.rs.mode = none ∧ hw.cs.mode = none ∧ hw.led.mode = none

instance (hw : Hw) : Decidable hw.released := by
  unfold Hw.released; infer_instance

/-- Driver statics together with the pads. -/
structure Sys where
  lcd : Lcd
  hw : Hw
deriving DecidableEq, Repr

/-- The system at process start. -/
def Sys.initial : Sys := { lcd := Lcd.initial, hw := Hw.initial }

/-- One call of a public function of the module, with its arguments (and, for `init`,
whether the SPI object can be opened); `init_bgr_raises` is an `init` whose `bgr` argument
is not an integer. -/
inductive Call where
  | init (spi_ok : Bool) (args : InitArgs)
  | init_bgr_raises (type : Option Int)
  | deinit
  | width
  | height
  | type
  | set_backlight (state_obj : Int)
  | get_backlight
  | display (arg_img : image_t) (roi : Option rectangle_t)
  | clear

/-- The step a call makes from a system state. -/
def Call.step (c : Call) (y : Sys) : Step :=
  match c with
  | .init spi_ok args => py_lcd_init spi_ok args y.lcd
  | .init_bgr_raises t => py_lcd_init_bgr_raises t y.lcd
  | .deinit => py_lcd_deinit y.lcd
  | .width => py_lcd_width y.lcd
  | .height => py_lcd_height y.lcd
  | .type => py_lcd_type y.lcd
  | .set_backlight state_obj => py_lcd_set_backlight state_obj y.lcd
  | .get_backlight => py_lcd_get_backlight y.hw.led.level y.lcd
  | .display arg_img roi => py_lcd_display arg_img roi y.lcd
  | .clear => py_lcd_clear y.lcd

/-- The system after a call. -/
def Sys.exec (y : Sys) (c : Call) : Sys :=
  { lcd := (c.step y).st, hw := y.hw.run (c.step y).ev }

/-- The system after a sequence of calls from process start. -/
def run_calls (cs : List Call) : Sys := cs.foldl Sys.exec Sys.initial

/-- States reachable from process start by calls that satisfy `ok`. -/
inductive ReachableBy (ok : Call → Prop) : Sys → Prop where
  | initial : ReachableBy ok Sys.initial
  | step {y : Sys} (c : Call) : ReachableBy ok y → ok c → ReachableBy ok (y.exec c)

/-- States reachable from process start through the public functions, by calls that
return or are left by an exception (at the SPI open, at the `bgr` conversion, at the image
format or roi check). -/
def Reachable (y : Sys) : Prop := ReachableBy (fun _ => True) y

/-- The call is not an `init` whose SPI open fails. -/
def Call.spi_opens : Call → Prop
  | .init spi_ok _ => spi_ok = true
  | _ => True

/-- States reachable through calls none of which fails to open the SPI object. -/
def ReachableSpiOk (y : Sys) : Prop := ReachableBy Call.spi_opens y

/-- The call is not an `init` with a `bgr` argument that is not an integer. -/
def Call.bgr_converts : Call → Prop
  | .init_bgr_raises _ => False
  | _ => True

/-- States reachable through calls none of which is an `init` left by an exception inside
its command sequence: every `init` on the way returned or failed to open the SPI object. -/
def ReachableUninterrupted (y : Sys) : Prop := ReachableBy Call.bgr_converts y

/-! ## Observations on traces -/

/-- The lengths passed to `lcd_write_data`, in order. -/
def data_lens (evs : List Event) : List Nat :=
  evs.filterMap (fun e => match e with
    | .pyb_spi_send_bytes len _ => some len
    | _ => none)

/-- The bursts sent by `lcd_write_data`, in order. -/
def data_bursts (evs : List Event) : List (List Nat) :=
  evs.filterMap (fun e => match e with
    | .pyb_spi_send_bytes _ dat => some dat
    | _ => none)

/-- The bytes of all bursts, concatenated. -/
def data_bytes (evs : List Event) : List Nat := (data_bursts evs).flatten

/-- The events that follow the first transmission of the single byte `b`. -/
def after_byte (b : Nat) : List Event → List Event
  | [] => []
  | e :: es => if e = .pyb_spi_send_int b then es else after_byte b es

/-- The driver holds one of the two panels with its dimensions. -/
def Lcd.is_panel (s : Lcd) (W H : Int) : Prop :=
  (s.type = .LCD_SHIELD_1_8 ∧ W = 128 ∧ H = 160 ∨ s.type = .LCD_SHIELD_0_96 ∧ W = 160 ∧ H = 80) ∧
  s.width = W ∧ s.height = H

/-- The two bytes of the image pixel at column `x`, row `y` in memory order: the converted
`uint16_t` for a grayscale image (low byte first on the little-endian target), the two
stored bytes for an RGB565 image. -/
def image_pixel_bytes (img : image_t) (x y : Int) : List Nat :=
  if IM_IS_GS img then
    let p := IM_GET_GS_PIXEL img x y
    let word := IM_RGB565 (IM_R825 p) (IM_G826 p) (IM_B825 p)
    [word % 256, word / 256 % 256]
  else
    [img.pixels (2 * (y * img.w + x)), img.pixels (2 * (y * img.w + x) + 1)]

/-- The two bytes of panel pixel `(r, c)` as the specification describes them: the image
pixel under the fitted rectangle, black in the padding. -/
def spec_panel_pixel (img : image_t) (f : Fit) (r c : Nat) : List Nat :=
  if f.t_pad ≤ (r : Int) ∧ (r : Int) < f.t_pad + f.rect.h ∧
     f.l_pad ≤ (c : Int) ∧ (c : Int) < f.l_pad + f.rect.w then
    image_pixel_bytes img (f.rect.x + (c : Int) - f.l_pad) (f.rect.y + (r : Int) - f.t_pad)
  else
    [0, 0]

/-- The frame the specification describes: `H` rows of `W` pixels, row-major. -/
def spec_frame (img : image_t) (f : Fit) (W H : Nat) : List Nat :=
  (List.range H).flatMap (fun r => (List.range W).flatMap (fun c => spec_panel_pixel img f r c))

/-- The bytes of the first `n` pixels of image row `i` as the panel receives them
(converted for a grayscale image). -/
def image_row_bytes (img : image_t) (n : Nat) (i : Nat) : List Nat :=
  (List.range n).flatMap (fun j => image_pixel_bytes img (j : Int) (i : Int))

/-! ## Wire view of a trace -/

/-- One transmission on the SPI wire, with the level of the data/command line (RS) while
it is sent: low for a command, high for a parameter or data. -/
inductive Wire where
  | byte (dc : Bool) (b : Nat)
  | burst (dc : Bool) (len : Nat) (dat : List Nat)
deriving DecidableEq, Repr

/-- The transmissions of a trace in order, `dc` being the level of RS before the trace. -/
def wire_from (dc : Bool) : List Event → List Wire
  | [] => []
  | .HAL_GPIO_WritePin .RS bit :: es => wire_from bit es
  | .pyb_spi_send_int b :: es => .byte dc b :: wire_from dc es
  | .pyb_spi_send_bytes len dat :: es => .burst dc len dat :: wire_from dc es
  | _ :: es => wire_from dc es

/-- The SPI wire trace of a call; RS idles high, and every transmission of the driver
sets it first. -/
def wire_trace (evs : List Event) : List Wire := wire_from true evs

/-- The parameter bytes (RS high) at the head of a wire trace. -/
def params : List Wire → List Nat
  | .byte true b :: ws => b :: params ws
  | _ => []

/-- The command frames of a wire trace: each command byte (RS low) with the parameter
bytes that follow it. -/
def frames : List Wire → List (Nat × List Nat)
  | [] => []
  | .byte false c :: ws => (c, params ws) :: frames ws
  | _ :: ws => frames ws

/-- The power-control frames of a trace, commands 0xC0 to 0xC5. -/
def power_control_frames (evs : List Event) : List (Nat × List Nat) :=
  (frames (wire_trace evs)).filter (fun f => decide (0xC0 ≤ f.1) && decide (f.1 ≤ 0xC5))

/-- The frames strictly between the first frame of command `a` and the next frame of
command `b`. -/
def frames_between (a b : Nat) (fs : List (Nat × List Nat)) : List (Nat × List Nat) :=
  ((fs.dropWhile (fun f => f.1 != a)).drop 1).takeWhile (fun f => f.1 != b)

/-- The arguments of the `systick_sleep` calls of a trace, in order. -/
def sleeps (evs : List Event) : List Nat :=
  evs.filterMap (fun e => match e with
    | .systick_sleep ms => some ms
    | _ => none)

/-- The events that follow the first occurrence of `e`. -/
def after_event (e : Event) : List Event → List Event
  | [] => []
  | x :: xs => if x = e then xs else after_event e xs

/-- Number of writes of level `bit` to CS in a trace (`false` asserts CS, `true`
deasserts it). -/
def cs_writes (bit : Bool) (evs : List Event) : Nat :=
  evs.count (.HAL_GPIO_WritePin .CS bit)

/-- Every `HAL_GPIO_Init` of a trace with the event just before it (`prev` before the
trace). -/
def gpio_inits_from (prev : Option Event) : List Event → List (Option Event × GPIO_InitTypeDef)
  | [] => []
  | .HAL_GPIO_Init cfg :: es => (prev, cfg) :: gpio_inits_from (some (.HAL_GPIO_Init cfg)) es
  | e :: es => gpio_inits_from (some e) es

/-- Every `HAL_GPIO_Init` of a call's trace with the event just before it. -/
def gpio_inits (evs : List Event) : List (Option Event × GPIO_InitTypeDef) :=
  gpio_inits_from none evs

/-- The calls into the scratch allocator, in order. -/
def scratch_events (evs : List Event) : List Event :=
  evs.filter (fun e => match e with
    | .fb_alloc_mark => true
    | .fb_alloc0 _ => true
    | .fb_alloc _ => true
    | .fb_alloc_free_till_mark => true
    | _ => false)

/-- The call is an `init` whose `type` argument selects one of the two panels. -/
def Call.selects_panel : Call → Bool
  | .init _ args =>
    decide (py_helper_keyword_int args.type LcdType.LCD_SHIELD_0_96.toInt = 1) ||
    decide (py_helper_keyword_int args.type LcdType.LCD_SHIELD_0_96.toInt = 2)
  | .init_bgr_raises t =>
    decide (py_helper_keyword_int t LcdType.LCD_SHIELD_0_96.toInt = 1) ||
    decide (py_helper_keyword_int t LcdType.LCD_SHIELD_0_96.toInt = 2)
  | _ => false

/-- The level of RS after a trace, `dc` being its level before. -/
def rs_after (dc : Bool) : List Event → Bool
  | [] => dc
  | .HAL_GPIO_WritePin .RS bit :: es => rs_after bit es
  | _ :: es => rs_after dc es

/-- Lines 221-234 of `py_lcd_init` with `width = 128`, `height = 160`: MADCTL, pixel
format, inversion off, column and row window of the 1.8 inch panel. -/
def init_panel_1_8 (bgr : Nat) : List Event :=
  lcd_write_command 0x36 1 [(0xC0 ||| (bgr <<< 3)) % 256] ++
  lcd_write_command 0x3A 1 [0x05] ++
  lcd_write_command_byte 0x20 ++
  lcd_write_command 0x2A 4 [0, 0, 0, toU8 (128 - 1)] ++
  lcd_write_command 0x2B 4 [0, 0, 0, toU8 (160 - 1)]

/-- Lines 320-338 of `py_lcd_init` with `width = 160`, `height = 80`: inversion on,
MADCTL, pixel format, column and row window of the 0.96 inch panel. -/
def init_panel_0_96 (bgr : Nat) : List Event :=
  lcd_write_command_byte 0x21 ++
  lcd_write_command 0x36 1 [(0xA0 ||| (bgr <<< 3)) % 256] ++
  lcd_write_command 0x3A 1 [0x05] ++
  lcd_write_command 0x2A 4 [0, toU8 1 % 256, 0, toU8 (1 + 160 - 1)] ++
  lcd_write_command 0x2B 4 [0, toU8 26 % 256, 0, toU8 (26 + 80 - 1)]

/-- A trace that leaves CS high whenever CS was high before it. -/
def keeps_cs_high (evs : List Event) : Prop :=
  ∀ hw : Hw, hw.cs.level = true → (hw.run evs).cs.level = true

/-- A trace that leaves CS high, whatever the pads were before it. -/
def sets_cs_high (evs : List Event) : Prop :=
  ∀ hw : Hw, (hw.run evs).cs.level = true

/-- A trace that neither configures nor releases the LED pad. -/
def keeps_led_mode (evs : List Event) : Prop :=
  ∀ hw : Hw, (hw.run evs).led.mode = hw.led.mode

/-- The configuration the driver gives a pad: output mode `m`, no pull, low speed. -/
def pad_cfg (p : Pin) (m : GpioMode) : GPIO_InitTypeDef :=
  { Pin := p, Mode := m, Pull := .GPIO_NOPULL, Speed := .GPIO_SPEED_LOW }

/-! ## Sample inputs -/

/-- The statics after a successful `init(type = LCD_SHIELD_1_8)`. -/
def state_1_8 : Lcd :=
  { spi_port := some { bus := 4 }, width := 128, height := 160, type := .LCD_SHIELD_1_8,
    backlight_init := true }

/-- The statics after a successful `init(type = LCD_SHIELD_0_96)`. -/
def state_0_96 : Lcd :=
  { spi_port := some { bus := 4 }, width := 160, height := 80, type := .LCD_SHIELD_0_96,
    backlight_init := true }

/-- A small grayscale image with distinct pixel values. -/
def sample_gs : image_t :=
  { w := 4, h := 3, format := .grayscale, pixels := fun k => (k * 20).toNat }

/-- A 64x64 grayscale image, all pixels black. -/
def black_64 : image_t :=
  { w := 64, h := 64, format := .grayscale, pixels := fun _ => 0 }

/-- A 1x1 image of a format the driver does not support. -/
def sample_other : image_t :=
  { w := 1, h := 1, format := .other, pixels := fun _ => 0 }

/-- What holds in every reachable state: an uninitialised driver has its statics at the
initial values and neither RS nor LED configured; an initialised driver holds the statics
of one of the two panels, `backlight_init` apart, and CS is high; the LED pad is released
while `backlight_init` is false; and the CS pad is released or high. -/
def Sys.consistent (y : Sys) : Prop :=
  (y.lcd.type = .LCD_NONE → y.lcd = Lcd.initial ∧ y.hw.rs.mode = none ∧ y.hw.led.mode = none) ∧
  (y.lcd.type ≠ .LCD_NONE →
    ({ y.lcd with backlight_init := true } = state_1_8 ∨
     { y.lcd with backlight_init := true } = state_0_96) ∧ y.hw.cs.level = true) ∧
  (y.lcd.backlight_init = false → y.hw.led.mode = none) ∧
  (y.hw.cs.mode = none ∨ y.hw.cs.level = true)


/-! ## Geometry lemmas -/

theorem tdiv_two_of_nonneg {a : Int} (h : 0 ≤ a) : Int.tdiv a 2 = a / 2 :=
  Int.tdiv_eq_ediv h (by decide)

theorem fit_x_crop (rect : rectangle_t) (W : Int) (h : W < rect.w) :
    fit_x rect W = ({ rect with w := W, x := rect.x + (rect.w - W) / 2 }, 0, 0) := by
  have h2 : Int.tdiv (rect.w - W) 2 = (rect.w - W) / 2 := tdiv_two_of_nonneg (by omega)
  simp only [fit_x, gt_iff_lt, h, if_true, h2]
  congr 2
  omega

theorem fit_x_pad (rect : rectangle_t) (W : Int) (h : rect.w ≤ W) :
    fit_x rect W = (rect, (W - rect.w) / 2, (W - rect.w + 1) / 2) := by
  have h1 : Int.tdiv (W - rect.w) 2 = (W - rect.w) / 2 := tdiv_two_of_nonneg (by omega)
  have h2 : Int.tdiv (W - rect.w + 1) 2 = (W - rect.w + 1) / 2 := tdiv_two_of_nonneg (by omega)
  have hn : ¬ rect.w > W := by omega
  by_cases hlt : rect.w < W
  · simp only [fit_x, hn, if_false, hlt, if_true, h1, h2]
  · have he : W - rect.w = 0 := by omega
    simp [fit_x, hn, hlt, he]

theorem fit_y_crop (rect : rectangle_t) (H : Int) (h : H < rect.h) :
    fit_y rect H = ({ rect with h := H, y := rect.y + (rect.h - H) / 2 }, 0, 0) := by
  have h2 : Int.tdiv (rect.h - H) 2 = (rect.h - H) / 2 := tdiv_two_of_nonneg (by omega)
  simp only [fit_y, gt_iff_lt, h, if_true, h2]
  congr 2
  omega

theorem fit_y_pad (rect : rectangle_t) (H : Int) (h : rect.h ≤ H) :
    fit_y rect H = (rect, (H - rect.h) / 2, (H - rect.h + 1) / 2) := by
  have h1 : Int.tdiv (H - rect.h) 2 = (H - rect.h) / 2 := tdiv_two_of_nonneg (by omega)
  have h2 : Int.tdiv (H - rect.h + 1) 2 = (H - rect.h + 1) / 2 := tdiv_two_of_nonneg (by omega)
  have hn : ¬ rect.h > H := by omega
  by_cases hlt : rect.h < H
  · simp only [fit_y, hn, if_false, hlt, if_true, h1, h2]
  · have he : H - rect.h = 0 := by omega
    simp [fit_y, hn, hlt, he]

/-- The x side of the fitted geometry, in both cases. -/
theorem fit_x_facts (rect : rectangle_t) (W : Int) :
    (fit_x rect W).2.1 + (fit_x rect W).1.w + (fit_x rect W).2.2 = W ∧
    (fit_x rect W).2.1 ≤ (fit_x rect W).2.2 ∧ (fit_x rect W).2.2 ≤ (fit_x rect W).2.1 + 1 ∧
    0 ≤ (fit_x rect W).2.1 ∧
    (fit_x rect W).1.h = rect.h ∧ (fit_x rect W).1.y = rect.y ∧
    (0 ≤ rect.w → 0 ≤ W → 0 ≤ (fit_x rect W).1.w) := by
  rcases lt_or_le W rect.w with h | h
  · rw [fit_x_crop rect W h]; simp
  · rw [fit_x_pad rect W h]; simp; omega

/-- The y side of the fitted geometry, in both cases. -/
theorem fit_y_facts (rect : rectangle_t) (H : Int) :
    (fit_y rect H).2.1 + (fit_y rect H).1.h + (fit_y rect H).2.2 = H ∧
    (fit_y rect H).2.1 ≤ (fit_y rect H).2.2 ∧ (fit_y rect H).2.2 ≤ (fit_y rect H).2.1 + 1 ∧
    0 ≤ (fit_y rect H).2.1 ∧
    (fit_y rect H).1.w = rect.w ∧ (fit_y rect H).1.x = rect.x ∧
    (0 ≤ rect.h → 0 ≤ H → 0 ≤ (fit_y rect H).1.h) := by
  rcases lt_or_le H rect.h with h | h
  · rw [fit_y_crop rect H h]; simp
  · rw [fit_y_pad rect H h]; simp; omega

/-- Everything the pixel pump needs to know about the fitted geometry. -/
theorem fit_facts (rect : rectangle_t) (W H : Int) :
    (fit rect W H).l_pad + (fit rect W H).rect.w + (fit rect W H).r_pad = W ∧
    (fit rect W H).t_pad + (fit rect W H).rect.h + (fit rect W H).b_pad = H ∧
    0 ≤ (fit rect W H).l_pad ∧ (fit rect W H).l_pad ≤ (fit rect W H).r_pad ∧
    (fit rect W H).r_pad ≤ (fit rect W H).l_pad + 1 ∧
    0 ≤ (fit rect W H).t_pad ∧ (fit rect W H).t_pad ≤ (fit rect W H).b_pad ∧
    (fit rect W H).b_pad ≤ (fit rect W H).t_pad + 1 ∧
    (0 ≤ rect.w → 0 ≤ W → 0 ≤ (fit rect W H).rect.w) ∧
    (0 ≤ rect.h → 0 ≤ H → 0 ≤ (fit rect W H).rect.h) := by
  have hx := fit_x_facts rect W
  have hy := fit_y_facts (fit_x rect W).1 H
  simp only [fit]
  obtain ⟨x1, x2, x3, x4, x5, x6, x7⟩ := hx
  obtain ⟨y1, y2, y3, y4, y5, y6, y7⟩ := hy
  refine ⟨?_, y1, x4, x2, x3, y4, y2, y3, ?_, ?_⟩
  · rw [y5]; exact x1
  · rw [y5]; exact x7
  · intro h1 h2; exact y7 (by rw [x5]; exact h1) h2


/-! ## Trace lemmas -/

theorem data_lens_append (a b : List Event) : data_lens (a ++ b) = data_lens a ++ data_lens b := by
  simp [data_lens, List.filterMap_append]

theorem data_bursts_append (a b : List Event) :
    data_bursts (a ++ b) = data_bursts a ++ data_bursts b := by
  simp [data_bursts, List.filterMap_append]

theorem data_lens_flatMap {α : Type} (l : List α) (g : α → List Event) :
    data_lens (l.flatMap g) = l.flatMap (fun a => data_lens (g a)) := by
  induction l with
  | nil => rfl
  | cons a l ih => simp [List.flatMap_cons, data_lens_append, ih]

theorem data_bursts_flatMap {α : Type} (l : List α) (g : α → List Event) :
    data_bursts (l.flatMap g) = l.flatMap (fun a => data_bursts (g a)) := by
  induction l with
  | nil => rfl
  | cons a l ih => simp [List.flatMap_cons, data_bursts_append, ih]

theorem data_lens_command_byte (b : Nat) : data_lens (lcd_write_command_byte b) = [] := rfl

theorem data_bursts_command_byte (b : Nat) : data_bursts (lcd_write_command_byte b) = [] := rfl

theorem data_lens_write_data (len : Nat) (dat : Nat → Nat) :
    data_lens (lcd_write_data len dat) = [len] := rfl

theorem data_bursts_write_data (len : Nat) (dat : Nat → Nat) :
    data_bursts (lcd_write_data len dat) = [(List.range len).map dat] := rfl

theorem toU32_of_bounds {x : Int} (h0 : 0 ≤ x) (h1 : x < 4294967296) : toU32 x = x.toNat := by
  unfold toU32
  rw [Int.emod_eq_of_lt h0 h1]


theorem sum_flatMap_range (n : Nat) (g : Nat → List Nat) (c : Nat)
    (h : ∀ i, (g i).sum = c) : ((List.range n).flatMap g).sum = n * c := by
  induction n with
  | zero => simp
  | succ n ih =>
    rw [List.range_succ, List.flatMap_append, List.sum_append, ih]
    simp [h, Nat.succ_mul]

theorem data_lens_display_row_sum (img : image_t) (f : Fit) (i : Int) :
    (data_lens (display_row img f i)).sum =
      toU32 (f.l_pad * 2) + toU32 (f.rect.w * 2) + toU32 (f.r_pad * 2) := by
  have z : toU32 0 = 0 := by decide
  unfold display_row
  by_cases hl : f.l_pad = 0 <;> by_cases hr : f.r_pad = 0 <;> by_cases hg : IM_IS_GS img = true <;>
    simp [hl, hr, hg, z, data_lens_append, data_lens_write_data] <;> omega

theorem data_lens_display_frame_sum (W : Int) (img : image_t) (f : Fit) :
    (data_lens (display_frame W img f)).sum =
      f.t_pad.toNat * toU32 (W * 2) +
      f.rect.h.toNat * (toU32 (f.l_pad * 2) + toU32 (f.rect.w * 2) + toU32 (f.r_pad * 2)) +
      f.b_pad.toNat * toU32 (W * 2) := by
  unfold display_frame
  simp only [data_lens_append, data_lens_flatMap, List.sum_append, data_lens_command_byte]
  rw [sum_flatMap_range _ _ (toU32 (W * 2)) (fun _ => by simp [data_lens_write_data]),
      sum_flatMap_range _ _ _ (fun i => data_lens_display_row_sum img f (i : Int)),
      sum_flatMap_range _ _ (toU32 (W * 2)) (fun _ => by simp [data_lens_write_data])]
  simp [data_lens]

/-- Byte count of one frame for any panel size below the `uint32_t` range. -/
theorem display_frame_byte_count (W H : Int) (img : image_t) (rect : rectangle_t)
    (hW0 : 0 ≤ W) (hW : W * 2 < 4294967296) (hH : 0 ≤ H)
    (hw : 0 ≤ rect.w) (hh : 0 ≤ rect.h) :
    ((data_lens (display_frame W img (fit rect W H))).sum : Int) = W * H * 2 := by
  obtain ⟨f1, f2, f3, f4, f5, f6, f7, f8, f9, f10⟩ := fit_facts rect W H
  have hw2 := f9 hw hW0
  have hh2 := f10 hh hH
  rw [data_lens_display_frame_sum]
  generalize (fit rect W H) = f at *
  rw [toU32_of_bounds (by omega) hW, toU32_of_bounds (x := f.l_pad * 2) (by omega) (by omega),
      toU32_of_bounds (x := f.rect.w * 2) (by omega) (by omega),
      toU32_of_bounds (x := f.r_pad * 2) (by omega) (by omega)]
  have e1 : (f.l_pad * 2).toNat + (f.rect.w * 2).toNat + (f.r_pad * 2).toNat = (W * 2).toNat := by
    omega
  rw [e1]
  push_cast
  rw [Int.toNat_of_nonneg f6, Int.toNat_of_nonneg hh2, Int.toNat_of_nonneg (by omega : 0 ≤ f.b_pad),
      Int.toNat_of_nonneg (by omega : 0 ≤ W * 2)]
  rw [← f2]
  ring

theorem data_bytes_append (a b : List Event) : data_bytes (a ++ b) = data_bytes a ++ data_bytes b := by
  simp [data_bytes, data_bursts_append]

theorem data_bytes_flatMap {α : Type} (l : List α) (g : α → List Event) :
    data_bytes (l.flatMap g) = l.flatMap (fun a => data_bytes (g a)) := by
  induction l with
  | nil => rfl
  | cons a l ih => simp [List.flatMap_cons, data_bytes_append, ih]

theorem data_bytes_command_byte (b : Nat) : data_bytes (lcd_write_command_byte b) = [] := rfl

theorem data_bytes_write_data (len : Nat) (dat : Nat → Nat) :
    data_bytes (lcd_write_data len dat) = (List.range len).map dat := by
  simp [data_bytes, data_bursts_write_data]

theorem map_zero_line (n : Nat) : (List.range n).map zero_line = List.replicate n 0 := by
  induction n with
  | zero => rfl
  | succ n ih => rw [List.range_succ, List.map_append, ih, List.replicate_succ']; rfl

theorem flatMap_black (n : Nat) :
    (List.range n).flatMap (fun _ => [0, 0]) = List.replicate (2 * n) 0 := by
  induction n with
  | zero => rfl
  | succ n ih =>
    rw [List.range_succ, List.flatMap_append, ih]
    have : 2 * (n + 1) = 2 * n + 2 := by ring
    rw [this, List.replicate_add]
    rfl

/-- Reading `2 * n` bytes is reading `n` pixels of two bytes. -/
theorem map_range_two (n : Nat) (v : Nat → Nat) :
    (List.range (2 * n)).map v = (List.range n).flatMap (fun j => [v (2 * j), v (2 * j + 1)]) := by
  induction n with
  | zero => rfl
  | succ n ih =>
    have : 2 * (n + 1) = (2 * n + 1) + 1 := by ring
    rw [this, List.range_succ, List.range_succ, List.map_append, List.map_append, ih,
      List.range_succ, List.flatMap_append]
    simp

theorem flatMap_range_add {α : Type} (a b : Nat) (g : Nat → List α) :
    (List.range (a + b)).flatMap g =
      (List.range a).flatMap g ++ (List.range b).flatMap (fun i => g (a + i)) := by
  rw [List.range_add, List.flatMap_append]
  congr 1
  induction (List.range b) with
  | nil => rfl
  | cons x l ih => simp [List.flatMap_cons, ih]

theorem flatMap_range_congr {α : Type} (n : Nat) (f g : Nat → List α)
    (h : ∀ i, i < n → f i = g i) : (List.range n).flatMap f = (List.range n).flatMap g :=
  List.flatMap_congr (fun x hx => h x (List.mem_range.mp hx))

theorem gs_line_pixel (img : image_t) (hg : IM_IS_GS img = true) (rect : rectangle_t)
    (i : Int) (j : Nat) :
    [gs_line img rect i (2 * j), gs_line img rect i (2 * j + 1)] =
      image_pixel_bytes img (rect.x + (j : Int)) (rect.y + i) := by
  have h1 : (2 * j) / 2 = j := by omega
  have h2 : (2 * j + 1) / 2 = j := by omega
  have h3 : (2 * j) % 2 = 0 := by omega
  have h4 : ¬ (2 * j + 1) % 2 = 0 := by omega
  simp only [gs_line, image_pixel_bytes, hg, if_true, pixel_byte, h1, h2, h3, h4, if_false]

theorem rgb565_line_pixel (img : image_t) (hg : ¬ IM_IS_GS img = true) (rect : rectangle_t)
    (i : Int) (j : Nat) :
    [rgb565_line img rect i (2 * j), rgb565_line img rect i (2 * j + 1)] =
      image_pixel_bytes img (rect.x + (j : Int)) (rect.y + i) := by
  simp only [rgb565_line, image_pixel_bytes, hg, if_false]
  congr 2
  · push_cast; ring
  · congr 1; push_cast; ring

theorem toU32_two_mul (n : Nat) (h : 2 * n < 4294967296) : toU32 ((n : Int) * 2) = 2 * n := by
  rw [toU32_of_bounds (by omega) (by omega)]
  omega

/-- The bytes of one image row as the pump sends them. -/
theorem data_bytes_display_row (img : image_t) (f : Fit) (i : Int) (l w r : Nat)
    (hl : f.l_pad = l) (hw : f.rect.w = w) (hr : f.r_pad = r)
    (hb : 2 * (l + w + r) < 4294967296) :
    data_bytes (display_row img f i) =
      List.replicate (2 * l) 0 ++
      (List.range w).flatMap (fun j => image_pixel_bytes img (f.rect.x + (j : Int)) (f.rect.y + i)) ++
      List.replicate (2 * r) 0 := by
  unfold display_row
  rw [data_bytes_append, data_bytes_append, hl, hw, hr,
    toU32_two_mul l (by omega), toU32_two_mul w (by omega), toU32_two_mul r (by omega)]
  congr 1
  · congr 1
    · by_cases h0 : (l : Int) = 0
      · have : l = 0 := by omega
        subst this
        simp [data_bytes, data_bursts]
      · simp only [ne_eq, h0, not_false_eq_true, if_true, data_bytes_write_data, map_zero_line]
    · by_cases hg : IM_IS_GS img = true
      · rw [if_pos hg, data_bytes_write_data, map_range_two]
        exact flatMap_range_congr _ _ _ (fun j _ => gs_line_pixel img hg f.rect i j)
      · rw [if_neg hg, data_bytes_write_data, map_range_two]
        exact flatMap_range_congr _ _ _ (fun j _ => rgb565_line_pixel img hg f.rect i j)
  · by_cases h0 : (r : Int) = 0
    · have : r = 0 := by omega
      subst this
      simp [data_bytes, data_bursts]
    · simp only [ne_eq, h0, not_false_eq_true, if_true, data_bytes_write_data, map_zero_line]

/-- A panel row outside the fitted rectangle is black in the specification. -/
theorem spec_row_out (img : image_t) (f : Fit) (rr W : Nat)
    (hout : ¬ (f.t_pad ≤ (rr : Int) ∧ (rr : Int) < f.t_pad + f.rect.h)) :
    (List.range W).flatMap (fun c => spec_panel_pixel img f rr c) = List.replicate (2 * W) 0 := by
  rw [← flatMap_black]
  apply flatMap_range_congr
  intro c _
  unfold spec_panel_pixel
  rw [if_neg (fun h => hout ⟨h.1, h.2.1⟩)]

/-- A panel row inside the fitted rectangle: left pad, image pixels, right pad. -/
theorem spec_row_in (img : image_t) (f : Fit) (rr l w r : Nat)
    (hl : f.l_pad = l) (hw : f.rect.w = w)
    (hin : f.t_pad ≤ (rr : Int) ∧ (rr : Int) < f.t_pad + f.rect.h) :
    (List.range (l + w + r)).flatMap (fun c => spec_panel_pixel img f rr c) =
      List.replicate (2 * l) 0 ++
      (List.range w).flatMap
        (fun j => image_pixel_bytes img (f.rect.x + (j : Int)) (f.rect.y + (rr : Int) - f.t_pad)) ++
      List.replicate (2 * r) 0 := by
  rw [flatMap_range_add (l + w) r, flatMap_range_add l w]
  congr 1
  · congr 1
    · rw [← flatMap_black]
      apply flatMap_range_congr
      intro c hc
      unfold spec_panel_pixel
      rw [if_neg]
      rw [hl]
      omega
    · apply flatMap_range_congr
      intro j hj
      unfold spec_panel_pixel
      rw [if_pos]
      · congr 1
        rw [hl]; push_cast; ring
      · refine ⟨hin.1, hin.2, ?_, ?_⟩
        · rw [hl]; push_cast; omega
        · rw [hl, hw]; push_cast; omega
  · rw [← flatMap_black]
    apply flatMap_range_congr
    intro c hc
    unfold spec_panel_pixel
    rw [if_neg]
    rw [hl, hw]
    push_cast
    omega

/-- The bytes of a whole frame are the frame of the specification. -/
theorem data_bytes_display_frame (img : image_t) (f : Fit) (l w r t h b : Nat)
    (hl : f.l_pad = l) (hw : f.rect.w = w) (hr : f.r_pad = r)
    (ht : f.t_pad = t) (hh : f.rect.h = h) (hb : f.b_pad = b)
    (hW : 2 * (l + w + r) < 4294967296) :
    data_bytes (display_frame ((l + w + r : Nat) : Int) img f) =
      spec_frame img f (l + w + r) (t + h + b) := by
  have hlen : toU32 (((l + w + r : Nat) : Int) * 2) = 2 * (l + w + r) := toU32_two_mul _ hW
  unfold display_frame spec_frame
  simp only [data_bytes_append, data_bytes_flatMap, data_bytes_command_byte, hlen,
    data_bytes_write_data, map_zero_line, List.nil_append]
  have e1 : data_bytes [Event.fb_alloc_mark, Event.fb_alloc0 (2 * (l + w + r)),
      Event.fb_alloc (2 * (l + w + r))] = [] := rfl
  have e2 : data_bytes [Event.fb_alloc_free_till_mark] = [] := rfl
  rw [e1, e2, List.nil_append, List.append_nil, ht, hh, hb, Int.toNat_ofNat, Int.toNat_ofNat,
    Int.toNat_ofNat, flatMap_range_add (t + h) b, flatMap_range_add t h]
  congr 1
  · congr 1
    · apply flatMap_range_congr
      intro i hi
      rw [spec_row_out]
      rw [ht]; omega
    · apply flatMap_range_congr
      intro i hi
      rw [data_bytes_display_row img f (i : Int) l w r hl hw hr hW,
        spec_row_in img f (t + i) l w r hl hw (by rw [ht, hh]; push_cast; omega)]
      congr 2
      apply flatMap_range_congr
      intro j _
      congr 1
      rw [ht]; push_cast; ring
  · apply flatMap_range_congr
    intro i hi
    rw [spec_row_out]
    rw [ht, hh]; push_cast; omega

theorem after_byte_append_of_not_mem (b : Nat) (pre rest : List Event)
    (h : Event.pyb_spi_send_int b ∉ pre) : after_byte b (pre ++ rest) = after_byte b rest := by
  induction pre with
  | nil => rfl
  | cons e es ih =>
    have he : e ≠ Event.pyb_spi_send_int b := fun hh => h (by simp [hh])
    have hes : Event.pyb_spi_send_int b ∉ es := fun hh => h (by simp [hh])
    simp only [List.cons_append, after_byte, he, if_false]
    exact ih hes

theorem data_bytes_after_memory_write (W : Int) (img : image_t) (f : Fit) :
    data_bytes (after_byte 0x2C (display_frame W img f)) = data_bytes (display_frame W img f) :=
  rfl

/-- On an initialised panel and for a supported image, the bursts of `py_lcd_display` are
those of the shared frame. -/
theorem display_events (s : Lcd) (W H : Int) (hp : s.is_panel W H) (img : image_t)
    (hm : IM_IS_MUTABLE img = true) (rect : rectangle_t) :
    data_bytes (after_byte 0x2C (py_lcd_display img (some rect) s).ev) =
      data_bytes (display_frame W img (fit rect W H)) ∧
    data_lens (py_lcd_display img (some rect) s).ev =
      data_lens (display_frame W img (fit rect W H)) ∧
    data_bursts (after_byte 0x2C (py_lcd_display img (some rect) s).ev) =
      data_bursts (display_frame W img (fit rect W H)) := by
  obtain ⟨hv, hw, hh⟩ := hp
  rcases hv with ⟨ht, rfl, rfl⟩ | ⟨ht, rfl, rfl⟩
  · simp only [py_lcd_display, hm, Bool.not_true, Bool.false_eq_true, if_false, ht, hw, hh]
    exact ⟨rfl, trivial, rfl⟩
  · simp only [py_lcd_display, hm, Bool.not_true, Bool.false_eq_true, if_false, ht, hw, hh]
    have hn : Event.pyb_spi_send_int 0x2C ∉
        lcd_write_command 0x2A 2 [0, 1] ++ lcd_write_command 0x2B 2 [0, 26] := by decide
    have hz : data_lens (lcd_write_command 0x2A 2 [0, 1] ++ lcd_write_command 0x2B 2 [0, 26]) = [] := by
      decide
    rw [after_byte_append_of_not_mem _ _ _ hn, data_lens_append, hz]
    exact ⟨rfl, rfl, rfl⟩

/-- The frame of the pump is the frame of the specification, for any panel size below
the `uint32_t` range. -/
theorem display_frame_bytes (W H : Int) (img : image_t) (rect : rectangle_t)
    (hW0 : 0 ≤ W) (hW : W * 2 < 4294967296) (hH : 0 ≤ H)
    (hw : 0 ≤ rect.w) (hh : 0 ≤ rect.h) :
    data_bytes (display_frame W img (fit rect W H)) =
      spec_frame img (fit rect W H) W.toNat H.toNat := by
  obtain ⟨f1, f2, f3, f4, f5, f6, f7, f8, f9, f10⟩ := fit_facts rect W H
  have hw2 := f9 hw hW0
  have hh2 := f10 hh hH
  generalize (fit rect W H) = f at *
  have e := data_bytes_display_frame img f f.l_pad.toNat f.rect.w.toNat f.r_pad.toNat
    f.t_pad.toNat f.rect.h.toNat f.b_pad.toNat (by omega) (by omega) (by omega) (by omega)
    (by omega) (by omega) (by omega)
  have eW : ((f.l_pad.toNat + f.rect.w.toNat + f.r_pad.toNat : Nat) : Int) = W := by omega
  have eW2 : f.l_pad.toNat + f.rect.w.toNat + f.r_pad.toNat = W.toNat := by omega
  have eH2 : f.t_pad.toNat + f.rect.h.toNat + f.b_pad.toNat = H.toNat := by omega
  rw [eW, eW2, eH2] at e
  exact e

/-! ## Indexing into a frame -/

theorem IM_IS_MUTABLE_of_gs (img : image_t) (hg : IM_IS_GS img = true) :
    IM_IS_MUTABLE img = true := by
  simp only [IM_IS_GS, decide_eq_true_eq] at hg
  simp [IM_IS_MUTABLE, hg]

theorem flatMap_const_singleton {α : Type} (n : Nat) (x : α) :
    (List.range n).flatMap (fun _ => [x]) = List.replicate n x := by
  induction n with
  | zero => rfl
  | succ n ih => rw [List.range_succ, List.flatMap_append, ih, List.replicate_succ']; rfl

/-- The bursts of a 64x64 grayscale image shown in full on the 128x160 panel. -/
theorem display_64_bursts (s : Lcd) (hp : s.is_panel 128 160) (img : image_t)
    (hg : IM_IS_GS img = true) (hw : img.w = 64) (hh : img.h = 64) :
    data_bursts (after_byte 0x2C (py_lcd_display img (some (full_roi img)) s).ev) =
      List.replicate 48 (List.replicate 256 0) ++
      (List.range 64).flatMap
        (fun i => [List.replicate 64 0, image_row_bytes img 64 i, List.replicate 64 0]) ++
      List.replicate 48 (List.replicate 256 0) := by
  rw [(display_events s 128 160 hp img (IM_IS_MUTABLE_of_gs img hg) (full_roi img)).2.2]
  have hroi : full_roi img = ⟨0, 0, 64, 64⟩ := by simp [full_roi, hw, hh]
  have hfit : fit ⟨0, 0, 64, 64⟩ 128 160 = ⟨⟨0, 0, 64, 64⟩, 32, 32, 48, 48⟩ := by decide
  have hL : toU32 (128 * 2) = 256 := by decide
  have h64 : toU32 (32 * 2) = 64 := by decide
  have h128 : toU32 (64 * 2) = 2 * 64 := by decide
  have h32 : (32 : Int) ≠ 0 := by decide
  rw [hroi, hfit]
  simp only [display_frame, display_row, data_bursts_append, data_bursts_flatMap,
    data_bursts_command_byte, data_bursts_write_data, hL, h64, h128, h32, ne_eq,
    not_false_eq_true, if_true, hg, map_zero_line, map_range_two, Int.toNat_ofNat,
    List.nil_append, flatMap_const_singleton]
  have e1 : data_bursts [Event.fb_alloc_mark, Event.fb_alloc0 256, Event.fb_alloc 256] = [] := rfl
  have e2 : data_bursts [Event.fb_alloc_free_till_mark] = [] := rfl
  have e48 : Int.toNat 48 = 48 := rfl
  have e64 : Int.toNat 64 = 64 := rfl
  simp only [e1, e2, e48, e64, List.nil_append, List.append_nil, List.singleton_append,
    List.cons_append, flatMap_const_singleton]
  congr 2
  apply flatMap_range_congr
  intro i _
  congr 2
  unfold image_row_bytes
  apply flatMap_range_congr
  intro j _
  rw [gs_line_pixel img hg]
  simp

theorem deinit_ret (s : Lcd) : (py_lcd_deinit s).ret = .mp_const_none := by
  unfold py_lcd_deinit
  cases s.type <;> cases s.backlight_init <;> rfl

theorem deinit_of_none (s : Lcd) (h : s.type = .LCD_NONE) :
    py_lcd_deinit s = { st := s, ev := [], ret := .mp_const_none } := by
  unfold py_lcd_deinit
  rw [h]

/-- After `py_lcd_deinit` from an initialised state all statics have their initial values. -/
theorem deinit_of_initialised (s : Lcd) (h : s.type ≠ .LCD_NONE) :
    (py_lcd_deinit s).st = Lcd.initial := by
  unfold py_lcd_deinit
  cases ht : s.type with
  | LCD_NONE => exact absurd ht h
  | LCD_SHIELD_1_8 => cases hb : s.backlight_init <;> simp [hb, Lcd.initial]
  | LCD_SHIELD_0_96 => cases hb : s.backlight_init <;> simp [hb, Lcd.initial]

theorem deinit_type (s : Lcd) : (py_lcd_deinit s).st.type = .LCD_NONE := by
  by_cases h : s.type = .LCD_NONE
  · rw [deinit_of_none s h]; exact h
  · rw [deinit_of_initialised s h]; rfl

theorem deinit_state (s : Lcd) (h : s.type = .LCD_NONE → s = Lcd.initial) :
    (py_lcd_deinit s).st = Lcd.initial := by
  by_cases h0 : s.type = .LCD_NONE
  · rw [deinit_of_none s h0]; exact h h0
  · exact deinit_of_initialised s h0

/-- The events of `py_lcd_deinit` from an initialised state whose LED pad is configured. -/
theorem deinit_events (s : Lcd) (h : s.type ≠ .LCD_NONE) (hb : s.backlight_init = true) :
    (py_lcd_deinit s).ev =
      [ .HAL_GPIO_DeInit .RST, .HAL_GPIO_DeInit .RS, .HAL_GPIO_DeInit .CS, .pyb_spi_deinit,
        .HAL_GPIO_DeInit .LED ] := by
  unfold py_lcd_deinit
  cases ht : s.type with
  | LCD_NONE => exact absurd ht h
  | LCD_SHIELD_1_8 => simp [hb]
  | LCD_SHIELD_0_96 => simp [hb]

theorem released_after_deinit_events (hw : Hw) :
    (hw.run [ .HAL_GPIO_DeInit .RST, .HAL_GPIO_DeInit .RS, .HAL_GPIO_DeInit .CS, .pyb_spi_deinit,
        .HAL_GPIO_DeInit .LED ]).released :=
  ⟨rfl, rfl, rfl, rfl⟩

/-- A successful `init` of the 1.8 inch panel. -/
theorem init_1_8_ok (s : Lcd) (args : InitArgs) (h : args.type = some 1) :
    (py_lcd_init true args s).st = state_1_8 ∧ (py_lcd_init true args s).ret = .mp_const_none := by
  simp [py_lcd_init, py_helper_keyword_int, h, LcdType.toInt, init_backlight, state_1_8]

/-- A successful `init` of the 0.96 inch panel, by keyword or by default. -/
theorem init_0_96_ok (s : Lcd) (args : InitArgs) (h : args.type = some 2 ∨ args.type = none) :
    (py_lcd_init true args s).st = state_0_96 ∧ (py_lcd_init true args s).ret = .mp_const_none := by
  rcases h with h | h <;>
    simp [py_lcd_init, py_helper_keyword_int, h, LcdType.toInt, init_backlight, state_0_96]

/-- An `init` whose SPI open fails leaves through the exception with the statics as
`py_lcd_deinit` left them. -/
theorem init_spi_fail (s : Lcd) (args : InitArgs) :
    (py_lcd_init false args s).st = (py_lcd_deinit s).st := by
  simp only [py_lcd_init]
  split_ifs <;> first | rfl | contradiction

/-- With `LCD_NONE` or an unknown `type` value `init` is `deinit`. -/
theorem init_no_panel (spi_ok : Bool) (s : Lcd) (args : InitArgs)
    (h1 : py_helper_keyword_int args.type 2 ≠ 1) (h2 : py_helper_keyword_int args.type 2 ≠ 2) :
    py_lcd_init spi_ok args s = py_lcd_deinit s := by
  have hr := deinit_ret s
  simp only [py_lcd_init, LcdType.toInt, h1, h2, if_false]
  split_ifs <;> (rw [← hr])

/-- The statics after any `init` are those after `deinit` or those of a panel. -/
theorem init_state_cases (spi_ok : Bool) (s : Lcd) (args : InitArgs) :
    (py_lcd_init spi_ok args s).st = (py_lcd_deinit s).st ∨
    (spi_ok = true ∧ ((py_lcd_init spi_ok args s).st = state_1_8 ∨
                       (py_lcd_init spi_ok args s).st = state_0_96)) := by
  cases spi_ok with
  | false => exact Or.inl (init_spi_fail s args)
  | true =>
    by_cases h1 : py_helper_keyword_int args.type 2 = 1
    · right
      refine ⟨rfl, Or.inl ?_⟩
      simp [py_lcd_init, h1, LcdType.toInt, init_backlight, state_1_8]
    · by_cases h2 : py_helper_keyword_int args.type 2 = 2
      · right
        refine ⟨rfl, Or.inr ?_⟩
        simp [py_lcd_init, h2, LcdType.toInt, init_backlight, state_0_96]
      · left
        rw [init_no_panel true s args h1 h2]

theorem display_of_none (s : Lcd) (h : s.type = .LCD_NONE) (img : image_t)
    (roi : Option rectangle_t) :
    (py_lcd_display img roi s).st = s ∧ (py_lcd_display img roi s).ev = [] := by
  unfold py_lcd_display
  cases hm : IM_IS_MUTABLE img <;> cases roi <;> simp [h]

theorem display_state (s : Lcd) (img : image_t) (roi : Option rectangle_t) :
    (py_lcd_display img roi s).st = s := by
  unfold py_lcd_display
  cases hm : IM_IS_MUTABLE img <;> cases roi <;> cases ht : s.type <;> simp

theorem clear_state (s : Lcd) : (py_lcd_clear s).st = s := by
  unfold py_lcd_clear
  cases ht : s.type <;> rfl

theorem clear_of_none (s : Lcd) (h : s.type = .LCD_NONE) :
    py_lcd_clear s = { st := s, ev := [], ret := .mp_const_none } := by
  unfold py_lcd_clear
  rw [h]

theorem set_backlight_of_none (s : Lcd) (h : s.type = .LCD_NONE) (x : Int) :
    py_lcd_set_backlight x s = { st := s, ev := [], ret := .mp_const_none } := by
  unfold py_lcd_set_backlight
  rw [h]

theorem set_backlight_state (s : Lcd) (h : s.type ≠ .LCD_NONE) (x : Int) :
    (py_lcd_set_backlight x s).st.type = s.type ∧
    (py_lcd_set_backlight x s).st.backlight_init = true := by
  unfold py_lcd_set_backlight
  cases ht : s.type with
  | LCD_NONE => exact absurd ht h
  | LCD_SHIELD_1_8 => cases hb : s.backlight_init <;> simp [hb, ht]
  | LCD_SHIELD_0_96 => cases hb : s.backlight_init <;> simp [hb, ht]

theorem get_backlight_state (s : Lcd) (lv : Bool) : (py_lcd_get_backlight lv s).st = s := by
  unfold py_lcd_get_backlight
  cases ht : s.type <;> cases hb : s.backlight_init <;> rfl

theorem get_backlight_of_none (s : Lcd) (h : s.type = .LCD_NONE) (lv : Bool) :
    (py_lcd_get_backlight lv s).ev = [] := by
  unfold py_lcd_get_backlight
  rw [h]

theorem width_step (s : Lcd) : (py_lcd_width s).st = s ∧ (py_lcd_width s).ev = [] := by
  unfold py_lcd_width
  split_ifs <;> exact ⟨rfl, rfl⟩

theorem height_step (s : Lcd) : (py_lcd_height s).st = s ∧ (py_lcd_height s).ev = [] := by
  unfold py_lcd_height
  split_ifs <;> exact ⟨rfl, rfl⟩

theorem type_step (s : Lcd) : (py_lcd_type s).st = s ∧ (py_lcd_type s).ev = [] := by
  unfold py_lcd_type
  split_ifs <;> exact ⟨rfl, rfl⟩

/-! ## Claims on the geometry -/

/-- C3: for every rectangle (so for every one with non-negative width and height) and
every panel size, the fit step leaves `l_pad + rect.w + r_pad = W` and `t_pad + rect.h + b_pad = H`, the right
(bottom) pad equals the left (top) pad or exceeds it by one, and when the rectangle is not
wider (higher) than the panel the pads are `(W - rect.w)/2` and `(W - rect.w + 1)/2` with
floor division (likewise for y). -/
theorem fit_pads (rect : rectangle_t) (W H : Int) :
    (fit rect W H).l_pad + (fit rect W H).rect.w + (fit rect W H).r_pad = W ∧
    (fit rect W H).t_pad + (fit rect W H).rect.h + (fit rect W H).b_pad = H ∧
    (fit rect W H).l_pad ≤ (fit rect W H).r_pad ∧
    (fit rect W H).r_pad ≤ (fit rect W H).l_pad + 1 ∧
    (fit rect W H).t_pad ≤ (fit rect W H).b_pad ∧
    (fit rect W H).b_pad ≤ (fit rect W H).t_pad + 1 ∧
    (rect.w ≤ W → (fit rect W H).l_pad = (W - rect.w) / 2 ∧
                  (fit rect W H).r_pad = (W - rect.w + 1) / 2) ∧
    (rect.h ≤ H → (fit rect W H).t_pad = (H - rect.h) / 2 ∧
                  (fit rect W H).b_pad = (H - rect.h + 1) / 2) := by
  obtain ⟨f1, f2, _, f4, f5, _, f7, f8, _, _⟩ := fit_facts rect W H
  refine ⟨f1, f2, f4, f5, f7, f8, ?_, ?_⟩
  · intro h
    simp only [fit, fit_x_pad rect W h]
    exact ⟨trivial, trivial⟩
  · intro h
    have hy : (fit_x rect W).1.h = rect.h := (fit_x_facts rect W).2.2.2.2.1
    have h2 : (fit_x rect W).1.h ≤ H := by rw [hy]; exact h
    simp only [fit, fit_y_pad _ H h2, hy]
    exact ⟨trivial, trivial⟩

/-- Witness for C3: a 64x64 rectangle on the 128x160 panel. -/
theorem fit_pads_witness :
    (fit ⟨0, 0, 64, 64⟩ 128 160).l_pad = (128 - 64) / 2 ∧
    (fit ⟨0, 0, 64, 64⟩ 128 160).t_pad = (160 - 64) / 2 :=
  ⟨((fit_pads ⟨0, 0, 64, 64⟩ 128 160).2.2.2.2.2.2.1 (by decide)).1,
   ((fit_pads ⟨0, 0, 64, 64⟩ 128 160).2.2.2.2.2.2.2 (by decide)).1⟩

/-- C4: when the rectangle is wider than the panel the fit step sets `rect.w` to `W`,
advances `rect.x` by `(rect.w - W)/2` (floor) and leaves `l_pad = r_pad = 0`; likewise for a
rectangle higher than the panel with `rect.y`, `t_pad`, `b_pad`.  A 256x200 full-image roi
on the 160x80 panel becomes `x = 48, y = 60, w = 160, h = 80` with all four pads 0. -/
theorem fit_crops (rect : rectangle_t) (W H : Int) :
    (W < rect.w → (fit rect W H).rect.w = W ∧
        (fit rect W H).rect.x = rect.x + (rect.w - W) / 2 ∧
        (fit rect W H).l_pad = 0 ∧ (fit rect W H).r_pad = 0) ∧
    (H < rect.h → (fit rect W H).rect.h = H ∧
        (fit rect W H).rect.y = rect.y + (rect.h - H) / 2 ∧
        (fit rect W H).t_pad = 0 ∧ (fit rect W H).b_pad = 0) ∧
    fit { x := 0, y := 0, w := 256, h := 200 } 160 80 =
      { rect := { x := 48, y := 60, w := 160, h := 80 },
        l_pad := 0, r_pad := 0, t_pad := 0, b_pad := 0 } := by
  refine ⟨?_, ?_, by decide⟩
  · intro h
    obtain ⟨_, _, _, _, y5, y6, _⟩ := fit_y_facts (fit_x rect W).1 H
    have hx := fit_x_crop rect W h
    refine ⟨?_, ?_, ?_, ?_⟩
    · show (fit_y (fit_x rect W).1 H).1.w = W
      rw [y5, hx]
    · show (fit_y (fit_x rect W).1 H).1.x = rect.x + (rect.w - W) / 2
      rw [y6, hx]
    · show (fit_x rect W).2.1 = 0
      rw [hx]
    · show (fit_x rect W).2.2 = 0
      rw [hx]
  · intro h
    have hy : (fit_x rect W).1.h = rect.h := (fit_x_facts rect W).2.2.2.2.1
    have hy2 : (fit_x rect W).1.y = rect.y := (fit_x_facts rect W).2.2.2.2.2.1
    have h2 : H < (fit_x rect W).1.h := by rw [hy]; exact h
    simp only [fit, fit_y_crop _ H h2, hy, hy2]
    exact ⟨trivial, trivial, trivial, trivial⟩

/-- Witness for C4: a 300x100 rectangle at (10, 20) on the 160x80 panel. -/
theorem fit_crops_witness :
    (fit ⟨10, 20, 300, 100⟩ 160 80).rect.w = 160 ∧
    (fit ⟨10, 20, 300, 100⟩ 160 80).rect.x = 10 + (300 - 160) / 2 ∧
    (fit ⟨10, 20, 300, 100⟩ 160 80).rect.h = 80 ∧
    (fit ⟨10, 20, 300, 100⟩ 160 80).rect.y = 20 + (100 - 80) / 2 :=
  ⟨((fit_crops ⟨10, 20, 300, 100⟩ 160 80).1 (by decide)).1,
   ((fit_crops ⟨10, 20, 300, 100⟩ 160 80).1 (by decide)).2.1,
   ((fit_crops ⟨10, 20, 300, 100⟩ 160 80).2.1 (by decide)).1,
   ((fit_crops ⟨10, 20, 300, 100⟩ 160 80).2.1 (by decide)).2.1⟩

/-! ## Claims on the pixel pump -/

/-- C1: on an initialised panel of `W x H` pixels, for every grayscale-8 or RGB565 image and
every roi rectangle with non-negative width and height, the concatenation of the data
bursts `py_lcd_display` sends after the memory-write command 0x2C is exactly `H` rows of `W`
pixels in row-major order: panel pixel `(r, c)` is the image pixel at
`(rect.x + c - l_pad, rect.y + r - t_pad)` inside the fitted rectangle and two zero bytes
elsewhere.  (The equation holds whether or not the roi lies inside the image.) -/
theorem display_sends_frame (s : Lcd) (W H : Int) (hp : s.is_panel W H) (img : image_t)
    (hm : IM_IS_MUTABLE img = true) (rect : rectangle_t) (hw : 0 ≤ rect.w) (hh : 0 ≤ rect.h) :
    data_bytes (after_byte 0x2C (py_lcd_display img (some rect) s).ev) =
      spec_frame img (fit rect W H) W.toNat H.toNat := by
  rw [(display_events s W H hp img hm rect).1]
  obtain ⟨hv, _, _⟩ := hp
  rcases hv with ⟨_, rfl, rfl⟩ | ⟨_, rfl, rfl⟩
  · exact display_frame_bytes 128 160 img rect (by decide) (by decide) (by decide) hw hh
  · exact display_frame_bytes 160 80 img rect (by decide) (by decide) (by decide) hw hh

/-- Witness for C1: a 4x3 grayscale image, full roi, on the 1.8 inch panel. -/
theorem display_sends_frame_witness :
    data_bytes (after_byte 0x2C (py_lcd_display sample_gs (some ⟨0, 0, 4, 3⟩) state_1_8).ev) =
      spec_frame sample_gs (fit ⟨0, 0, 4, 3⟩ 128 160) (Int.toNat 128) (Int.toNat 160) :=
  display_sends_frame state_1_8 128 160 ⟨Or.inl ⟨rfl, rfl, rfl⟩, rfl, rfl⟩ sample_gs rfl
    ⟨0, 0, 4, 3⟩ (by decide) (by decide)

/-- C2: on an initialised panel of `W x H` pixels, for an image `py_lcd_display` accepts and
any rectangle with non-negative width and height, the lengths passed to `lcd_write_data`
by `py_lcd_display` add up to `W * H * 2`. -/
theorem display_byte_count (s : Lcd) (W H : Int) (hp : s.is_panel W H) (img : image_t)
    (hm : IM_IS_MUTABLE img = true) (rect : rectangle_t) (hw : 0 ≤ rect.w) (hh : 0 ≤ rect.h) :
    ((data_lens (py_lcd_display img (some rect) s).ev).sum : Int) = W * H * 2 := by
  rw [(display_events s W H hp img hm rect).2.1]
  obtain ⟨hv, _, _⟩ := hp
  rcases hv with ⟨_, rfl, rfl⟩ | ⟨_, rfl, rfl⟩
  · exact display_frame_byte_count 128 160 img rect (by decide) (by decide) (by decide) hw hh
  · exact display_frame_byte_count 160 80 img rect (by decide) (by decide) (by decide) hw hh

/-- Witness for C2: a 300x100 rectangle (cropped in x, padded in y) on the 0.96 inch panel. -/
theorem display_byte_count_witness :
    ((data_lens (py_lcd_display sample_gs (some ⟨10, 20, 300, 70⟩) state_0_96).ev).sum : Int) =
      160 * 80 * 2 :=
  display_byte_count state_0_96 160 80 ⟨Or.inr ⟨rfl, rfl, rfl⟩, rfl, rfl⟩ sample_gs rfl
    ⟨10, 20, 300, 70⟩ (by decide) (by decide)

/-- C6, as the code behaves: for every 64x64 grayscale image shown with the full-image roi
on an initialised 1.8 inch panel (128x160), `py_lcd_display` emits after 0x2C 48 bursts of
one all-zero row (256 bytes), then for each of the 64 image rows a burst of 64 zero bytes
(32 black pixels), a burst of the 128 converted bytes and a burst of 64 zero bytes, then
48 bursts of one all-zero row. -/
theorem display_64x64_bursts (s : Lcd) (hp : s.is_panel 128 160) (img : image_t)
    (hg : img.format = .grayscale) (hw : img.w = 64) (hh : img.h = 64) :
    data_bursts (after_byte 0x2C (py_lcd_display img (some (full_roi img)) s).ev) =
      List.replicate 48 (List.replicate 256 0) ++
      (List.range 64).flatMap
        (fun i => [List.replicate 64 0, image_row_bytes img 64 i, List.replicate 64 0]) ++
      List.replicate 48 (List.replicate 256 0) :=
  display_64_bursts s hp img (by simp [IM_IS_GS, hg]) hw hh

/-- Witness for C6: the all-black 64x64 image on the 1.8 inch panel. -/
theorem display_64x64_bursts_witness :
    data_bursts (after_byte 0x2C (py_lcd_display black_64 (some (full_roi black_64)) state_1_8).ev) =
      List.replicate 48 (List.replicate 256 0) ++
      (List.range 64).flatMap
        (fun i => [List.replicate 64 0, image_row_bytes black_64 64 i, List.replicate 64 0]) ++
      List.replicate 48 (List.replicate 256 0) :=
  display_64x64_bursts state_1_8 ⟨Or.inl ⟨rfl, rfl, rfl⟩, rfl, rfl⟩ black_64 rfl rfl rfl

/-- C6 as stated fails: for the all-black 64x64 image the bursts are not 48 zero rows, 64
rows of `[32 zero bytes][128 converted bytes][32 zero bytes]` and 48 zero rows; each pad
burst of an image row has 64 bytes. -/
theorem display_64x64_not_32_byte_pads :
    ¬ (data_bursts (after_byte 0x2C
          (py_lcd_display black_64 (some (full_roi black_64)) state_1_8).ev) =
        List.replicate 48 (List.replicate 256 0) ++
        (List.range 64).flatMap
          (fun i => [List.replicate 32 0, image_row_bytes black_64 64 i, List.replicate 32 0]) ++
        List.replicate 48 (List.replicate 256 0)) := by
  intro h
  rw [display_64_bursts state_1_8 ⟨Or.inl ⟨rfl, rfl, rfl⟩, rfl, rfl⟩ black_64 rfl rfl rfl] at h
  have h2 := congrArg (fun l => (l.getD 48 []).length) h
  exact absurd h2 (by decide)

/-! ## Claims on the lifecycle -/

/-- C8: from every prior state, after `py_lcd_init(type = v)` (the SPI object opening)
`width()`, `height()`, `type()` return 128, 160, 1 for `LCD_SHIELD_1_8` and 160, 80, 2 for
`LCD_SHIELD_0_96`; `init` without a type argument is `init(type = LCD_SHIELD_0_96)`; and each
accessor returns none exactly when the driver is uninitialised. -/
theorem init_then_accessors (s : Lcd) (bgr : Option Int) (spi_ok : Bool) :
    ((py_lcd_init true ⟨some LcdType.LCD_SHIELD_1_8.toInt, bgr⟩ s).ret = .mp_const_none ∧
     (py_lcd_width (py_lcd_init true ⟨some LcdType.LCD_SHIELD_1_8.toInt, bgr⟩ s).st).ret =
        .mp_obj_new_int 128 ∧
     (py_lcd_height (py_lcd_init true ⟨some LcdType.LCD_SHIELD_1_8.toInt, bgr⟩ s).st).ret =
        .mp_obj_new_int 160 ∧
     (py_lcd_type (py_lcd_init true ⟨some LcdType.LCD_SHIELD_1_8.toInt, bgr⟩ s).st).ret =
        .mp_obj_new_int 1) ∧
    ((py_lcd_init true ⟨some LcdType.LCD_SHIELD_0_96.toInt, bgr⟩ s).ret = .mp_const_none ∧
     (py_lcd_width (py_lcd_init true ⟨some LcdType.LCD_SHIELD_0_96.toInt, bgr⟩ s).st).ret =
        .mp_obj_new_int 160 ∧
     (py_lcd_height (py_lcd_init true ⟨some LcdType.LCD_SHIELD_0_96.toInt, bgr⟩ s).st).ret =
        .mp_obj_new_int 80 ∧
     (py_lcd_type (py_lcd_init true ⟨some LcdType.LCD_SHIELD_0_96.toInt, bgr⟩ s).st).ret =
        .mp_obj_new_int 2) ∧
    py_lcd_init spi_ok ⟨none, bgr⟩ s =
      py_lcd_init spi_ok ⟨some LcdType.LCD_SHIELD_0_96.toInt, bgr⟩ s ∧
    ((py_lcd_width s).ret = .mp_const_none ↔ s.type = .LCD_NONE) ∧
    ((py_lcd_height s).ret = .mp_const_none ↔ s.type = .LCD_NONE) ∧
    ((py_lcd_type s).ret = .mp_const_none ↔ s.type = .LCD_NONE) := by
  obtain ⟨a1, a2⟩ := init_1_8_ok s ⟨some LcdType.LCD_SHIELD_1_8.toInt, bgr⟩ rfl
  obtain ⟨b1, b2⟩ := init_0_96_ok s ⟨some LcdType.LCD_SHIELD_0_96.toInt, bgr⟩ (Or.inl rfl)
  refine ⟨⟨a2, ?_, ?_, ?_⟩, ⟨b2, ?_, ?_, ?_⟩, rfl, ?_, ?_, ?_⟩
  · rw [a1]; rfl
  · rw [a1]; rfl
  · rw [a1]; rfl
  · rw [b1]; rfl
  · rw [b1]; rfl
  · rw [b1]; rfl
  · unfold py_lcd_width; split_ifs with h <;> simp [h]
  · unfold py_lcd_height; split_ifs with h <;> simp [h]
  · unfold py_lcd_type; split_ifs with h <;> simp [h]

/-- C9, as the code behaves: for every state and every `type` argument that is neither
`LCD_SHIELD_1_8` nor `LCD_SHIELD_0_96` (so for every one that is none of the three
enumerators), `py_lcd_init` is `py_lcd_deinit`: it returns none, leaves the driver
uninitialised with the pads as `deinit` leaves them, and leaves an uninitialised driver
(statics and pads) as it was without any event. -/
theorem init_invalid_type (y : Sys) (spi_ok : Bool) (args : InitArgs) (t : Int)
    (ht : args.type = some t)
    (h1 : t ≠ LcdType.LCD_SHIELD_1_8.toInt) (h2 : t ≠ LcdType.LCD_SHIELD_0_96.toInt) :
    py_lcd_init spi_ok args y.lcd = py_lcd_deinit y.lcd ∧
    (py_lcd_init spi_ok args y.lcd).ret = .mp_const_none ∧
    (py_lcd_init spi_ok args y.lcd).st.type = .LCD_NONE ∧
    y.exec (.init spi_ok args) = y.exec .deinit ∧
    (y.lcd.type = .LCD_NONE →
      (py_lcd_init spi_ok args y.lcd).ev = [] ∧ y.exec (.init spi_ok args) = y) := by
  have e : py_lcd_init spi_ok args y.lcd = py_lcd_deinit y.lcd :=
    init_no_panel spi_ok y.lcd args (by simpa [py_helper_keyword_int, ht] using h1)
      (by simpa [py_helper_keyword_int, ht] using h2)
  refine ⟨e, ?_, ?_, ?_, ?_⟩
  · rw [e]; exact deinit_ret y.lcd
  · rw [e]; exact deinit_type y.lcd
  · show Sys.mk (py_lcd_init spi_ok args y.lcd).st (y.hw.run (py_lcd_init spi_ok args y.lcd).ev) =
      Sys.mk (py_lcd_deinit y.lcd).st (y.hw.run (py_lcd_deinit y.lcd).ev)
    rw [e]
  · intro hn
    constructor
    · rw [e, deinit_of_none y.lcd hn]
    · show Sys.mk (py_lcd_init spi_ok args y.lcd).st (y.hw.run (py_lcd_init spi_ok args y.lcd).ev) = y
      rw [e, deinit_of_none y.lcd hn]
      rfl

/-- Witness for C9: `init(type = 7)` on the initialised 1.8 inch panel. -/
theorem init_invalid_type_witness :
    py_lcd_init true ⟨some 7, none⟩ state_1_8 = py_lcd_deinit state_1_8 ∧
    (py_lcd_init true ⟨some 7, none⟩ state_1_8).ret = .mp_const_none :=
  ⟨(init_invalid_type ⟨state_1_8, Hw.initial⟩ true ⟨some 7, none⟩ 7 rfl
      (by decide) (by decide)).1,
   (init_invalid_type ⟨state_1_8, Hw.initial⟩ true ⟨some 7, none⟩ 7 rfl
      (by decide) (by decide)).2.1⟩

/-- C9 as stated fails: after a successful `init(type = 1)`, `init(type = 7)` does not leave
the state as it was; the driver is uninitialised and its pads are released. -/
theorem init_invalid_type_changes_state :
    (Sys.initial.exec (.init true ⟨some 1, none⟩)).lcd = state_1_8 ∧
    (py_lcd_init true ⟨some 7, none⟩ state_1_8).st ≠ state_1_8 ∧
    (Sys.initial.exec (.init true ⟨some 1, none⟩)).exec (.init true ⟨some 7, none⟩) ≠
      Sys.initial.exec (.init true ⟨some 1, none⟩) := by
  decide

/-- C10, as the code behaves: while the driver is uninitialised, `py_lcd_clear`,
`py_lcd_set_backlight` (for every argument) and `py_lcd_display` for every image of a
supported format and every accepted roi return none with no event and the state unchanged;
`py_lcd_display` never emits an event or changes the state then, and with an image of an
unsupported format it raises the format assertion instead of returning none. -/
theorem uninitialised_calls (s : Lcd) (h : s.type = .LCD_NONE) :
    (∀ (img : image_t) (rect : rectangle_t), IM_IS_MUTABLE img = true →
      py_lcd_display img (some rect) s = { st := s, ev := [], ret := .mp_const_none }) ∧
    (∀ (img : image_t) (roi : Option rectangle_t),
      (py_lcd_display img roi s).st = s ∧ (py_lcd_display img roi s).ev = []) ∧
    (∀ (img : image_t) (roi : Option rectangle_t), IM_IS_MUTABLE img = false →
      (py_lcd_display img roi s).ret = .raise .image_format_not_supported) ∧
    py_lcd_clear s = { st := s, ev := [], ret := .mp_const_none } ∧
    (∀ x : Int, py_lcd_set_backlight x s = { st := s, ev := [], ret := .mp_const_none }) := by
  refine ⟨?_, fun img roi => display_of_none s h img roi, ?_, clear_of_none s h,
    fun x => set_backlight_of_none s h x⟩
  · intro img rect hm
    simp [py_lcd_display, hm, h]
  · intro img roi hm
    simp [py_lcd_display, hm]

/-- Witness for C10: the driver at process start. -/
theorem uninitialised_calls_witness :
    py_lcd_clear Lcd.initial = { st := Lcd.initial, ev := [], ret := .mp_const_none } ∧
    (∀ x : Int, py_lcd_set_backlight x Lcd.initial =
      { st := Lcd.initial, ev := [], ret := .mp_const_none }) :=
  ⟨(uninitialised_calls Lcd.initial rfl).2.2.2.1, (uninitialised_calls Lcd.initial rfl).2.2.2.2⟩

/-- C10 as stated fails: on the uninitialised driver `py_lcd_display` with an image of an
unsupported format does not return none. -/
theorem display_unsupported_image_raises :
    (py_lcd_display sample_other (some ⟨0, 0, 1, 1⟩) Lcd.initial).ret ≠ .mp_const_none := by
  decide

/-! ## The trace of `py_lcd_init` in parts -/

/-- The events of a successful `init` of the 1.8 inch panel. -/
theorem init_events_1_8 (s : Lcd) (args : InitArgs) (h : args.type = some 1) :
    (py_lcd_init true args s).ev =
      (py_lcd_deinit s).ev ++ init_setup (.baudrate (1000000000 / 66)) ++ init_prologue ++
      init_panel_1_8 (toU8 (py_helper_keyword_int args.bgr 0)) ++ init_epilogue ++
      gpio_output .LED .GPIO_MODE_OUTPUT_OD false := by
  simp [py_lcd_init, py_helper_keyword_int, h, LcdType.toInt, init_backlight, init_setup,
    init_panel_1_8, List.append_assoc]

/-- The events of a successful `init` of the 0.96 inch panel, by keyword or by default. -/
theorem init_events_0_96 (s : Lcd) (args : InitArgs) (h : args.type = some 2 ∨ args.type = none) :
    (py_lcd_init true args s).ev =
      (py_lcd_deinit s).ev ++ init_setup (.prescaler 8) ++ init_prologue ++
      init_panel_0_96 (toU8 (py_helper_keyword_int args.bgr 1)) ++ init_epilogue ++
      gpio_output .LED .GPIO_MODE_OUTPUT_OD false := by
  rcases h with h | h <;>
    simp [py_lcd_init, py_helper_keyword_int, h, LcdType.toInt, init_backlight, init_setup,
      init_panel_0_96, List.append_assoc]

/-- The events of an `init` of either panel whose SPI open fails. -/
theorem init_events_spi_fail (s : Lcd) (args : InitArgs)
    (h : args.type = some 1 ∨ args.type = some 2 ∨ args.type = none) :
    (py_lcd_init false args s).ev =
      (py_lcd_deinit s).ev ++
      (gpio_output .CS .GPIO_MODE_OUTPUT_OD true ++ gpio_output .RST .GPIO_MODE_OUTPUT_PP true) ++
      [ .pyb_spi_make_new
          { bus := 4,
            clock := if args.type = some 1 then .baudrate (1000000000 / 66) else .prescaler 8,
            polarity := 0, phase := 0 } ] ∧
    (py_lcd_init false args s).ret = .raise .spi_unavailable := by
  rcases h with h | h | h <;>
    simp [py_lcd_init, py_helper_keyword_int, h, LcdType.toInt]

theorem type_kw_1_8 (t : Option Int) : py_helper_keyword_int t 2 = 1 ↔ t = some 1 := by
  cases h : t <;> simp [py_helper_keyword_int]

theorem type_kw_0_96 (t : Option Int) :
    py_helper_keyword_int t 2 = 2 ↔ (t = some 2 ∨ t = none) := by
  cases h : t <;> simp [py_helper_keyword_int]

/-- An `init` of the 1.8 inch panel left at the `bgr` conversion. -/
theorem init_bgr_raises_1_8 (s : Lcd) (t : Option Int) (h : t = some 1) :
    py_lcd_init_bgr_raises t s =
      { st := { state_1_8 with backlight_init := false },
        ev := (py_lcd_deinit s).ev ++ init_setup (.baudrate (1000000000 / 66)) ++ init_prologue,
        ret := .raise .bgr_not_an_integer } := by
  simp [py_lcd_init_bgr_raises, py_helper_keyword_int, h, LcdType.toInt, state_1_8]

/-- An `init` of the 0.96 inch panel, by keyword or by default, left at the `bgr`
conversion. -/
theorem init_bgr_raises_0_96 (s : Lcd) (t : Option Int) (h : t = some 2 ∨ t = none) :
    py_lcd_init_bgr_raises t s =
      { st := { state_0_96 with backlight_init := false },
        ev := (py_lcd_deinit s).ev ++ init_setup (.prescaler 8) ++ init_prologue ++
              lcd_write_command_byte 0x21,
        ret := .raise .bgr_not_an_integer } := by
  rcases h with h | h <;>
    simp [py_lcd_init_bgr_raises, py_helper_keyword_int, h, LcdType.toInt, state_0_96]

/-- With `LCD_NONE` or an unknown `type` value the `bgr` conversion is not reached and
`init` is `deinit`. -/
theorem init_bgr_raises_no_panel (s : Lcd) (t : Option Int)
    (h1 : py_helper_keyword_int t 2 ≠ 1) (h2 : py_helper_keyword_int t 2 ≠ 2) :
    py_lcd_init_bgr_raises t s = py_lcd_deinit s := by
  have hr := deinit_ret s
  simp only [py_lcd_init_bgr_raises, LcdType.toInt, h1, h2, if_false]
  split_ifs <;> (rw [← hr])

/-- The events of `py_lcd_deinit` from an initialised state whose LED pad is not
configured. -/
theorem deinit_events_unready (s : Lcd) (h : s.type ≠ .LCD_NONE)
    (hb : s.backlight_init = false) :
    (py_lcd_deinit s).ev =
      [ .HAL_GPIO_DeInit .RST, .HAL_GPIO_DeInit .RS, .HAL_GPIO_DeInit .CS, .pyb_spi_deinit ] := by
  unfold py_lcd_deinit
  cases ht : s.type with
  | LCD_NONE => exact absurd ht h
  | LCD_SHIELD_1_8 => simp [hb]
  | LCD_SHIELD_0_96 => simp [hb]

/-- The lazy branch of `py_lcd_set_backlight`: the LED pad is configured first. -/
theorem set_backlight_lazy (s : Lcd) (h : s.type ≠ .LCD_NONE) (hb : s.backlight_init = false)
    (x : Int) :
    py_lcd_set_backlight x s =
      { st := { s with backlight_init := true },
        ev := gpio_output .LED .GPIO_MODE_OUTPUT_OD (decide (x = 0)) ++
              [ .HAL_GPIO_WritePin .LED (decide (x = 0)) ],
        ret := .mp_const_none } := by
  unfold py_lcd_set_backlight
  cases ht : s.type with
  | LCD_NONE => exact absurd ht h
  | LCD_SHIELD_1_8 => simp [hb]
  | LCD_SHIELD_0_96 => simp [hb]

/-- Without a configured LED pad `py_lcd_get_backlight` returns none and reads nothing. -/
theorem get_backlight_unready (s : Lcd) (hb : s.backlight_init = false) (lv : Bool) :
    py_lcd_get_backlight lv s = { st := s, ev := [], ret := .mp_const_none } := by
  unfold py_lcd_get_backlight
  cases ht : s.type <;> simp [hb]

/-! ## Chip select -/

theorem Hw.run_append (hw : Hw) (a b : List Event) : hw.run (a ++ b) = (hw.run a).run b := by
  simp [Hw.run, List.foldl_append]

theorem keeps_cs_high_append (a b : List Event) (ha : keeps_cs_high a) (hb : keeps_cs_high b) :
    keeps_cs_high (a ++ b) := by
  intro hw h
  rw [Hw.run_append]
  exact hb _ (ha hw h)

theorem keeps_cs_high_flatMap {α : Type} (l : List α) (g : α → List Event)
    (h : ∀ a, keeps_cs_high (g a)) : keeps_cs_high (l.flatMap g) := by
  induction l with
  | nil => intro hw h0; exact h0
  | cons a l ih =>
    rw [List.flatMap_cons]
    exact keeps_cs_high_append _ _ (h a) ih

theorem keeps_cs_high_command_byte (b : Nat) : keeps_cs_high (lcd_write_command_byte b) :=
  fun _ _ => rfl

theorem keeps_cs_high_data_byte (b : Nat) : keeps_cs_high (lcd_write_data_byte b) :=
  fun _ _ => rfl

theorem keeps_cs_high_write_data (len : Nat) (dat : Nat → Nat) :
    keeps_cs_high (lcd_write_data len dat) :=
  fun _ _ => rfl

theorem keeps_cs_high_command (c len : Nat) (dat : List Nat) :
    keeps_cs_high (lcd_write_command c len dat) :=
  keeps_cs_high_append _ _ (keeps_cs_high_command_byte c)
    (keeps_cs_high_flatMap _ _ (fun _ => keeps_cs_high_data_byte _))

theorem keeps_cs_high_display_row (img : image_t) (f : Fit) (i : Int) :
    keeps_cs_high (display_row img f i) := by
  unfold display_row
  refine keeps_cs_high_append _ _ (keeps_cs_high_append _ _ ?_ ?_) ?_
  · split_ifs
    · exact keeps_cs_high_write_data _ _
    · exact fun _ h => h
  · split_ifs <;> exact keeps_cs_high_write_data _ _
  · split_ifs
    · exact keeps_cs_high_write_data _ _
    · exact fun _ h => h

theorem keeps_cs_high_display_frame (W : Int) (img : image_t) (f : Fit) :
    keeps_cs_high (display_frame W img f) := by
  unfold display_frame
  refine keeps_cs_high_append _ _ (keeps_cs_high_append _ _ (keeps_cs_high_append _ _
    (keeps_cs_high_append _ _ (keeps_cs_high_append _ _ (keeps_cs_high_command_byte _) ?_) ?_)
    ?_) ?_) ?_
  · exact fun _ h => h
  · exact keeps_cs_high_flatMap _ _ (fun _ => keeps_cs_high_write_data _ _)
  · exact keeps_cs_high_flatMap _ _ (fun _ => keeps_cs_high_display_row _ _ _)
  · exact keeps_cs_high_flatMap _ _ (fun _ => keeps_cs_high_write_data _ _)
  · exact fun _ h => h

theorem keeps_cs_high_clear_frame (W H : Int) : keeps_cs_high (clear_frame W H) := by
  unfold clear_frame
  refine keeps_cs_high_append _ _ (keeps_cs_high_append _ _
    (keeps_cs_high_append _ _ (keeps_cs_high_command_byte _) ?_) ?_) ?_
  · exact fun _ h => h
  · exact keeps_cs_high_flatMap _ _ (fun _ => keeps_cs_high_write_data _ _)
  · exact fun _ h => h

theorem keeps_cs_high_display (img : image_t) (roi : Option rectangle_t) (s : Lcd) :
    keeps_cs_high (py_lcd_display img roi s).ev := by
  unfold py_lcd_display
  cases hm : IM_IS_MUTABLE img
  · exact fun _ h => h
  · cases roi with
    | none => exact fun _ h => h
    | some rect =>
      cases ht : s.type with
      | LCD_NONE => simp only [Bool.not_true, Bool.false_eq_true, if_false]; exact fun _ h => h
      | LCD_SHIELD_1_8 =>
        simp only [Bool.not_true, Bool.false_eq_true, if_false]
        exact keeps_cs_high_display_frame _ _ _
      | LCD_SHIELD_0_96 =>
        simp only [Bool.not_true, Bool.false_eq_true, if_false]
        exact keeps_cs_high_append _ _
          (keeps_cs_high_append _ _ (keeps_cs_high_command _ _ _) (keeps_cs_high_command _ _ _))
          (keeps_cs_high_display_frame _ _ _)

theorem keeps_cs_high_clear (s : Lcd) : keeps_cs_high (py_lcd_clear s).ev := by
  unfold py_lcd_clear
  cases ht : s.type with
  | LCD_NONE => exact fun _ h => h
  | LCD_SHIELD_1_8 => exact keeps_cs_high_clear_frame _ _
  | LCD_SHIELD_0_96 =>
    exact keeps_cs_high_append _ _
      (keeps_cs_high_append _ _ (keeps_cs_high_command _ _ _) (keeps_cs_high_command _ _ _))
      (keeps_cs_high_clear_frame _ _)

set_option maxRecDepth 100000 in
theorem keeps_cs_high_init_prologue : keeps_cs_high init_prologue :=
  fun _ _ => rfl

set_option maxRecDepth 100000 in
theorem keeps_cs_high_init_epilogue : keeps_cs_high init_epilogue :=
  fun _ _ => rfl

set_option maxRecDepth 100000 in
theorem keeps_cs_high_init_panel_1_8 (bgr : Nat) : keeps_cs_high (init_panel_1_8 bgr) :=
  fun _ _ => rfl

set_option maxRecDepth 100000 in
theorem keeps_cs_high_init_panel_0_96 (bgr : Nat) : keeps_cs_high (init_panel_0_96 bgr) :=
  fun _ _ => rfl

theorem cs_high_after_setup (hw : Hw) (clock : SpiClock) :
    (hw.run (init_setup clock)).cs.level = true := rfl

theorem keeps_cs_high_led (bit : Bool) :
    keeps_cs_high (gpio_output .LED .GPIO_MODE_OUTPUT_OD bit) :=
  fun _ h => h

/-- After a successful `init` of a panel CS is high, whatever the pads were before. -/
theorem cs_high_after_init (hw : Hw) (s : Lcd) (args : InitArgs)
    (h : args.type = some 1 ∨ args.type = some 2 ∨ args.type = none) :
    (hw.run (py_lcd_init true args s).ev).cs.level = true := by
  rcases h with h | h
  · rw [init_events_1_8 s args h]
    simp only [Hw.run_append]
    exact keeps_cs_high_led _ _ (keeps_cs_high_init_epilogue _ (keeps_cs_high_init_panel_1_8 _ _
      (keeps_cs_high_init_prologue _ (cs_high_after_setup _ _))))
  · rw [init_events_0_96 s args h]
    simp only [Hw.run_append]
    exact keeps_cs_high_led _ _ (keeps_cs_high_init_epilogue _ (keeps_cs_high_init_panel_0_96 _ _
      (keeps_cs_high_init_prologue _ (cs_high_after_setup _ _))))

/-- After an `init` of a panel left at the `bgr` conversion CS is high. -/
theorem cs_high_after_init_bgr_raises (hw : Hw) (s : Lcd) (t : Option Int)
    (h : t = some 1 ∨ t = some 2 ∨ t = none) :
    (hw.run (py_lcd_init_bgr_raises t s).ev).cs.level = true := by
  rcases h with h | h
  · rw [init_bgr_raises_1_8 s t h]
    simp only [Hw.run_append]
    exact keeps_cs_high_init_prologue _ (cs_high_after_setup _ _)
  · rw [init_bgr_raises_0_96 s t h]
    simp only [Hw.run_append]
    exact keeps_cs_high_command_byte _ _
      (keeps_cs_high_init_prologue _ (cs_high_after_setup _ _))

/-! ## The LED pad -/

theorem keeps_led_mode_append (a b : List Event) (ha : keeps_led_mode a) (hb : keeps_led_mode b) :
    keeps_led_mode (a ++ b) := by
  intro hw
  rw [Hw.run_append, hb, ha]

theorem keeps_led_mode_flatMap {α : Type} (l : List α) (g : α → List Event)
    (h : ∀ a, keeps_led_mode (g a)) : keeps_led_mode (l.flatMap g) := by
  induction l with
  | nil => intro hw; rfl
  | cons a l ih =>
    rw [List.flatMap_cons]
    exact keeps_led_mode_append _ _ (h a) ih

theorem keeps_led_mode_command_byte (b : Nat) : keeps_led_mode (lcd_write_command_byte b) :=
  fun _ => rfl

theorem keeps_led_mode_data_byte (b : Nat) : keeps_led_mode (lcd_write_data_byte b) :=
  fun _ => rfl

theorem keeps_led_mode_write_data (len : Nat) (dat : Nat → Nat) :
    keeps_led_mode (lcd_write_data len dat) :=
  fun _ => rfl

theorem keeps_led_mode_command (c len : Nat) (dat : List Nat) :
    keeps_led_mode (lcd_write_command c len dat) :=
  keeps_led_mode_append _ _ (keeps_led_mode_command_byte c)
    (keeps_led_mode_flatMap _ _ (fun _ => keeps_led_mode_data_byte _))

theorem keeps_led_mode_display_row (img : image_t) (f : Fit) (i : Int) :
    keeps_led_mode (display_row img f i) := by
  unfold display_row
  refine keeps_led_mode_append _ _ (keeps_led_mode_append _ _ ?_ ?_) ?_
  · split_ifs
    · exact keeps_led_mode_write_data _ _
    · exact fun _ => rfl
  · split_ifs <;> exact keeps_led_mode_write_data _ _
  · split_ifs
    · exact keeps_led_mode_write_data _ _
    · exact fun _ => rfl

theorem keeps_led_mode_display_frame (W : Int) (img : image_t) (f : Fit) :
    keeps_led_mode (display_frame W img f) := by
  unfold display_frame
  refine keeps_led_mode_append _ _ (keeps_led_mode_append _ _ (keeps_led_mode_append _ _
    (keeps_led_mode_append _ _ (keeps_led_mode_append _ _ (keeps_led_mode_command_byte _) ?_) ?_)
    ?_) ?_) ?_
  · exact fun _ => rfl
  · exact keeps_led_mode_flatMap _ _ (fun _ => keeps_led_mode_write_data _ _)
  · exact keeps_led_mode_flatMap _ _ (fun _ => keeps_led_mode_display_row _ _ _)
  · exact keeps_led_mode_flatMap _ _ (fun _ => keeps_led_mode_write_data _ _)
  · exact fun _ => rfl

theorem keeps_led_mode_clear_frame (W H : Int) : keeps_led_mode (clear_frame W H) := by
  unfold clear_frame
  refine keeps_led_mode_append _ _ (keeps_led_mode_append _ _
    (keeps_led_mode_append _ _ (keeps_led_mode_command_byte _) ?_) ?_) ?_
  · exact fun _ => rfl
  · exact keeps_led_mode_flatMap _ _ (fun _ => keeps_led_mode_write_data _ _)
  · exact fun _ => rfl

theorem keeps_led_mode_display (img : image_t) (roi : Option rectangle_t) (s : Lcd) :
    keeps_led_mode (py_lcd_display img roi s).ev := by
  unfold py_lcd_display
  cases hm : IM_IS_MUTABLE img
  · exact fun _ => rfl
  · cases roi with
    | none => exact fun _ => rfl
    | some rect =>
      cases ht : s.type with
      | LCD_NONE => simp only [Bool.not_true, Bool.false_eq_true, if_false]; exact fun _ => rfl
      | LCD_SHIELD_1_8 =>
        simp only [Bool.not_true, Bool.false_eq_true, if_false]
        exact keeps_led_mode_display_frame _ _ _
      | LCD_SHIELD_0_96 =>
        simp only [Bool.not_true, Bool.false_eq_true, if_false]
        exact keeps_led_mode_append _ _
          (keeps_led_mode_append _ _ (keeps_led_mode_command _ _ _) (keeps_led_mode_command _ _ _))
          (keeps_led_mode_display_frame _ _ _)

theorem keeps_led_mode_clear (s : Lcd) : keeps_led_mode (py_lcd_clear s).ev := by
  unfold py_lcd_clear
  cases ht : s.type with
  | LCD_NONE => exact fun _ => rfl
  | LCD_SHIELD_1_8 => exact keeps_led_mode_clear_frame _ _
  | LCD_SHIELD_0_96 =>
    exact keeps_led_mode_append _ _
      (keeps_led_mode_append _ _ (keeps_led_mode_command _ _ _) (keeps_led_mode_command _ _ _))
      (keeps_led_mode_clear_frame _ _)

set_option maxRecDepth 100000 in
theorem keeps_led_mode_init_prologue : keeps_led_mode init_prologue :=
  fun _ => rfl

theorem keeps_led_mode_init_setup (clock : SpiClock) : keeps_led_mode (init_setup clock) :=
  fun _ => rfl

/-! ## Chip select from any pad state -/

theorem sets_cs_high_append (a b : List Event) (ha : sets_cs_high a) (hb : keeps_cs_high b) :
    sets_cs_high (a ++ b) := by
  intro hw
  rw [Hw.run_append]
  exact hb _ (ha hw)

theorem sets_cs_high_command_byte (b : Nat) : sets_cs_high (lcd_write_command_byte b) :=
  fun _ => rfl

theorem sets_cs_high_command (c len : Nat) (dat : List Nat) :
    sets_cs_high (lcd_write_command c len dat) :=
  sets_cs_high_append _ _ (sets_cs_high_command_byte c)
    (keeps_cs_high_flatMap _ _ (fun _ => keeps_cs_high_data_byte _))

theorem sets_cs_high_display_frame (W : Int) (img : image_t) (f : Fit) :
    sets_cs_high (display_frame W img f) := by
  unfold display_frame
  refine sets_cs_high_append _ _ (sets_cs_high_append _ _ (sets_cs_high_append _ _
    (sets_cs_high_append _ _ (sets_cs_high_append _ _ (sets_cs_high_command_byte _) ?_) ?_)
    ?_) ?_) ?_
  · exact fun _ h => h
  · exact keeps_cs_high_flatMap _ _ (fun _ => keeps_cs_high_write_data _ _)
  · exact keeps_cs_high_flatMap _ _ (fun _ => keeps_cs_high_display_row _ _ _)
  · exact keeps_cs_high_flatMap _ _ (fun _ => keeps_cs_high_write_data _ _)
  · exact fun _ h => h

theorem sets_cs_high_clear_frame (W H : Int) : sets_cs_high (clear_frame W H) := by
  unfold clear_frame
  refine sets_cs_high_append _ _ (sets_cs_high_append _ _
    (sets_cs_high_append _ _ (sets_cs_high_command_byte _) ?_) ?_) ?_
  · exact fun _ h => h
  · exact keeps_cs_high_flatMap _ _ (fun _ => keeps_cs_high_write_data _ _)
  · exact fun _ h => h

/-- A `display` call emits nothing or leaves CS high. -/
theorem display_cs (img : image_t) (roi : Option rectangle_t) (s : Lcd) :
    (py_lcd_display img roi s).ev = [] ∨ sets_cs_high (py_lcd_display img roi s).ev := by
  unfold py_lcd_display
  cases hm : IM_IS_MUTABLE img
  · exact Or.inl rfl
  · cases roi with
    | none => exact Or.inl rfl
    | some rect =>
      cases ht : s.type with
      | LCD_NONE => exact Or.inl rfl
      | LCD_SHIELD_1_8 =>
        simp only [Bool.not_true, Bool.false_eq_true, if_false]
        exact Or.inr (sets_cs_high_display_frame _ _ _)
      | LCD_SHIELD_0_96 =>
        simp only [Bool.not_true, Bool.false_eq_true, if_false]
        exact Or.inr (sets_cs_high_append _ _
          (sets_cs_high_append _ _ (sets_cs_high_command _ _ _) (keeps_cs_high_command _ _ _))
          (keeps_cs_high_display_frame _ _ _))

/-- A `clear` call emits nothing or leaves CS high. -/
theorem clear_cs (s : Lcd) :
    (py_lcd_clear s).ev = [] ∨ sets_cs_high (py_lcd_clear s).ev := by
  unfold py_lcd_clear
  cases ht : s.type with
  | LCD_NONE => exact Or.inl rfl
  | LCD_SHIELD_1_8 => exact Or.inr (sets_cs_high_clear_frame _ _)
  | LCD_SHIELD_0_96 =>
    exact Or.inr (sets_cs_high_append _ _
      (sets_cs_high_append _ _ (sets_cs_high_command _ _ _) (keeps_cs_high_command _ _ _))
      (keeps_cs_high_clear_frame _ _))

/-- The `deinit` events are none or release the CS pad. -/
theorem deinit_cs (s : Lcd) (hw : Hw) :
    (py_lcd_deinit s).ev = [] ∨ (hw.run (py_lcd_deinit s).ev).cs.mode = none := by
  unfold py_lcd_deinit
  cases s.type <;> cases s.backlight_init <;> first | exact Or.inl rfl | exact Or.inr rfl

/-- The backlight functions leave the CS pad as it is. -/
theorem set_backlight_cs (x : Int) (s : Lcd) (hw : Hw) :
    (hw.run (py_lcd_set_backlight x s).ev).cs = hw.cs := by
  unfold py_lcd_set_backlight
  cases s.type <;> cases s.backlight_init <;> rfl

/-- A pad state with CS released or high stays so over events that are none, set CS high
or release the pad. -/
theorem cs_idle_of_cases (hw : Hw) (ev : List Event)
    (h : hw.cs.mode = none ∨ hw.cs.level = true)
    (hev : ev = [] ∨ sets_cs_high ev ∨ (hw.run ev).cs.mode = none) :
    (hw.run ev).cs.mode = none ∨ (hw.run ev).cs.level = true := by
  rcases hev with e | e | e
  · rw [e]; exact h
  · exact Or.inr (e hw)
  · exact Or.inl e

/-- Every call keeps the CS pad released or high, from any state of the statics. -/
theorem cs_idle_step (y : Sys) (c : Call) (h : y.hw.cs.mode = none ∨ y.hw.cs.level = true) :
    (y.exec c).hw.cs.mode = none ∨ (y.exec c).hw.cs.level = true := by
  have hdeinit : (y.hw.run (py_lcd_deinit y.lcd).ev).cs.mode = none ∨
      (y.hw.run (py_lcd_deinit y.lcd).ev).cs.level = true := by
    rcases deinit_cs y.lcd y.hw with e | e
    · exact cs_idle_of_cases _ _ h (Or.inl e)
    · exact Or.inl e
  cases c with
  | init spi_ok args =>
    show (y.hw.run (py_lcd_init spi_ok args y.lcd).ev).cs.mode = none ∨
      (y.hw.run (py_lcd_init spi_ok args y.lcd).ev).cs.level = true
    by_cases hsel : args.type = some 1 ∨ args.type = some 2 ∨ args.type = none
    · right
      cases spi_ok with
      | true => exact cs_high_after_init y.hw y.lcd args hsel
      | false =>
        rw [(init_events_spi_fail y.lcd args hsel).1, Hw.run_append, Hw.run_append]
        rfl
    · have h1 : py_helper_keyword_int args.type 2 ≠ 1 := fun h =>
        hsel (Or.inl ((type_kw_1_8 args.type).mp h))
      have h2 : py_helper_keyword_int args.type 2 ≠ 2 := fun h =>
        hsel (Or.inr ((type_kw_0_96 args.type).mp h))
      rw [init_no_panel spi_ok y.lcd args h1 h2]
      exact hdeinit
  | init_bgr_raises t =>
    show (y.hw.run (py_lcd_init_bgr_raises t y.lcd).ev).cs.mode = none ∨
      (y.hw.run (py_lcd_init_bgr_raises t y.lcd).ev).cs.level = true
    by_cases hsel : t = some 1 ∨ t = some 2 ∨ t = none
    · exact Or.inr (cs_high_after_init_bgr_raises y.hw y.lcd t hsel)
    · have h1 : py_helper_keyword_int t 2 ≠ 1 := fun h => hsel (Or.inl ((type_kw_1_8 t).mp h))
      have h2 : py_helper_keyword_int t 2 ≠ 2 := fun h => hsel (Or.inr ((type_kw_0_96 t).mp h))
      rw [init_bgr_raises_no_panel y.lcd t h1 h2]
      exact hdeinit
  | deinit => exact hdeinit
  | width =>
    show (y.hw.run (py_lcd_width y.lcd).ev).cs.mode = none ∨
      (y.hw.run (py_lcd_width y.lcd).ev).cs.level = true
    rw [(width_step y.lcd).2]; exact h
  | height =>
    show (y.hw.run (py_lcd_height y.lcd).ev).cs.mode = none ∨
      (y.hw.run (py_lcd_height y.lcd).ev).cs.level = true
    rw [(height_step y.lcd).2]; exact h
  | type =>
    show (y.hw.run (py_lcd_type y.lcd).ev).cs.mode = none ∨
      (y.hw.run (py_lcd_type y.lcd).ev).cs.level = true
    rw [(type_step y.lcd).2]; exact h
  | set_backlight x =>
    show (y.hw.run (py_lcd_set_backlight x y.lcd).ev).cs.mode = none ∨
      (y.hw.run (py_lcd_set_backlight x y.lcd).ev).cs.level = true
    rw [set_backlight_cs]; exact h
  | get_backlight =>
    show (y.hw.run (py_lcd_get_backlight y.hw.led.level y.lcd).ev).cs.mode = none ∨
      (y.hw.run (py_lcd_get_backlight y.hw.led.level y.lcd).ev).cs.level = true
    unfold py_lcd_get_backlight
    cases y.lcd.type <;> cases y.lcd.backlight_init <;> exact h
  | display img roi =>
    rcases display_cs img roi y.lcd with e | e
    · exact cs_idle_of_cases _ _ h (Or.inl e)
    · exact cs_idle_of_cases _ _ h (Or.inr (Or.inl e))
  | clear =>
    rcases clear_cs y.lcd with e | e
    · exact cs_idle_of_cases _ _ h (Or.inl e)
    · exact cs_idle_of_cases _ _ h (Or.inr (Or.inl e))

/-! ## The invariant of all reachable states -/

theorem type_arg_1_8 (args : InitArgs) :
    py_helper_keyword_int args.type 2 = 1 ↔ args.type = some 1 := by
  cases h : args.type <;> simp [py_helper_keyword_int]

theorem type_arg_0_96 (args : InitArgs) :
    py_helper_keyword_int args.type 2 = 2 ↔ (args.type = some 2 ∨ args.type = none) := by
  cases h : args.type <;> simp [py_helper_keyword_int]

theorem set_backlight_ready (s : Lcd) (h : s.type ≠ .LCD_NONE) (hb : s.backlight_init = true)
    (x : Int) :
    py_lcd_set_backlight x s =
      { st := s, ev := [ .HAL_GPIO_WritePin .LED (decide (x = 0)) ], ret := .mp_const_none } := by
  unfold py_lcd_set_backlight
  cases ht : s.type with
  | LCD_NONE => exact absurd ht h
  | LCD_SHIELD_1_8 => simp [hb]
  | LCD_SHIELD_0_96 => simp [hb]

theorem get_backlight_ready (s : Lcd) (h : s.type ≠ .LCD_NONE) (hb : s.backlight_init = true)
    (lv : Bool) :
    py_lcd_get_backlight lv s =
      { st := s, ev := [ .HAL_GPIO_ReadPin .LED ],
        ret := .mp_obj_new_int (if lv then 0 else 1) } := by
  unfold py_lcd_get_backlight
  cases ht : s.type with
  | LCD_NONE => exact absurd ht h
  | LCD_SHIELD_1_8 => simp [hb]
  | LCD_SHIELD_0_96 => simp [hb]

theorem get_backlight_keeps_hw (s : Lcd) (lv : Bool) (hw : Hw) :
    hw.run (py_lcd_get_backlight lv s).ev = hw := by
  unfold py_lcd_get_backlight
  cases s.type <;> cases s.backlight_init <;> rfl

/-- A call that leaves the statics alone, emits nothing on an uninitialised driver, keeps
CS high and leaves the LED pad as it is preserves the invariant. -/
theorem consistent_of_same_state (y : Sys) (ev : List Event) (ih : y.consistent)
    (h1 : y.lcd.type = .LCD_NONE → ev = []) (h2 : keeps_cs_high ev) (h3 : keeps_led_mode ev) :
    Sys.consistent { lcd := y.lcd, hw := y.hw.run ev } := by
  refine ⟨?_, ?_, ?_, ?_⟩
  · intro h0
    obtain ⟨a, b, c⟩ := ih.1 h0
    rw [h1 h0]
    exact ⟨a, b, c⟩
  · intro h0
    obtain ⟨a, b⟩ := ih.2.1 h0
    exact ⟨a, h2 _ b⟩
  · intro hb
    show (y.hw.run ev).led.mode = none
    rw [h3]
    exact ih.2.2.1 hb
  · by_cases h0 : y.lcd.type = .LCD_NONE
    · rw [h1 h0]
      exact ih.2.2.2
    · exact Or.inr (h2 _ (ih.2.1 h0).2)

/-- From a consistent state of an initialised driver `py_lcd_deinit` releases all four
pads. -/
theorem released_after_deinit (y : Sys) (ih : y.consistent) (h0 : y.lcd.type ≠ .LCD_NONE) :
    (y.hw.run (py_lcd_deinit y.lcd).ev).released := by
  cases hb : y.lcd.backlight_init with
  | true =>
    rw [deinit_events y.lcd h0 hb]
    exact released_after_deinit_events y.hw
  | false =>
    rw [deinit_events_unready y.lcd h0 hb]
    exact ⟨rfl, rfl, rfl, ih.2.2.1 hb⟩

/-- The statics and the RS, LED and CS pads after `py_lcd_deinit` from a consistent state. -/
theorem consistent_after_deinit (y : Sys) (ih : y.consistent) :
    (py_lcd_deinit y.lcd).st = Lcd.initial ∧
    (y.hw.run (py_lcd_deinit y.lcd).ev).rs.mode = none ∧
    (y.hw.run (py_lcd_deinit y.lcd).ev).led.mode = none ∧
    ((y.hw.run (py_lcd_deinit y.lcd).ev).cs.mode = none ∨
      (y.hw.run (py_lcd_deinit y.lcd).ev).cs.level = true) := by
  by_cases h0 : y.lcd.type = .LCD_NONE
  · obtain ⟨a, b, c⟩ := ih.1 h0
    rw [deinit_of_none y.lcd h0]
    exact ⟨a, b, c, ih.2.2.2⟩
  · obtain ⟨_, r2, r3, r4⟩ := released_after_deinit y ih h0
    exact ⟨deinit_of_initialised y.lcd h0, r2, r4, Or.inl r3⟩

theorem consistent_of_deinit_step (y : Sys) (ih : y.consistent) :
    Sys.consistent { lcd := (py_lcd_deinit y.lcd).st, hw := y.hw.run (py_lcd_deinit y.lcd).ev } := by
  obtain ⟨a, b, c, d⟩ := consistent_after_deinit y ih
  exact ⟨fun _ => ⟨a, b, c⟩, fun h => absurd (deinit_type y.lcd) h, fun _ => c, d⟩

/-- A state with the statics of a panel (whatever `backlight_init` is), CS high and the
LED pad released while `backlight_init` is false satisfies the invariant. -/
theorem consistent_of_panel (l : Lcd) (hw : Hw)
    (hl : { l with backlight_init := true } = state_1_8 ∨
          { l with backlight_init := true } = state_0_96)
    (hcs : hw.cs.level = true) (hled : l.backlight_init = false → hw.led.mode = none) :
    Sys.consistent { lcd := l, hw := hw } := by
  refine ⟨?_, fun _ => ⟨hl, hcs⟩, hled, Or.inr hcs⟩
  intro h0
  have h0' : l.type = .LCD_NONE := h0
  have ht : ({ l with backlight_init := true } : Lcd).type = .LCD_NONE := h0'
  rcases hl with h | h <;> rw [h] at ht <;> cases ht

/-- Every call preserves the invariant. -/
theorem consistent_step (y : Sys) (c : Call) (ih : y.consistent) : (y.exec c).consistent := by
  cases c with
  | init spi_ok args =>
    show Sys.consistent { lcd := (py_lcd_init spi_ok args y.lcd).st,
                          hw := y.hw.run (py_lcd_init spi_ok args y.lcd).ev }
    by_cases hsel : args.type = some 1 ∨ args.type = some 2 ∨ args.type = none
    · cases spi_ok with
      | true =>
        have hcs := cs_high_after_init y.hw y.lcd args hsel
        refine consistent_of_panel _ _ ?_ hcs ?_
        · rcases hsel with h | h
          · rw [(init_1_8_ok y.lcd args h).1]; exact Or.inl rfl
          · rw [(init_0_96_ok y.lcd args h).1]; exact Or.inr rfl
        · intro hb
          rcases hsel with h | h
          · rw [(init_1_8_ok y.lcd args h).1] at hb; cases hb
          · rw [(init_0_96_ok y.lcd args h).1] at hb; cases hb
      | false =>
        obtain ⟨a, b, c, _⟩ := consistent_after_deinit y ih
        have hst : (py_lcd_init false args y.lcd).st = Lcd.initial := by
          rw [init_spi_fail]; exact a
        rw [hst, (init_events_spi_fail y.lcd args hsel).1, Hw.run_append, Hw.run_append]
        exact ⟨fun _ => ⟨rfl, b, c⟩, fun h0 => absurd rfl h0, fun _ => c, Or.inr rfl⟩
    · have h1 : py_helper_keyword_int args.type 2 ≠ 1 := fun h =>
        hsel (Or.inl ((type_arg_1_8 args).mp h))
      have h2 : py_helper_keyword_int args.type 2 ≠ 2 := fun h =>
        hsel (Or.inr ((type_arg_0_96 args).mp h))
      rw [init_no_panel spi_ok y.lcd args h1 h2]
      exact consistent_of_deinit_step y ih
  | init_bgr_raises t =>
    show Sys.consistent { lcd := (py_lcd_init_bgr_raises t y.lcd).st,
                          hw := y.hw.run (py_lcd_init_bgr_raises t y.lcd).ev }
    by_cases hsel : t = some 1 ∨ t = some 2 ∨ t = none
    · have hcs := cs_high_after_init_bgr_raises y.hw y.lcd t hsel
      obtain ⟨_, _, c, _⟩ := consistent_after_deinit y ih
      refine consistent_of_panel _ _ ?_ hcs ?_
      · rcases hsel with h | h
        · rw [init_bgr_raises_1_8 y.lcd t h]; exact Or.inl rfl
        · rw [init_bgr_raises_0_96 y.lcd t h]; exact Or.inr rfl
      · intro _
        rcases hsel with h | h
        · rw [init_bgr_raises_1_8 y.lcd t h]
          show (y.hw.run ((py_lcd_deinit y.lcd).ev ++ init_setup _ ++ init_prologue)).led.mode = none
          rw [Hw.run_append, Hw.run_append, keeps_led_mode_init_prologue,
            keeps_led_mode_init_setup]
          exact c
        · rw [init_bgr_raises_0_96 y.lcd t h]
          show (y.hw.run ((py_lcd_deinit y.lcd).ev ++ init_setup _ ++ init_prologue ++
            lcd_write_command_byte 0x21)).led.mode = none
          rw [Hw.run_append, Hw.run_append, Hw.run_append, keeps_led_mode_command_byte,
            keeps_led_mode_init_prologue, keeps_led_mode_init_setup]
          exact c
    · have h1 : py_helper_keyword_int t 2 ≠ 1 := fun h => hsel (Or.inl ((type_kw_1_8 t).mp h))
      have h2 : py_helper_keyword_int t 2 ≠ 2 := fun h => hsel (Or.inr ((type_kw_0_96 t).mp h))
      rw [init_bgr_raises_no_panel y.lcd t h1 h2]
      exact consistent_of_deinit_step y ih
  | deinit => exact consistent_of_deinit_step y ih
  | width =>
    show Sys.consistent { lcd := (py_lcd_width y.lcd).st, hw := y.hw.run (py_lcd_width y.lcd).ev }
    rw [(width_step y.lcd).1, (width_step y.lcd).2]
    exact ih
  | height =>
    show Sys.consistent { lcd := (py_lcd_height y.lcd).st, hw := y.hw.run (py_lcd_height y.lcd).ev }
    rw [(height_step y.lcd).1, (height_step y.lcd).2]
    exact ih
  | type =>
    show Sys.consistent { lcd := (py_lcd_type y.lcd).st, hw := y.hw.run (py_lcd_type y.lcd).ev }
    rw [(type_step y.lcd).1, (type_step y.lcd).2]
    exact ih
  | set_backlight x =>
    show Sys.consistent { lcd := (py_lcd_set_backlight x y.lcd).st,
                          hw := y.hw.run (py_lcd_set_backlight x y.lcd).ev }
    by_cases h0 : y.lcd.type = .LCD_NONE
    · rw [set_backlight_of_none y.lcd h0 x]
      exact ih
    · cases hb : y.lcd.backlight_init with
      | true =>
        rw [set_backlight_ready y.lcd h0 hb x]
        exact consistent_of_same_state y _ ih (fun h => absurd h h0) (fun _ h => h) (fun _ => rfl)
      | false =>
        rw [set_backlight_lazy y.lcd h0 hb x]
        exact ⟨fun h => absurd h h0, fun _ => ⟨(ih.2.1 h0).1, (ih.2.1 h0).2⟩,
          fun h => Bool.noConfusion h, ih.2.2.2⟩
  | get_backlight =>
    show Sys.consistent { lcd := (py_lcd_get_backlight y.hw.led.level y.lcd).st,
                          hw := y.hw.run (py_lcd_get_backlight y.hw.led.level y.lcd).ev }
    rw [get_backlight_state, get_backlight_keeps_hw]
    exact ih
  | display img roi =>
    show Sys.consistent { lcd := (py_lcd_display img roi y.lcd).st,
                          hw := y.hw.run (py_lcd_display img roi y.lcd).ev }
    rw [display_state]
    exact consistent_of_same_state y _ ih (fun h => (display_of_none y.lcd h img roi).2)
      (keeps_cs_high_display img roi y.lcd) (keeps_led_mode_display img roi y.lcd)
  | clear =>
    show Sys.consistent { lcd := (py_lcd_clear y.lcd).st, hw := y.hw.run (py_lcd_clear y.lcd).ev }
    rw [clear_state]
    exact consistent_of_same_state y _ ih
      (fun h => by rw [clear_of_none y.lcd h]) (keeps_cs_high_clear y.lcd)
      (keeps_led_mode_clear y.lcd)

/-- Every state reachable through the public functions, failed SPI opens and interrupted
inits included, satisfies the invariant. -/
theorem reachable_consistent (ok : Call → Prop) (y : Sys) (h : ReachableBy ok y) :
    y.consistent := by
  induction h with
  | initial => exact ⟨fun _ => ⟨rfl, rfl, rfl⟩, fun h => absurd rfl h, fun _ => rfl, Or.inl rfl⟩
  | @step y c _ _ ih => exact consistent_step y c ih

/-- The statics after an `init` left at the `bgr` conversion are those after `deinit` or
those of a panel with `backlight_init` false. -/
theorem init_bgr_raises_state_cases (s : Lcd) (t : Option Int) :
    (py_lcd_init_bgr_raises t s).st = (py_lcd_deinit s).st ∨
    (py_lcd_init_bgr_raises t s).st.type ≠ .LCD_NONE := by
  by_cases hsel : t = some 1 ∨ t = some 2 ∨ t = none
  · right
    rcases hsel with h | h
    · rw [init_bgr_raises_1_8 s t h]; exact fun h => LcdType.noConfusion h
    · rw [init_bgr_raises_0_96 s t h]; exact fun h => LcdType.noConfusion h
  · left
    have h1 : py_helper_keyword_int t 2 ≠ 1 := fun h => hsel (Or.inl ((type_kw_1_8 t).mp h))
    have h2 : py_helper_keyword_int t 2 ≠ 2 := fun h => hsel (Or.inr ((type_kw_0_96 t).mp h))
    rw [init_bgr_raises_no_panel s t h1 h2]

/-- As long as no `init` is left inside its command sequence, an initialised driver has
its LED pad configured. -/
theorem reachable_uninterrupted_ready (y : Sys) (h : ReachableUninterrupted y) :
    y.lcd.type ≠ .LCD_NONE → y.lcd.backlight_init = true := by
  induction h with
  | initial => exact fun h => absurd rfl h
  | @step y c _ hc ih =>
    cases c with
    | init spi_ok args =>
      show (py_lcd_init spi_ok args y.lcd).st.type ≠ .LCD_NONE →
        (py_lcd_init spi_ok args y.lcd).st.backlight_init = true
      rcases init_state_cases spi_ok y.lcd args with h1 | ⟨_, h1 | h1⟩
      · rw [h1]; exact fun h => absurd (deinit_type y.lcd) h
      · rw [h1]; exact fun _ => rfl
      · rw [h1]; exact fun _ => rfl
    | init_bgr_raises t => exact absurd hc (fun h => h)
    | deinit => exact fun h => absurd (deinit_type y.lcd) h
    | width =>
      show (py_lcd_width y.lcd).st.type ≠ _ → (py_lcd_width y.lcd).st.backlight_init = true
      rw [(width_step y.lcd).1]; exact ih
    | height =>
      show (py_lcd_height y.lcd).st.type ≠ _ → (py_lcd_height y.lcd).st.backlight_init = true
      rw [(height_step y.lcd).1]; exact ih
    | type =>
      show (py_lcd_type y.lcd).st.type ≠ _ → (py_lcd_type y.lcd).st.backlight_init = true
      rw [(type_step y.lcd).1]; exact ih
    | set_backlight x =>
      show (py_lcd_set_backlight x y.lcd).st.type ≠ _ →
        (py_lcd_set_backlight x y.lcd).st.backlight_init = true
      by_cases h0 : y.lcd.type = .LCD_NONE
      · rw [set_backlight_of_none y.lcd h0 x]; exact ih
      · exact fun _ => (set_backlight_state y.lcd h0 x).2
    | get_backlight =>
      show (py_lcd_get_backlight y.hw.led.level y.lcd).st.type ≠ _ →
        (py_lcd_get_backlight y.hw.led.level y.lcd).st.backlight_init = true
      rw [get_backlight_state]; exact ih
    | display img roi =>
      show (py_lcd_display img roi y.lcd).st.type ≠ _ →
        (py_lcd_display img roi y.lcd).st.backlight_init = true
      rw [display_state]; exact ih
    | clear =>
      show (py_lcd_clear y.lcd).st.type ≠ _ → (py_lcd_clear y.lcd).st.backlight_init = true
      rw [clear_state]; exact ih

/-- As long as no SPI open fails, an uninitialised driver owns no configured pad. -/
theorem reachable_spi_ok_released (y : Sys) (h : ReachableSpiOk y) :
    y.lcd.type = .LCD_NONE → y.hw.released := by
  induction h with
  | initial => exact fun _ => ⟨rfl, rfl, rfl, rfl⟩
  | @step y c hy hc ih =>
    have hcons := reachable_consistent _ y hy
    have hdeinit : (py_lcd_deinit y.lcd).st.type = .LCD_NONE →
        (y.hw.run (py_lcd_deinit y.lcd).ev).released := by
      intro _
      by_cases h0 : y.lcd.type = .LCD_NONE
      · rw [deinit_of_none y.lcd h0]; exact ih h0
      · exact released_after_deinit y hcons h0
    cases c with
    | init spi_ok args =>
      have hs : spi_ok = true := hc
      subst hs
      show (py_lcd_init true args y.lcd).st.type = .LCD_NONE →
        (y.hw.run (py_lcd_init true args y.lcd).ev).released
      by_cases h1 : py_helper_keyword_int args.type 2 = 1
      · rw [(init_1_8_ok y.lcd args ((type_arg_1_8 args).mp h1)).1]
        exact fun h2 => absurd h2 (by decide)
      · by_cases h2 : py_helper_keyword_int args.type 2 = 2
        · rw [(init_0_96_ok y.lcd args ((type_arg_0_96 args).mp h2)).1]
          exact fun h2 => absurd h2 (by decide)
        · rw [init_no_panel true y.lcd args h1 h2]; exact hdeinit
    | init_bgr_raises t =>
      show (py_lcd_init_bgr_raises t y.lcd).st.type = .LCD_NONE →
        (y.hw.run (py_lcd_init_bgr_raises t y.lcd).ev).released
      by_cases h1 : py_helper_keyword_int t 2 = 1
      · rw [init_bgr_raises_1_8 y.lcd t ((type_kw_1_8 t).mp h1)]
        exact fun h2 => LcdType.noConfusion h2
      · by_cases h2 : py_helper_keyword_int t 2 = 2
        · rw [init_bgr_raises_0_96 y.lcd t ((type_kw_0_96 t).mp h2)]
          exact fun h2 => LcdType.noConfusion h2
        · rw [init_bgr_raises_no_panel y.lcd t h1 h2]; exact hdeinit
    | deinit => exact hdeinit
    | width =>
      show (py_lcd_width y.lcd).st.type = _ → (y.hw.run (py_lcd_width y.lcd).ev).released
      rw [(width_step y.lcd).1, (width_step y.lcd).2]; exact ih
    | height =>
      show (py_lcd_height y.lcd).st.type = _ → (y.hw.run (py_lcd_height y.lcd).ev).released
      rw [(height_step y.lcd).1, (height_step y.lcd).2]; exact ih
    | type =>
      show (py_lcd_type y.lcd).st.type = _ → (y.hw.run (py_lcd_type y.lcd).ev).released
      rw [(type_step y.lcd).1, (type_step y.lcd).2]; exact ih
    | set_backlight x =>
      show (py_lcd_set_backlight x y.lcd).st.type = _ →
        (y.hw.run (py_lcd_set_backlight x y.lcd).ev).released
      by_cases h0 : y.lcd.type = .LCD_NONE
      · rw [set_backlight_of_none y.lcd h0 x]; exact ih
      · intro h2
        rw [(set_backlight_state y.lcd h0 x).1] at h2
        exact absurd h2 h0
    | get_backlight =>
      show (py_lcd_get_backlight y.hw.led.level y.lcd).st.type = _ →
        (y.hw.run (py_lcd_get_backlight y.hw.led.level y.lcd).ev).released
      rw [get_backlight_state]
      intro h0
      rw [get_backlight_of_none y.lcd h0]; exact ih h0
    | display img roi =>
      show (py_lcd_display img roi y.lcd).st.type = _ →
        (y.hw.run (py_lcd_display img roi y.lcd).ev).released
      rw [display_state]
      intro h0
      rw [(display_of_none y.lcd h0 img roi).2]; exact ih h0
    | clear =>
      show (py_lcd_clear y.lcd).st.type = _ → (y.hw.run (py_lcd_clear y.lcd).ev).released
      rw [clear_state]
      intro h0
      rw [clear_of_none y.lcd h0]; exact ih h0

theorem ready_state_eq (l : Lcd) (hb : l.backlight_init = true) :
    { l with backlight_init := true } = l := by
  cases l with
  | mk a b c d e =>
    simp only at hb
    subst hb
    rfl

/-- As long as no `init` is left inside its command sequence, the statics are the initial
ones or those of a completed `init`. -/
theorem reachable_uninterrupted_states (y : Sys) (h : ReachableUninterrupted y) :
    y.lcd = Lcd.initial ∨ y.lcd = state_1_8 ∨ y.lcd = state_0_96 := by
  have hc := reachable_consistent _ y h
  by_cases h0 : y.lcd.type = .LCD_NONE
  · exact Or.inl (hc.1 h0).1
  · have hb := reachable_uninterrupted_ready y h h0
    have hs := (hc.2.1 h0).1
    rw [ready_state_eq y.lcd hb] at hs
    exact Or.inr hs

/-- The statics other than `backlight_init` of a state that holds a panel. -/
theorem panel_fields (l p : Lcd) (e : { l with backlight_init := true } = p) :
    l.spi_port = p.spi_port ∧ l.width = p.width ∧ l.height = p.height ∧ l.type = p.type := by
  subst e
  exact ⟨rfl, rfl, rfl, rfl⟩

/-! ## Views of a trace over concatenation -/

theorem cs_writes_append (bit : Bool) (a b : List Event) :
    cs_writes bit (a ++ b) = cs_writes bit a + cs_writes bit b := by
  simp [cs_writes]

theorem cs_writes_flatMap {α : Type} (bit : Bool) (l : List α) (g : α → List Event) (c : Nat)
    (h : ∀ a, cs_writes bit (g a) = c) : cs_writes bit (l.flatMap g) = l.length * c := by
  induction l with
  | nil => simp [cs_writes]
  | cons a l ih => rw [List.flatMap_cons, cs_writes_append, h a, ih, List.length_cons]; ring

theorem cs_writes_command_byte (bit : Bool) (b : Nat) :
    cs_writes bit (lcd_write_command_byte b) = 1 := by
  cases bit <;> simp [cs_writes, lcd_write_command_byte]

theorem cs_writes_data_byte (bit : Bool) (b : Nat) :
    cs_writes bit (lcd_write_data_byte b) = 1 := by
  cases bit <;> simp [cs_writes, lcd_write_data_byte]

theorem cs_writes_write_data (bit : Bool) (len : Nat) (dat : Nat → Nat) :
    cs_writes bit (lcd_write_data len dat) = 1 := by
  cases bit <;> simp [cs_writes, lcd_write_data]

theorem cs_writes_command (bit : Bool) (c len : Nat) (dat : List Nat) :
    cs_writes bit (lcd_write_command c len dat) = 1 + len := by
  unfold lcd_write_command
  rw [cs_writes_append, cs_writes_command_byte,
    cs_writes_flatMap bit _ _ 1 (fun _ => cs_writes_data_byte bit _), List.length_range]
  ring

theorem cs_writes_deinit (bit : Bool) (s : Lcd) : cs_writes bit (py_lcd_deinit s).ev = 0 := by
  unfold py_lcd_deinit
  cases s.type <;> cases s.backlight_init <;> cases bit <;> rfl

theorem cs_writes_display_row (bit : Bool) (img : image_t) (f : Fit) (i : Int) :
    cs_writes bit (display_row img f i) =
      (if f.l_pad ≠ 0 then 1 else 0) + 1 + (if f.r_pad ≠ 0 then 1 else 0) := by
  unfold display_row
  rw [cs_writes_append, cs_writes_append]
  congr 1
  · congr 1
    · split_ifs
      · exact cs_writes_write_data _ _ _
      · rfl
    · split_ifs <;> exact cs_writes_write_data _ _ _
  · split_ifs
    · exact cs_writes_write_data _ _ _
    · rfl

/-- The number of CS writes of a frame does not depend on the level written. -/
theorem cs_writes_display_frame (W : Int) (img : image_t) (f : Fit) :
    cs_writes true (display_frame W img f) = cs_writes false (display_frame W img f) := by
  have e : ∀ bit, cs_writes bit (display_frame W img f) =
      1 + 0 + f.t_pad.toNat * 1 +
      f.rect.h.toNat * ((if f.l_pad ≠ 0 then 1 else 0) + 1 + (if f.r_pad ≠ 0 then 1 else 0)) +
      f.b_pad.toNat * 1 + 0 := by
    intro bit
    unfold display_frame
    simp only [cs_writes_append]
    rw [cs_writes_command_byte, cs_writes_flatMap bit _ _ 1 (fun _ => cs_writes_write_data _ _ _),
      cs_writes_flatMap bit _ (fun i : Nat => display_row img f (i : Int)) _
        (fun i => cs_writes_display_row bit img f (i : Int)),
      cs_writes_flatMap bit _ _ 1 (fun _ => cs_writes_write_data _ _ _)]
    simp only [List.length_range]
    cases bit <;> rfl
  rw [e true, e false]

theorem cs_writes_clear_frame (W H : Int) :
    cs_writes true (clear_frame W H) = cs_writes false (clear_frame W H) := by
  have e : ∀ bit, cs_writes bit (clear_frame W H) = 1 + 0 + H.toNat * 1 + 0 := by
    intro bit
    unfold clear_frame
    simp only [cs_writes_append]
    rw [cs_writes_command_byte, cs_writes_flatMap bit _ _ 1 (fun _ => cs_writes_write_data _ _ _)]
    simp only [List.length_range]
    cases bit <;> rfl
  rw [e true, e false]

theorem cs_writes_display (img : image_t) (roi : Option rectangle_t) (s : Lcd) :
    cs_writes true (py_lcd_display img roi s).ev = cs_writes false (py_lcd_display img roi s).ev := by
  unfold py_lcd_display
  cases hm : IM_IS_MUTABLE img
  · rfl
  · cases roi with
    | none => rfl
    | some rect =>
      cases ht : s.type with
      | LCD_NONE => rfl
      | LCD_SHIELD_1_8 =>
        simp only [Bool.not_true, Bool.false_eq_true, if_false]
        exact cs_writes_display_frame _ _ _
      | LCD_SHIELD_0_96 =>
        simp only [Bool.not_true, Bool.false_eq_true, if_false, cs_writes_append, cs_writes_command,
          cs_writes_display_frame]

theorem cs_writes_clear (s : Lcd) :
    cs_writes true (py_lcd_clear s).ev = cs_writes false (py_lcd_clear s).ev := by
  unfold py_lcd_clear
  cases ht : s.type with
  | LCD_NONE => rfl
  | LCD_SHIELD_1_8 => exact cs_writes_clear_frame _ _
  | LCD_SHIELD_0_96 =>
    simp only [cs_writes_append, cs_writes_command, cs_writes_clear_frame]

set_option maxRecDepth 100000 in
theorem cs_writes_init_prologue (bit : Bool) : cs_writes bit init_prologue = 33 := by
  cases bit <;> decide

set_option maxRecDepth 100000 in
theorem cs_writes_init_epilogue (bit : Bool) : cs_writes bit init_epilogue = 36 := by
  cases bit <;> decide

theorem cs_writes_init_panel_1_8 (bit : Bool) (bgr : Nat) :
    cs_writes bit (init_panel_1_8 bgr) = 15 := by
  simp only [init_panel_1_8, cs_writes_append, cs_writes_command, cs_writes_command_byte]

theorem cs_writes_init_panel_0_96 (bit : Bool) (bgr : Nat) :
    cs_writes bit (init_panel_0_96 bgr) = 15 := by
  simp only [init_panel_0_96, cs_writes_append, cs_writes_command, cs_writes_command_byte]

/-- An `init` that selects a panel writes CS high once more than low, whether or not
the SPI object opens. -/
theorem cs_writes_init_panel (spi_ok : Bool) (s : Lcd) (args : InitArgs)
    (h : args.type = some 1 ∨ args.type = some 2 ∨ args.type = none) :
    cs_writes true (py_lcd_init spi_ok args s).ev =
      cs_writes false (py_lcd_init spi_ok args s).ev + 1 := by
  have hs : ∀ clock, cs_writes true (init_setup clock) = 1 ∧ cs_writes false (init_setup clock) = 0 :=
    fun _ => ⟨rfl, rfl⟩
  have hl : ∀ bit, cs_writes bit (gpio_output .LED .GPIO_MODE_OUTPUT_OD false) = 0 := by
    intro bit; cases bit <;> rfl
  cases spi_ok with
  | true =>
    rcases h with h | h
    · rw [init_events_1_8 s args h]
      simp only [cs_writes_append, cs_writes_deinit, cs_writes_init_prologue,
        cs_writes_init_panel_1_8, cs_writes_init_epilogue, hl, (hs _).1, (hs _).2]
    · rw [init_events_0_96 s args h]
      simp only [cs_writes_append, cs_writes_deinit, cs_writes_init_prologue,
        cs_writes_init_panel_0_96, cs_writes_init_epilogue, hl, (hs _).1, (hs _).2]
  | false =>
    rw [(init_events_spi_fail s args h).1]
    simp only [cs_writes_append, cs_writes_deinit]
    rfl

/-- An `init` of a panel left at the `bgr` conversion has written CS high once more than
low. -/
theorem cs_writes_init_bgr_raises (s : Lcd) (t : Option Int)
    (h : t = some 1 ∨ t = some 2 ∨ t = none) :
    cs_writes true (py_lcd_init_bgr_raises t s).ev =
      cs_writes false (py_lcd_init_bgr_raises t s).ev + 1 := by
  have hs : ∀ clock, cs_writes true (init_setup clock) = 1 ∧ cs_writes false (init_setup clock) = 0 :=
    fun _ => ⟨rfl, rfl⟩
  rcases h with h | h
  · rw [init_bgr_raises_1_8 s t h]
    simp only [cs_writes_append, cs_writes_deinit, cs_writes_init_prologue, (hs _).1, (hs _).2]
  · rw [init_bgr_raises_0_96 s t h]
    simp only [cs_writes_append, cs_writes_deinit, cs_writes_init_prologue,
      cs_writes_command_byte, (hs _).1, (hs _).2]

/-- The CS writes of a successful `init` of the 1.8 inch panel: 85 high, 84 low. -/
theorem cs_writes_init_1_8 (s : Lcd) (args : InitArgs) (h : args.type = some 1) :
    cs_writes true (py_lcd_init true args s).ev = 85 ∧
    cs_writes false (py_lcd_init true args s).ev = 84 := by
  have hs : ∀ clock, cs_writes true (init_setup clock) = 1 ∧ cs_writes false (init_setup clock) = 0 :=
    fun _ => ⟨rfl, rfl⟩
  have hl : ∀ bit, cs_writes bit (gpio_output .LED .GPIO_MODE_OUTPUT_OD false) = 0 := by
    intro bit; cases bit <;> rfl
  rw [init_events_1_8 s args h]
  simp only [cs_writes_append, cs_writes_deinit, cs_writes_init_prologue,
    cs_writes_init_panel_1_8, cs_writes_init_epilogue, hl, (hs _).1, (hs _).2]
  trivial

/-! ## The wire view over concatenation -/

theorem wire_from_append (dc : Bool) (a b : List Event) :
    wire_from dc (a ++ b) = wire_from dc a ++ wire_from (rs_after dc a) b := by
  induction a generalizing dc with
  | nil => rfl
  | cons e es ih =>
    cases e with
    | HAL_GPIO_WritePin p bit => cases p <;> simp [wire_from, rs_after, ih]
    | _ => simp [wire_from, rs_after, ih]

theorem rs_after_append (dc : Bool) (a b : List Event) :
    rs_after dc (a ++ b) = rs_after (rs_after dc a) b := by
  induction a generalizing dc with
  | nil => rfl
  | cons e es ih =>
    cases e with
    | HAL_GPIO_WritePin p bit => cases p <;> simp [rs_after, ih]
    | _ => simp [rs_after, ih]

theorem sleeps_append (a b : List Event) : sleeps (a ++ b) = sleeps a ++ sleeps b := by
  simp [sleeps, List.filterMap_append]

theorem scratch_events_append (a b : List Event) :
    scratch_events (a ++ b) = scratch_events a ++ scratch_events b := by
  simp [scratch_events, List.filter_append]

theorem getLast?_or_cons {α : Type} (e : α) (es : List α) (p : Option α) :
    (e :: es).getLast?.or p = es.getLast?.or (some e) := by
  cases es with
  | nil => rfl
  | cons x xs =>
    rw [List.getLast?_cons_cons]
    cases h : (x :: xs).getLast? with
    | none => simp at h
    | some a => rfl

theorem gpio_inits_from_append (p : Option Event) (a b : List Event) :
    gpio_inits_from p (a ++ b) =
      gpio_inits_from p a ++ gpio_inits_from (a.getLast?.or p) b := by
  induction a generalizing p with
  | nil => cases p <;> rfl
  | cons e es ih =>
    rw [getLast?_or_cons, List.cons_append]
    cases e with
    | HAL_GPIO_Init cfg =>
      simp only [gpio_inits_from]
      rw [ih]
      rfl
    | _ =>
      simp only [gpio_inits_from]
      rw [ih]

/-- `py_lcd_deinit` puts nothing on the wire and leaves RS alone. -/
theorem wire_deinit (dc : Bool) (s : Lcd) :
    wire_from dc (py_lcd_deinit s).ev = [] ∧ rs_after dc (py_lcd_deinit s).ev = dc := by
  unfold py_lcd_deinit
  cases s.type <;> cases s.backlight_init <;> exact ⟨rfl, rfl⟩

theorem sleeps_deinit (s : Lcd) : sleeps (py_lcd_deinit s).ev = [] := by
  unfold py_lcd_deinit
  cases s.type <;> cases s.backlight_init <;> rfl

theorem gpio_inits_deinit (p : Option Event) (s : Lcd) :
    gpio_inits_from p (py_lcd_deinit s).ev = [] := by
  unfold py_lcd_deinit
  cases s.type <;> cases s.backlight_init <;> rfl

/-- The events of any `init` are those of `py_lcd_deinit` followed by those of the same
`init` on the uninitialised driver. -/
theorem init_events_split (spi_ok : Bool) (args : InitArgs) (s : Lcd) :
    (py_lcd_init spi_ok args s).ev =
      (py_lcd_deinit s).ev ++ (py_lcd_init spi_ok args Lcd.initial).ev := by
  have h0 : py_lcd_deinit Lcd.initial = { st := Lcd.initial, ev := [], ret := .mp_const_none } := rfl
  simp only [py_lcd_init, h0]
  split_ifs <;> simp [List.append_assoc]

/-- The wire trace of an `init` does not depend on the state it starts from. -/
theorem wire_trace_init (spi_ok : Bool) (args : InitArgs) (s : Lcd) :
    wire_trace (py_lcd_init spi_ok args s).ev =
      wire_trace (py_lcd_init spi_ok args Lcd.initial).ev := by
  rw [init_events_split]
  unfold wire_trace
  rw [wire_from_append, (wire_deinit true s).1, (wire_deinit true s).2, List.nil_append]

theorem wire_from_write_data (dc : Bool) (len : Nat) (dat : Nat → Nat) :
    wire_from dc (lcd_write_data len dat) = [ .burst true len ((List.range len).map dat) ] ∧
    rs_after dc (lcd_write_data len dat) = true :=
  ⟨rfl, rfl⟩

theorem wire_from_command_byte (dc : Bool) (b : Nat) :
    wire_from dc (lcd_write_command_byte b) = [ .byte false b ] ∧
    rs_after dc (lcd_write_command_byte b) = false :=
  ⟨rfl, rfl⟩

/-- The wire trace of `n` zero rows of `len` bytes. -/
theorem wire_from_zero_rows (dc : Bool) (n len : Nat) :
    wire_from dc ((List.range n).flatMap (fun _ => lcd_write_data len zero_line)) =
      List.replicate n (.burst true len (List.replicate len 0)) := by
  induction n with
  | zero => rfl
  | succ n ih =>
    rw [List.range_succ, List.flatMap_append, wire_from_append, ih, List.replicate_succ']
    congr 1
    simp only [List.flatMap_cons, List.flatMap_nil, List.append_nil]
    rw [(wire_from_write_data _ len zero_line).1, map_zero_line]

/-- The wire trace of the frame `py_lcd_clear` sends. -/
theorem wire_from_clear_frame (dc : Bool) (W H : Int) :
    wire_from dc (clear_frame W H) =
      .byte false 0x2C ::
        List.replicate H.toNat (.burst true (toU32 (W * 2)) (List.replicate (toU32 (W * 2)) 0)) := by
  unfold clear_frame
  rw [wire_from_append, wire_from_append, wire_from_append, (wire_from_command_byte dc 0x2C).1,
    wire_from_zero_rows]
  have e1 : ∀ d, wire_from d [Event.fb_alloc_mark, Event.fb_alloc0 (toU32 (W * 2))] = [] :=
    fun _ => rfl
  have e2 : ∀ d, wire_from d [Event.fb_alloc_free_till_mark] = [] := fun _ => rfl
  rw [e1, e2]
  simp

/-- The wire trace of the frame `py_lcd_display` sends when the fitted rectangle has no
rows. -/
theorem wire_from_display_frame_empty (dc : Bool) (W : Int) (img : image_t) (f : Fit)
    (h : f.rect.h = 0) :
    wire_from dc (display_frame W img f) =
      .byte false 0x2C ::
        List.replicate (f.t_pad.toNat + f.b_pad.toNat)
          (.burst true (toU32 (W * 2)) (List.replicate (toU32 (W * 2)) 0)) := by
  unfold display_frame
  rw [h]
  have e0 : (List.range (Int.toNat 0)).flatMap (fun i : Nat => display_row img f (i : Int)) = [] :=
    rfl
  rw [e0, List.append_nil]
  rw [wire_from_append, wire_from_append, wire_from_append, wire_from_append,
    (wire_from_command_byte dc 0x2C).1, wire_from_zero_rows, wire_from_zero_rows]
  have e1 : ∀ d, wire_from d [Event.fb_alloc_mark, Event.fb_alloc0 (toU32 (W * 2)),
      Event.fb_alloc (toU32 (W * 2))] = [] := fun _ => rfl
  have e2 : ∀ d, wire_from d [Event.fb_alloc_free_till_mark] = [] := fun _ => rfl
  rw [e1, e2, List.replicate_add]
  simp only [List.append_nil, List.nil_append, List.cons_append, List.append_assoc]

/-- The window reset that precedes the frame on the 0.96 inch panel. -/
theorem wire_from_window_reset (dc : Bool) :
    wire_from dc (lcd_write_command 0x2A 2 [0, 1] ++ lcd_write_command 0x2B 2 [0, 26]) =
      [ .byte false 0x2A, .byte true 0x00, .byte true 0x01,
        .byte false 0x2B, .byte true 0x00, .byte true 0x1A ] :=
  rfl

/-! ## Views of the trace of `py_lcd_init` -/

set_option maxRecDepth 100000 in
/-- The frames between power control and gamma for the 1.8 inch panel, for any `bgr`. -/
theorem window_frames_1_8 (s : Lcd) (bgr : Option Int) :
    frames_between 0xC5 0xE0 (frames (wire_trace (py_lcd_init true ⟨some 1, bgr⟩ s).ev)) =
      [(0x36, [(0xC0 ||| (toU8 (py_helper_keyword_int bgr 0) <<< 3)) % 256]), (0x3A, [0x05]),
       (0x20, []), (0x2A, [0x00, 0x00, 0x00, 0x7F]), (0x2B, [0x00, 0x00, 0x00, 0x9F])] := by
  rw [wire_trace_init]
  rfl

set_option maxRecDepth 100000 in
/-- The frames between power control and gamma for the 0.96 inch panel, for any `bgr`. -/
theorem window_frames_0_96 (s : Lcd) (bgr : Option Int) :
    frames_between 0xC5 0xE0 (frames (wire_trace (py_lcd_init true ⟨some 2, bgr⟩ s).ev)) =
      [(0x21, []), (0x36, [(0xA0 ||| (toU8 (py_helper_keyword_int bgr 1) <<< 3)) % 256]),
       (0x3A, [0x05]), (0x2A, [0x00, 0x01, 0x00, 0xA0]), (0x2B, [0x00, 0x1A, 0x00, 0x69])] := by
  rw [wire_trace_init]
  rfl

theorem madctl_byte (base b : Nat) (hb : b ≤ 1) (hbase : base = 0xC0 ∨ base = 0xA0) :
    (base ||| (toU8 ((b : Nat) : Int) <<< 3)) % 256 = base ||| (b <<< 3) := by
  have h : b = 0 ∨ b = 1 := by omega
  rcases h with rfl | rfl <;> rcases hbase with rfl | rfl <;> decide

/-- The events after the RS pad is configured are those after the pin setup. -/
theorem after_event_setup (s : Lcd) (clock : SpiClock) (rest : List Event) :
    after_event (.HAL_GPIO_Init (pad_cfg .RS .GPIO_MODE_OUTPUT_PP))
      ((py_lcd_deinit s).ev ++ init_setup clock ++ rest) = rest := by
  unfold py_lcd_deinit
  cases s.type <;> cases s.backlight_init <;> rfl

set_option maxRecDepth 100000 in
theorem init_prologue_head :
    init_prologue =
      (lcd_write_command_byte 0x01 ++
        [ .HAL_GPIO_WritePin .RST false, .systick_sleep 120, .HAL_GPIO_WritePin .RST true ] ++
        lcd_write_command_byte 0x01 ++ [ .systick_sleep 120 ] ++
        lcd_write_command_byte 0x11 ++ [ .systick_sleep 120 ]) ++
      init_prologue.drop 17 := by
  decide

set_option maxRecDepth 100000 in
theorem init_epilogue_tail :
    init_epilogue =
      init_epilogue.take 136 ++
      (lcd_write_command_byte 0x13 ++ [ .systick_sleep 10 ] ++
        lcd_write_command_byte 0x29 ++ [ .systick_sleep 100 ]) := by
  decide

set_option maxRecDepth 100000 in
theorem sleeps_init_prologue : sleeps init_prologue = [120, 120, 120] := by
  decide

set_option maxRecDepth 100000 in
theorem sleeps_init_epilogue : sleeps init_epilogue = [10, 100] := by
  decide

/-- The order of a successful `init`, from the decomposition of its trace. -/
theorem init_sequence_of (s : Lcd) (clock : SpiClock) (panel evs : List Event)
    (hev : evs = (py_lcd_deinit s).ev ++ init_setup clock ++ init_prologue ++ panel ++
      init_epilogue ++ gpio_output .LED .GPIO_MODE_OUTPUT_OD false)
    (hp : sleeps panel = []) :
    evs = (py_lcd_deinit s).ev ++ init_setup clock ++
      after_event (.HAL_GPIO_Init (pad_cfg .RS .GPIO_MODE_OUTPUT_PP)) evs ∧
    List.IsPrefix
      (lcd_write_command_byte 0x01 ++
        [ .HAL_GPIO_WritePin .RST false, .systick_sleep 120, .HAL_GPIO_WritePin .RST true ] ++
        lcd_write_command_byte 0x01 ++ [ .systick_sleep 120 ] ++
        lcd_write_command_byte 0x11 ++ [ .systick_sleep 120 ])
      (after_event (.HAL_GPIO_Init (pad_cfg .RS .GPIO_MODE_OUTPUT_PP)) evs) ∧
    List.IsSuffix
      (lcd_write_command_byte 0x13 ++ [ .systick_sleep 10 ] ++
        lcd_write_command_byte 0x29 ++ [ .systick_sleep 100 ] ++
        gpio_output .LED .GPIO_MODE_OUTPUT_OD false)
      evs ∧
    sleeps evs = [120, 120, 120, 10, 100] ∧ (sleeps evs).sum = 470 := by
  have ha : after_event (.HAL_GPIO_Init (pad_cfg .RS .GPIO_MODE_OUTPUT_PP)) evs =
      init_prologue ++ panel ++ init_epilogue ++ gpio_output .LED .GPIO_MODE_OUTPUT_OD false := by
    rw [hev]
    have e := after_event_setup s clock
      (init_prologue ++ panel ++ init_epilogue ++ gpio_output .LED .GPIO_MODE_OUTPUT_OD false)
    simp only [List.append_assoc] at e ⊢
    exact e
  have hs : sleeps evs = [120, 120, 120, 10, 100] := by
    rw [hev]
    simp only [sleeps_append, sleeps_deinit, sleeps_init_prologue, sleeps_init_epilogue, hp]
    rfl
  refine ⟨?_, ?_, ?_, hs, ?_⟩
  · rw [ha, hev]
    simp only [List.append_assoc]
  · rw [ha, init_prologue_head]
    simp only [List.append_assoc]
    exact List.prefix_append _ _
  · rw [hev, init_epilogue_tail]
    refine ⟨(py_lcd_deinit s).ev ++ init_setup clock ++ init_prologue ++ panel ++
      init_epilogue.take 136, ?_⟩
    simp only [List.append_assoc]
  · rw [hs]
    rfl

set_option maxRecDepth 100000 in
/-- Every `HAL_GPIO_Init` of a successful `init` of the 1.8 inch panel on the
uninitialised driver, with the event before it. -/
theorem gpio_inits_init_1_8 (p : Option Event) (bgr : Option Int) :
    gpio_inits_from p (py_lcd_init true ⟨some 1, bgr⟩ Lcd.initial).ev =
      [ (some (.HAL_GPIO_WritePin .CS true), pad_cfg .CS .GPIO_MODE_OUTPUT_OD),
        (some (.HAL_GPIO_WritePin .RST true), pad_cfg .RST .GPIO_MODE_OUTPUT_PP),
        (some (.HAL_GPIO_WritePin .RS true), pad_cfg .RS .GPIO_MODE_OUTPUT_PP),
        (some (.HAL_GPIO_WritePin .LED false), pad_cfg .LED .GPIO_MODE_OUTPUT_OD) ] :=
  rfl

set_option maxRecDepth 100000 in
/-- Every `HAL_GPIO_Init` of a successful `init` of the 0.96 inch panel on the
uninitialised driver, with the event before it. -/
theorem gpio_inits_init_0_96 (p : Option Event) (bgr : Option Int) :
    gpio_inits_from p (py_lcd_init true ⟨some 2, bgr⟩ Lcd.initial).ev =
      [ (some (.HAL_GPIO_WritePin .CS true), pad_cfg .CS .GPIO_MODE_OUTPUT_OD),
        (some (.HAL_GPIO_WritePin .RST true), pad_cfg .RST .GPIO_MODE_OUTPUT_PP),
        (some (.HAL_GPIO_WritePin .RS true), pad_cfg .RS .GPIO_MODE_OUTPUT_PP),
        (some (.HAL_GPIO_WritePin .LED false), pad_cfg .LED .GPIO_MODE_OUTPUT_OD) ] :=
  rfl

/-- `gpio_inits` of an `init` does not depend on the state it starts from when the
trace on the uninitialised driver does not depend on the event before it. -/
theorem gpio_inits_init (spi_ok : Bool) (args : InitArgs) (s : Lcd)
    (l : List (Option Event × GPIO_InitTypeDef))
    (h : ∀ p, gpio_inits_from p (py_lcd_init spi_ok args Lcd.initial).ev = l) :
    gpio_inits (py_lcd_init spi_ok args s).ev = l := by
  unfold gpio_inits
  rw [init_events_split, gpio_inits_from_append, gpio_inits_deinit, List.nil_append, h]

/-! ## Claims on the backlight, failed SPI opens and chip select -/

/-- On an initialised driver with the LED pad configured, `set_backlight(x)` writes
`NOT x` to the LED pad and `get_backlight()` then reads 1 for `x ≠ 0` and 0 for `x = 0`. -/
theorem set_then_get_backlight (y : Sys) (h : y.lcd.type ≠ .LCD_NONE)
    (hb : y.lcd.backlight_init = true) (x : Int) :
    (y.exec (.set_backlight x)).hw.led.level = decide (x = 0) ∧
    (Call.get_backlight.step (y.exec (.set_backlight x))).ret =
      .mp_obj_new_int (if x = 0 then 0 else 1) := by
  have e : y.exec (.set_backlight x) =
      { lcd := y.lcd, hw := y.hw.run [ .HAL_GPIO_WritePin .LED (decide (x = 0)) ] } := by
    show Sys.mk (py_lcd_set_backlight x y.lcd).st (y.hw.run (py_lcd_set_backlight x y.lcd).ev) = _
    rw [set_backlight_ready y.lcd h hb x]
  rw [e]
  refine ⟨rfl, ?_⟩
  show (py_lcd_get_backlight (decide (x = 0)) y.lcd).ret = _
  rw [get_backlight_ready y.lcd h hb]
  by_cases hx : x = 0 <;> simp [hx]

/-- C11: after a successful `init` of either panel (from any prior state, any `bgr`), for
every integer `x`, `py_lcd_set_backlight(x)` writes `NOT x` to the LED pad and a following
`py_lcd_get_backlight()` returns 1 if `x` is non-zero and 0 if `x` is zero, the pin read
returning the level last written. -/
theorem backlight_roundtrip (y : Sys) (bgr : Option Int) (x : Int) :
    (((y.exec (.init true ⟨some 1, bgr⟩)).exec (.set_backlight x)).hw.led.level = decide (x = 0) ∧
     (Call.get_backlight.step ((y.exec (.init true ⟨some 1, bgr⟩)).exec (.set_backlight x))).ret =
        .mp_obj_new_int (if x = 0 then 0 else 1)) ∧
    (((y.exec (.init true ⟨some 2, bgr⟩)).exec (.set_backlight x)).hw.led.level = decide (x = 0) ∧
     (Call.get_backlight.step ((y.exec (.init true ⟨some 2, bgr⟩)).exec (.set_backlight x))).ret =
        .mp_obj_new_int (if x = 0 then 0 else 1)) := by
  have h1 : (y.exec (.init true ⟨some 1, bgr⟩)).lcd = state_1_8 :=
    (init_1_8_ok y.lcd ⟨some 1, bgr⟩ rfl).1
  have h2 : (y.exec (.init true ⟨some 2, bgr⟩)).lcd = state_0_96 :=
    (init_0_96_ok y.lcd ⟨some 2, bgr⟩ (Or.inl rfl)).1
  constructor
  · exact set_then_get_backlight _ (by rw [h1]; decide) (by rw [h1]; rfl) x
  · exact set_then_get_backlight _ (by rw [h2]; decide) (by rw [h2]; rfl) x

/-- C12, as the code behaves: when the SPI open fails during `py_lcd_init` of either panel
in a reachable state, `init` leaves through the exception of the SPI constructor with the
statics at their initial values (`type = LCD_NONE`, no SPI handle) and with RS/DC and LED
not configured, but CS (open-drain) and RST (push-pull) stay configured as outputs: no
deinit path runs after the failure. -/
theorem init_spi_failure (y : Sys) (h : Reachable y) (args : InitArgs)
    (hsel : args.type = some 1 ∨ args.type = some 2 ∨ args.type = none) :
    ((Call.init false args).step y).ret = .raise .spi_unavailable ∧
    (y.exec (.init false args)).lcd = Lcd.initial ∧
    (y.exec (.init false args)).hw.rs.mode = none ∧
    (y.exec (.init false args)).hw.led.mode = none ∧
    (y.exec (.init false args)).hw.cs.mode =
      some { Pin := .CS, Mode := .GPIO_MODE_OUTPUT_OD, Pull := .GPIO_NOPULL,
             Speed := .GPIO_SPEED_LOW } ∧
    (y.exec (.init false args)).hw.rst.mode =
      some { Pin := .RST, Mode := .GPIO_MODE_OUTPUT_PP, Pull := .GPIO_NOPULL,
             Speed := .GPIO_SPEED_LOW } := by
  have hc := consistent_step y (.init false args) (reachable_consistent _ y h)
  have hl : (y.exec (.init false args)).lcd = Lcd.initial := by
    show (py_lcd_init false args y.lcd).st = Lcd.initial
    rw [init_spi_fail]
    exact (consistent_after_deinit y (reachable_consistent _ y h)).1
  have hn : (y.exec (.init false args)).lcd.type = .LCD_NONE := by rw [hl]; rfl
  obtain ⟨_, hrs, hled⟩ := hc.1 hn
  refine ⟨(init_events_spi_fail y.lcd args hsel).2, hl, hrs, hled, ?_, ?_⟩
  · show (y.hw.run (py_lcd_init false args y.lcd).ev).cs.mode = _
    rw [(init_events_spi_fail y.lcd args hsel).1, Hw.run_append, Hw.run_append]
    rfl
  · show (y.hw.run (py_lcd_init false args y.lcd).ev).rst.mode = _
    rw [(init_events_spi_fail y.lcd args hsel).1, Hw.run_append, Hw.run_append]
    rfl

/-- Witness for C12: a failed `init` of the 0.96 inch panel on an initialised 1.8 inch
driver. -/
theorem init_spi_failure_witness :
    ((Sys.initial.exec (.init true ⟨some 1, none⟩)).exec (.init false ⟨some 2, none⟩)).lcd =
      Lcd.initial ∧
    ((Sys.initial.exec (.init true ⟨some 1, none⟩)).exec (.init false ⟨some 2, none⟩)).hw.cs.mode =
      some { Pin := .CS, Mode := .GPIO_MODE_OUTPUT_OD, Pull := .GPIO_NOPULL,
             Speed := .GPIO_SPEED_LOW } :=
  ⟨(init_spi_failure (Sys.initial.exec (.init true ⟨some 1, none⟩))
      (ReachableBy.step (.init true ⟨some 1, none⟩) ReachableBy.initial trivial)
      ⟨some 2, none⟩ (Or.inr (Or.inl rfl))).2.1,
   (init_spi_failure (Sys.initial.exec (.init true ⟨some 1, none⟩))
      (ReachableBy.step (.init true ⟨some 1, none⟩) ReachableBy.initial trivial)
      ⟨some 2, none⟩ (Or.inr (Or.inl rfl))).2.2.2.2.1⟩

/-- C12 as stated fails: after an `init` of either panel from process start whose SPI open
fails, the pads are not all released (CS and RST are outputs). -/
theorem init_spi_failure_keeps_pads :
    ¬ (Sys.initial.exec (.init false ⟨some 1, none⟩)).hw.released ∧
    ¬ (Sys.initial.exec (.init false ⟨some 2, none⟩)).hw.released := by
  decide

/-- C13, as the code behaves: for every public function, every state and every argument,
the trace of the call has as many CS-high (deassert) writes as CS-low (assert) writes,
except that an `init` whose type selects a panel writes CS high once more, the idle level
written before the CS pad becomes an output; every call leaves the CS pad released or CS
high when it was so before the call; and in every reachable state, after every call the CS
pad is released or CS is high, and CS is high whenever the driver is initialised. -/
theorem cs_writes_per_call (y : Sys) (c : Call) :
    cs_writes true (c.step y).ev =
      cs_writes false (c.step y).ev + (if c.selects_panel = true then 1 else 0) ∧
    (y.hw.cs.mode = none ∨ y.hw.cs.level = true →
      (y.exec c).hw.cs.mode = none ∨ (y.exec c).hw.cs.level = true) ∧
    (Reachable y →
      ((y.exec c).hw.cs.mode = none ∨ (y.exec c).hw.cs.level = true) ∧
      ((y.exec c).lcd.type ≠ .LCD_NONE → (y.exec c).hw.cs.level = true)) := by
  refine ⟨?_, cs_idle_step y c, ?_⟩
  · cases c with
    | init spi_ok args =>
      show cs_writes true (py_lcd_init spi_ok args y.lcd).ev =
        cs_writes false (py_lcd_init spi_ok args y.lcd).ev + _
      by_cases hsel : args.type = some 1 ∨ args.type = some 2 ∨ args.type = none
      · have hp : (Call.init spi_ok args).selects_panel = true := by
          rcases hsel with h | h | h <;> simp [Call.selects_panel, py_helper_keyword_int, h,
            LcdType.toInt]
        rw [hp, if_pos rfl]
        exact cs_writes_init_panel spi_ok y.lcd args hsel
      · have h1 : py_helper_keyword_int args.type 2 ≠ 1 := fun h =>
          hsel (Or.inl ((type_arg_1_8 args).mp h))
        have h2 : py_helper_keyword_int args.type 2 ≠ 2 := fun h =>
          hsel (Or.inr ((type_arg_0_96 args).mp h))
        have hp : (Call.init spi_ok args).selects_panel = false := by
          simp [Call.selects_panel, LcdType.toInt, h1, h2]
        rw [hp, init_no_panel spi_ok y.lcd args h1 h2, cs_writes_deinit, cs_writes_deinit]
        rfl
    | init_bgr_raises t =>
      show cs_writes true (py_lcd_init_bgr_raises t y.lcd).ev =
        cs_writes false (py_lcd_init_bgr_raises t y.lcd).ev + _
      by_cases hsel : t = some 1 ∨ t = some 2 ∨ t = none
      · have hp : (Call.init_bgr_raises t).selects_panel = true := by
          rcases hsel with h | h | h <;> simp [Call.selects_panel, py_helper_keyword_int, h,
            LcdType.toInt]
        rw [hp, if_pos rfl]
        exact cs_writes_init_bgr_raises y.lcd t hsel
      · have h1 : py_helper_keyword_int t 2 ≠ 1 := fun h => hsel (Or.inl ((type_kw_1_8 t).mp h))
        have h2 : py_helper_keyword_int t 2 ≠ 2 := fun h => hsel (Or.inr ((type_kw_0_96 t).mp h))
        have hp : (Call.init_bgr_raises t).selects_panel = false := by
          simp [Call.selects_panel, LcdType.toInt, h1, h2]
        rw [hp, init_bgr_raises_no_panel y.lcd t h1 h2, cs_writes_deinit, cs_writes_deinit]
        rfl
    | deinit =>
      show cs_writes true (py_lcd_deinit y.lcd).ev = cs_writes false (py_lcd_deinit y.lcd).ev + _
      rw [cs_writes_deinit, cs_writes_deinit]
      rfl
    | width =>
      show cs_writes true (py_lcd_width y.lcd).ev = cs_writes false (py_lcd_width y.lcd).ev + _
      rw [(width_step y.lcd).2]
      rfl
    | height =>
      show cs_writes true (py_lcd_height y.lcd).ev = cs_writes false (py_lcd_height y.lcd).ev + _
      rw [(height_step y.lcd).2]
      rfl
    | type =>
      show cs_writes true (py_lcd_type y.lcd).ev = cs_writes false (py_lcd_type y.lcd).ev + _
      rw [(type_step y.lcd).2]
      rfl
    | set_backlight x =>
      show cs_writes true (py_lcd_set_backlight x y.lcd).ev =
        cs_writes false (py_lcd_set_backlight x y.lcd).ev + _
      unfold py_lcd_set_backlight
      cases y.lcd.type <;> cases y.lcd.backlight_init <;>
        simp [cs_writes, gpio_output, Call.selects_panel]
    | get_backlight =>
      show cs_writes true (py_lcd_get_backlight y.hw.led.level y.lcd).ev =
        cs_writes false (py_lcd_get_backlight y.hw.led.level y.lcd).ev + _
      unfold py_lcd_get_backlight
      cases y.lcd.type <;> cases y.lcd.backlight_init <;> rfl
    | display img roi =>
      show cs_writes true (py_lcd_display img roi y.lcd).ev =
        cs_writes false (py_lcd_display img roi y.lcd).ev + _
      rw [cs_writes_display]
      rfl
    | clear =>
      show cs_writes true (py_lcd_clear y.lcd).ev = cs_writes false (py_lcd_clear y.lcd).ev + _
      rw [cs_writes_clear]
      rfl
  · intro h
    have hc := consistent_step y c (reachable_consistent _ y h)
    exact ⟨hc.2.2.2, fun h0 => (hc.2.1 h0).2⟩

/-- Witness for C13: `display` on the initialised 1.8 inch panel. -/
theorem cs_writes_per_call_witness :
    ((Sys.initial.exec (.init true ⟨some 1, none⟩)).exec
      (.display sample_gs (some ⟨0, 0, 4, 3⟩))).hw.cs.level = true :=
  ((cs_writes_per_call (Sys.initial.exec (.init true ⟨some 1, none⟩))
      (.display sample_gs (some ⟨0, 0, 4, 3⟩))).2.2
    (ReachableBy.step (.init true ⟨some 1, none⟩) ReachableBy.initial trivial)).2
    (by decide)

/-- C13 as stated fails: the trace of `init(type = 1)` from process start has 85 CS-high
writes and 84 CS-low writes. -/
theorem cs_writes_differ_in_init :
    cs_writes true (py_lcd_init true ⟨some 1, none⟩ Lcd.initial).ev = 85 ∧
    cs_writes false (py_lcd_init true ⟨some 1, none⟩ Lcd.initial).ev = 84 ∧
    cs_writes true (py_lcd_init true ⟨some 1, none⟩ Lcd.initial).ev ≠
      cs_writes false (py_lcd_init true ⟨some 1, none⟩ Lcd.initial).ev := by
  obtain ⟨h1, h2⟩ := cs_writes_init_1_8 Lcd.initial ⟨some 1, none⟩ rfl
  refine ⟨h1, h2, ?_⟩
  rw [h1, h2]
  decide

/-- C20, as the code behaves: in every state reachable from process start by any sequence
of calls of the public functions, `backlight_init` true implies that `type` is not
`LCD_NONE`, and with `type` not `LCD_NONE` `spi_port` is present and `(width, height)` is
`(128, 160)` or `(160, 80)` according to `type`.  The converse holds in every state
reached by calls none of which is an `init` left by an exception inside its command
sequence: there `backlight_init` is true if and only if `type` is not `LCD_NONE`,
`py_lcd_get_backlight` never returns none on an initialised driver and
`py_lcd_set_backlight` never takes its lazy LED-configuration branch (it emits nothing on an
uninitialised driver and the single LED write otherwise).  In a state with `type` set and
`backlight_init` false, which such an `init` leaves, `py_lcd_get_backlight` returns none
and `py_lcd_set_backlight` takes the lazy branch. -/
theorem backlight_ready_iff_initialised (y : Sys) :
    (Reachable y →
      (y.lcd.backlight_init = true → y.lcd.type ≠ .LCD_NONE) ∧
      (y.lcd.type = .LCD_SHIELD_1_8 →
        y.lcd.spi_port.isSome = true ∧ y.lcd.width = 128 ∧ y.lcd.height = 160) ∧
      (y.lcd.type = .LCD_SHIELD_0_96 →
        y.lcd.spi_port.isSome = true ∧ y.lcd.width = 160 ∧ y.lcd.height = 80) ∧
      (y.lcd.type ≠ .LCD_NONE → y.lcd.backlight_init = false →
        (∀ lv : Bool, (py_lcd_get_backlight lv y.lcd).ret = .mp_const_none) ∧
        (∀ x : Int, (py_lcd_set_backlight x y.lcd).ev =
          gpio_output .LED .GPIO_MODE_OUTPUT_OD (decide (x = 0)) ++
            [ .HAL_GPIO_WritePin .LED (decide (x = 0)) ]))) ∧
    (ReachableUninterrupted y →
      (y.lcd.backlight_init = true ↔ y.lcd.type ≠ .LCD_NONE) ∧
      (y.lcd.type ≠ .LCD_NONE →
        ∀ lv : Bool, (py_lcd_get_backlight lv y.lcd).ret ≠ .mp_const_none) ∧
      (∀ x : Int, (py_lcd_set_backlight x y.lcd).ev =
        if y.lcd.type = .LCD_NONE then [] else [ .HAL_GPIO_WritePin .LED (decide (x = 0)) ])) := by
  constructor
  · intro h
    have hc := reachable_consistent _ y h
    refine ⟨?_, ?_, ?_, ?_⟩
    · intro hb h0
      rw [(hc.1 h0).1] at hb
      cases hb
    · intro ht
      have h0 : y.lcd.type ≠ .LCD_NONE := by rw [ht]; decide
      rcases (hc.2.1 h0).1 with e | e
      · obtain ⟨p1, p2, p3, _⟩ := panel_fields y.lcd state_1_8 e
        exact ⟨by rw [p1]; rfl, p2, p3⟩
      · have e2 := (panel_fields y.lcd state_0_96 e).2.2.2
        rw [ht] at e2
        cases e2
    · intro ht
      have h0 : y.lcd.type ≠ .LCD_NONE := by rw [ht]; decide
      rcases (hc.2.1 h0).1 with e | e
      · have e2 := (panel_fields y.lcd state_1_8 e).2.2.2
        rw [ht] at e2
        cases e2
      · obtain ⟨p1, p2, p3, _⟩ := panel_fields y.lcd state_0_96 e
        exact ⟨by rw [p1]; rfl, p2, p3⟩
    · intro h0 hb
      refine ⟨fun lv => ?_, fun x => ?_⟩
      · rw [get_backlight_unready y.lcd hb lv]
      · rw [set_backlight_lazy y.lcd h0 hb x]
  · intro h
    rcases reachable_uninterrupted_states y h with e | e | e <;> rw [e] <;>
      refine ⟨by decide, ?_, ?_⟩
    · intro h0; exact absurd rfl h0
    · intro x; rfl
    · intro _ lv; cases lv <;> decide
    · intro x; rw [set_backlight_ready state_1_8 (by decide) rfl x]; rfl
    · intro _ lv; cases lv <;> decide
    · intro x; rw [set_backlight_ready state_0_96 (by decide) rfl x]; rfl

/-- Witness for C20: the state after a failed `init` followed by a successful one. -/
theorem backlight_ready_iff_initialised_witness :
    (((Sys.initial.exec (.init false ⟨some 1, none⟩)).exec
        (.init true ⟨some 2, none⟩)).lcd.backlight_init = true ↔
     ((Sys.initial.exec (.init false ⟨some 1, none⟩)).exec
        (.init true ⟨some 2, none⟩)).lcd.type ≠ .LCD_NONE) :=
  ((backlight_ready_iff_initialised
    ((Sys.initial.exec (.init false ⟨some 1, none⟩)).exec (.init true ⟨some 2, none⟩))).2
    (ReachableBy.step (.init true ⟨some 2, none⟩)
      (ReachableBy.step (.init false ⟨some 1, none⟩) ReachableBy.initial trivial) trivial)).1

/-- C20 as stated fails: `init(type = 1)` with a `bgr` argument that is not an integer,
called at process start, is left at the `bgr` conversion with `type = LCD_SHIELD_1_8` and
`backlight_init` false; in that reachable state `py_lcd_get_backlight` returns none on an
initialised driver and `py_lcd_set_backlight(1)` takes the lazy branch, configuring the LED
pad. -/
theorem init_bgr_raises_leaves_led_unconfigured :
    Reachable (Sys.initial.exec (.init_bgr_raises (some 1))) ∧
    ((Call.init_bgr_raises (some 1)).step Sys.initial).ret = .raise .bgr_not_an_integer ∧
    (Sys.initial.exec (.init_bgr_raises (some 1))).lcd.type = .LCD_SHIELD_1_8 ∧
    (Sys.initial.exec (.init_bgr_raises (some 1))).lcd.backlight_init = false ∧
    ¬ ((Sys.initial.exec (.init_bgr_raises (some 1))).lcd.backlight_init = true ↔
        (Sys.initial.exec (.init_bgr_raises (some 1))).lcd.type ≠ .LCD_NONE) ∧
    (Call.get_backlight.step (Sys.initial.exec (.init_bgr_raises (some 1)))).ret =
      .mp_const_none ∧
    ((Call.set_backlight 1).step (Sys.initial.exec (.init_bgr_raises (some 1)))).ev =
      [ .HAL_GPIO_WritePin .LED false, .HAL_GPIO_Init (pad_cfg .LED .GPIO_MODE_OUTPUT_OD),
        .HAL_GPIO_WritePin .LED false ] :=
  ⟨ReachableBy.step (.init_bgr_raises (some 1)) ReachableBy.initial trivial,
    rfl, rfl, rfl, by decide, rfl, rfl⟩

/-! ## Claims on the teardown -/

/-- C7, as the code behaves: in every state reachable from process start through the
public functions, `py_lcd_deinit` yields the initial statics (`type = LCD_NONE`, no
`spi_port`, `width = height = 0`, `backlight_init = false`), a second `deinit` changes
nothing and emits no event, and RS/DC and LED are released afterwards.  When the driver
was initialised before the `deinit`, and in every state reached without a failed SPI open,
RST and CS are released as well, so no pad of the driver is left an output; on an
uninitialised driver `deinit` touches no pad, so RST and CS stay outputs after an `init`
whose SPI open failed. -/
theorem deinit_resets (y : Sys) :
    (Reachable y →
      (y.exec .deinit).lcd = Lcd.initial ∧
      (y.exec .deinit).exec .deinit = y.exec .deinit ∧
      (Call.deinit.step (y.exec .deinit)).ev = [] ∧
      (y.exec .deinit).hw.rs.mode = none ∧
      (y.exec .deinit).hw.led.mode = none ∧
      (y.lcd.type ≠ .LCD_NONE → (y.exec .deinit).hw.released) ∧
      (y.lcd.type = .LCD_NONE → (y.exec .deinit).hw = y.hw)) ∧
    (ReachableSpiOk y → (y.exec .deinit).hw.released) := by
  constructor
  · intro h
    have hc := reachable_consistent _ y h
    obtain ⟨hst, hrs, hled, _⟩ := consistent_after_deinit y hc
    have hstep : py_lcd_deinit (py_lcd_deinit y.lcd).st =
        { st := (py_lcd_deinit y.lcd).st, ev := [], ret := .mp_const_none } :=
      deinit_of_none _ (deinit_type y.lcd)
    refine ⟨hst, ?_, ?_, hrs, hled, fun h0 => released_after_deinit y hc h0, ?_⟩
    · show Sys.mk (py_lcd_deinit (py_lcd_deinit y.lcd).st).st
          ((y.hw.run (py_lcd_deinit y.lcd).ev).run (py_lcd_deinit (py_lcd_deinit y.lcd).st).ev) =
        Sys.mk (py_lcd_deinit y.lcd).st (y.hw.run (py_lcd_deinit y.lcd).ev)
      rw [hstep]
      rfl
    · show (py_lcd_deinit (py_lcd_deinit y.lcd).st).ev = []
      rw [hstep]
    · intro h0
      show y.hw.run (py_lcd_deinit y.lcd).ev = y.hw
      rw [deinit_of_none y.lcd h0]
      rfl
  · intro h
    exact reachable_spi_ok_released (y.exec .deinit) (ReachableBy.step .deinit h trivial)
      (deinit_type y.lcd)

/-- Witness for C7: a failed `init`, then a successful `init` of the 1.8 inch panel, then
`deinit`: the statics are initial and all four pads are released. -/
theorem deinit_resets_witness :
    (((Sys.initial.exec (.init false ⟨some 1, none⟩)).exec (.init true ⟨some 1, none⟩)).exec
      .deinit).lcd = Lcd.initial ∧
    (((Sys.initial.exec (.init false ⟨some 1, none⟩)).exec (.init true ⟨some 1, none⟩)).exec
      .deinit).hw.released :=
  ⟨((deinit_resets
      ((Sys.initial.exec (.init false ⟨some 1, none⟩)).exec (.init true ⟨some 1, none⟩))).1
      (ReachableBy.step (.init true ⟨some 1, none⟩)
        (ReachableBy.step (.init false ⟨some 1, none⟩) ReachableBy.initial trivial) trivial)).1,
   ((deinit_resets
      ((Sys.initial.exec (.init false ⟨some 1, none⟩)).exec (.init true ⟨some 1, none⟩))).1
      (ReachableBy.step (.init true ⟨some 1, none⟩)
        (ReachableBy.step (.init false ⟨some 1, none⟩) ReachableBy.initial trivial) trivial)).2.2.2.2.2.1
      (by decide)⟩

/-- C7 as stated fails: after an `init` of the 1.8 inch panel whose SPI open fails, the
driver is uninitialised while CS and RST are outputs, and `py_lcd_deinit` does nothing, so
not every reachable state is left with all pads released. -/
theorem deinit_after_failed_init_keeps_pads :
    ¬ ∀ y : Sys, Reachable y → (y.exec .deinit).hw.released := by
  intro h
  have h1 := h (Sys.initial.exec (.init false ⟨some 1, none⟩))
    (ReachableBy.step (.init false ⟨some 1, none⟩) ReachableBy.initial trivial)
  revert h1
  decide

/-! ## Claims on the wire trace of init and clear -/

set_option maxRecDepth 100000 in
/-- C14, what the code sends: for each panel the power-control frames of `py_lcd_init` are
C0 [A2 02 84], C1 [C5], C2 [0A 00], C3 [8A 2A], C4 [8A], C5 [0E] in this order; command
0xC4 is followed by the single parameter 0x8A, not by both 0x8A and 0xEE, because
`lcd_write_command(0xC4, 1, {0x8A, 0xEE})` passes the length 1. -/
theorem init_power_control (s : Lcd) (bgr : Option Int) :
    power_control_frames (py_lcd_init true ⟨some 1, bgr⟩ s).ev =
      [(0xC0, [0xA2, 0x02, 0x84]), (0xC1, [0xC5]), (0xC2, [0x0A, 0x00]), (0xC3, [0x8A, 0x2A]),
       (0xC4, [0x8A]), (0xC5, [0x0E])] ∧
    power_control_frames (py_lcd_init true ⟨some 2, bgr⟩ s).ev =
      [(0xC0, [0xA2, 0x02, 0x84]), (0xC1, [0xC5]), (0xC2, [0x0A, 0x00]), (0xC3, [0x8A, 0x2A]),
       (0xC4, [0x8A]), (0xC5, [0x0E])] ∧
    power_control_frames (py_lcd_init true ⟨some 1, bgr⟩ s).ev ≠
      [(0xC0, [0xA2, 0x02, 0x84]), (0xC1, [0xC5]), (0xC2, [0x0A, 0x00]), (0xC3, [0x8A, 0x2A]),
       (0xC4, [0x8A, 0xEE]), (0xC5, [0x0E])] := by
  have h1 : power_control_frames (py_lcd_init true ⟨some 1, bgr⟩ s).ev =
      [(0xC0, [0xA2, 0x02, 0x84]), (0xC1, [0xC5]), (0xC2, [0x0A, 0x00]), (0xC3, [0x8A, 0x2A]),
       (0xC4, [0x8A]), (0xC5, [0x0E])] := by
    unfold power_control_frames
    rw [wire_trace_init]
    rfl
  have h2 : power_control_frames (py_lcd_init true ⟨some 2, bgr⟩ s).ev =
      [(0xC0, [0xA2, 0x02, 0x84]), (0xC1, [0xC5]), (0xC2, [0x0A, 0x00]), (0xC3, [0x8A, 0x2A]),
       (0xC4, [0x8A]), (0xC5, [0x0E])] := by
    unfold power_control_frames
    rw [wire_trace_init]
    rfl
  refine ⟨h1, h2, ?_⟩
  rw [h1]
  decide

/-- C15: for each panel and each `bgr` in {0, 1} (default 0 for the 1.8 inch panel, 1 for
the 0.96 inch panel), the frames of `py_lcd_init` between the 0xC5 frame and the gamma
frame 0xE0 are 36 [C0 | (bgr<<3)], 3A [05], 20, 2A [00 00 00 7F], 2B [00 00 00 9F] for
`LCD_SHIELD_1_8` and 21, 36 [A0 | (bgr<<3)], 3A [05], 2A [00 01 00 A0], 2B [00 1A 00 69] for
`LCD_SHIELD_0_96`; the default MADCTL byte of the latter is 0xA8. -/
theorem init_window_frames (s : Lcd) (b : Nat) (hb : b ≤ 1) :
    frames_between 0xC5 0xE0
        (frames (wire_trace (py_lcd_init true ⟨some 1, some (b : Int)⟩ s).ev)) =
      [(0x36, [0xC0 ||| (b <<< 3)]), (0x3A, [0x05]), (0x20, []),
       (0x2A, [0x00, 0x00, 0x00, 0x7F]), (0x2B, [0x00, 0x00, 0x00, 0x9F])] ∧
    frames_between 0xC5 0xE0 (frames (wire_trace (py_lcd_init true ⟨some 1, none⟩ s).ev)) =
      [(0x36, [0xC0]), (0x3A, [0x05]), (0x20, []),
       (0x2A, [0x00, 0x00, 0x00, 0x7F]), (0x2B, [0x00, 0x00, 0x00, 0x9F])] ∧
    frames_between 0xC5 0xE0
        (frames (wire_trace (py_lcd_init true ⟨some 2, some (b : Int)⟩ s).ev)) =
      [(0x21, []), (0x36, [0xA0 ||| (b <<< 3)]), (0x3A, [0x05]),
       (0x2A, [0x00, 0x01, 0x00, 0xA0]), (0x2B, [0x00, 0x1A, 0x00, 0x69])] ∧
    frames_between 0xC5 0xE0 (frames (wire_trace (py_lcd_init true ⟨some 2, none⟩ s).ev)) =
      [(0x21, []), (0x36, [0xA8]), (0x3A, [0x05]),
       (0x2A, [0x00, 0x01, 0x00, 0xA0]), (0x2B, [0x00, 0x1A, 0x00, 0x69])] ∧
    frames_between 0xC5 0xE0 (frames (wire_trace (py_lcd_init true ⟨none, none⟩ s).ev)) =
      [(0x21, []), (0x36, [0xA8]), (0x3A, [0x05]),
       (0x2A, [0x00, 0x01, 0x00, 0xA0]), (0x2B, [0x00, 0x1A, 0x00, 0x69])] := by
  have e : py_lcd_init true ⟨none, none⟩ s = py_lcd_init true ⟨some 2, none⟩ s := rfl
  refine ⟨?_, ?_, ?_, ?_, ?_⟩
  · rw [window_frames_1_8 s (some (b : Int))]
    show [(0x36, [(0xC0 ||| (toU8 ((b : Nat) : Int) <<< 3)) % 256]), _, _, _, _] = _
    rw [madctl_byte 0xC0 b hb (Or.inl rfl)]
  · rw [window_frames_1_8 s none]
    rfl
  · rw [window_frames_0_96 s (some (b : Int))]
    show [_, (0x36, [(0xA0 ||| (toU8 ((b : Nat) : Int) <<< 3)) % 256]), _, _, _] = _
    rw [madctl_byte 0xA0 b hb (Or.inr rfl)]
  · rw [window_frames_0_96 s none]
    rfl
  · rw [e, window_frames_0_96 s none]
    rfl

/-- Witness for C15: `bgr = 1` on the initialised 0.96 inch driver. -/
theorem init_window_frames_witness :
    frames_between 0xC5 0xE0
        (frames (wire_trace (py_lcd_init true ⟨some 1, some ((1 : Nat) : Int)⟩ state_0_96).ev)) =
      [(0x36, [0xC0 ||| (1 <<< 3)]), (0x3A, [0x05]), (0x20, []),
       (0x2A, [0x00, 0x00, 0x00, 0x7F]), (0x2B, [0x00, 0x00, 0x00, 0x9F])] :=
  (init_window_frames state_0_96 1 (by decide)).1

/-- C16: for each panel the trace of a successful `py_lcd_init` is the `deinit` events and
the pin and SPI setup, then, right after the RS pad is configured, cmd 0x01, RST low,
sleep 120, RST high, cmd 0x01, sleep 120, cmd 0x11, sleep 120; it ends with cmd 0x13,
sleep 10, cmd 0x29, sleep 100 and the LED pad written low and configured open-drain, with
`backlight_init` true afterwards; the sleeps are 120, 120, 120, 10, 100 and no other, 470 ms
in total. -/
theorem init_sequence (s : Lcd) (bgr : Option Int) :
    ((py_lcd_init true ⟨some 1, bgr⟩ s).ev =
        (py_lcd_deinit s).ev ++ init_setup (.baudrate (1000000000 / 66)) ++
        after_event (.HAL_GPIO_Init (pad_cfg .RS .GPIO_MODE_OUTPUT_PP))
          (py_lcd_init true ⟨some 1, bgr⟩ s).ev ∧
     List.IsPrefix
        (lcd_write_command_byte 0x01 ++
          [ .HAL_GPIO_WritePin .RST false, .systick_sleep 120, .HAL_GPIO_WritePin .RST true ] ++
          lcd_write_command_byte 0x01 ++ [ .systick_sleep 120 ] ++
          lcd_write_command_byte 0x11 ++ [ .systick_sleep 120 ])
        (after_event (.HAL_GPIO_Init (pad_cfg .RS .GPIO_MODE_OUTPUT_PP))
          (py_lcd_init true ⟨some 1, bgr⟩ s).ev) ∧
     List.IsSuffix
        (lcd_write_command_byte 0x13 ++ [ .systick_sleep 10 ] ++
          lcd_write_command_byte 0x29 ++ [ .systick_sleep 100 ] ++
          [ .HAL_GPIO_WritePin .LED false,
            .HAL_GPIO_Init (pad_cfg .LED .GPIO_MODE_OUTPUT_OD) ])
        (py_lcd_init true ⟨some 1, bgr⟩ s).ev ∧
     sleeps (py_lcd_init true ⟨some 1, bgr⟩ s).ev = [120, 120, 120, 10, 100] ∧
     (sleeps (py_lcd_init true ⟨some 1, bgr⟩ s).ev).sum = 470 ∧
     (py_lcd_init true ⟨some 1, bgr⟩ s).st.backlight_init = true) ∧
    ((py_lcd_init true ⟨some 2, bgr⟩ s).ev =
        (py_lcd_deinit s).ev ++ init_setup (.prescaler 8) ++
        after_event (.HAL_GPIO_Init (pad_cfg .RS .GPIO_MODE_OUTPUT_PP))
          (py_lcd_init true ⟨some 2, bgr⟩ s).ev ∧
     List.IsPrefix
        (lcd_write_command_byte 0x01 ++
          [ .HAL_GPIO_WritePin .RST false, .systick_sleep 120, .HAL_GPIO_WritePin .RST true ] ++
          lcd_write_command_byte 0x01 ++ [ .systick_sleep 120 ] ++
          lcd_write_command_byte 0x11 ++ [ .systick_sleep 120 ])
        (after_event (.HAL_GPIO_Init (pad_cfg .RS .GPIO_MODE_OUTPUT_PP))
          (py_lcd_init true ⟨some 2, bgr⟩ s).ev) ∧
     List.IsSuffix
        (lcd_write_command_byte 0x13 ++ [ .systick_sleep 10 ] ++
          lcd_write_command_byte 0x29 ++ [ .systick_sleep 100 ] ++
          [ .HAL_GPIO_WritePin .LED false,
            .HAL_GPIO_Init (pad_cfg .LED .GPIO_MODE_OUTPUT_OD) ])
        (py_lcd_init true ⟨some 2, bgr⟩ s).ev ∧
     sleeps (py_lcd_init true ⟨some 2, bgr⟩ s).ev = [120, 120, 120, 10, 100] ∧
     (sleeps (py_lcd_init true ⟨some 2, bgr⟩ s).ev).sum = 470 ∧
     (py_lcd_init true ⟨some 2, bgr⟩ s).st.backlight_init = true) := by
  constructor
  · obtain ⟨a, b, c, d, e⟩ := init_sequence_of s (.baudrate (1000000000 / 66))
      (init_panel_1_8 (toU8 (py_helper_keyword_int bgr 0))) _
      (init_events_1_8 s ⟨some 1, bgr⟩ rfl) rfl
    refine ⟨a, b, c, d, e, ?_⟩
    rw [(init_1_8_ok s ⟨some 1, bgr⟩ rfl).1]
    rfl
  · obtain ⟨a, b, c, d, e⟩ := init_sequence_of s (.prescaler 8)
      (init_panel_0_96 (toU8 (py_helper_keyword_int bgr 1))) _
      (init_events_0_96 s ⟨some 2, bgr⟩ (Or.inl rfl)) rfl
    refine ⟨a, b, c, d, e, ?_⟩
    rw [(init_0_96_ok s ⟨some 2, bgr⟩ (Or.inl rfl)).1]
    rfl

/-- C17: `py_lcd_clear` on an initialised driver fills the viewport with black: on the
0.96 inch panel its wire trace is 2A [00 01], 2B [00 1A], 2C and then exactly 80 data bursts
of 320 zero bytes; on the 1.8 inch panel it is 2C and then exactly 160 data bursts of 256
zero bytes; the statics are unchanged and the scratch allocator is marked, used for one
zeroed line and released to the mark. -/
theorem clear_wire_trace (s : Lcd) :
    (s.is_panel 160 80 →
      wire_trace (py_lcd_clear s).ev =
        [ .byte false 0x2A, .byte true 0x00, .byte true 0x01,
          .byte false 0x2B, .byte true 0x00, .byte true 0x1A, .byte false 0x2C ] ++
        List.replicate 80 (.burst true 320 (List.replicate 320 0)) ∧
      scratch_events (py_lcd_clear s).ev =
        [ .fb_alloc_mark, .fb_alloc0 320, .fb_alloc_free_till_mark ]) ∧
    (s.is_panel 128 160 →
      wire_trace (py_lcd_clear s).ev =
        [ .byte false 0x2C ] ++ List.replicate 160 (.burst true 256 (List.replicate 256 0)) ∧
      scratch_events (py_lcd_clear s).ev =
        [ .fb_alloc_mark, .fb_alloc0 256, .fb_alloc_free_till_mark ]) ∧
    (py_lcd_clear s).st = s := by
  have hz : ∀ (n len : Nat), scratch_events
      ((List.range n).flatMap (fun _ => lcd_write_data len zero_line)) = [] := by
    intro n len
    induction n with
    | zero => rfl
    | succ n ih => rw [List.range_succ, List.flatMap_append, scratch_events_append, ih]; rfl
  have hsc : ∀ (W H : Int), scratch_events (clear_frame W H) =
      [ .fb_alloc_mark, .fb_alloc0 (toU32 (W * 2)), .fb_alloc_free_till_mark ] := by
    intro W H
    unfold clear_frame
    rw [scratch_events_append, scratch_events_append, scratch_events_append, hz]
    rfl
  refine ⟨?_, ?_, clear_state s⟩
  · rintro ⟨hv, hw, hh⟩
    rcases hv with ⟨_, hc, _⟩ | ⟨ht, _, _⟩
    · exact absurd hc (by decide)
    · have e : (py_lcd_clear s).ev =
          lcd_write_command 0x2A 2 [0, 1] ++ lcd_write_command 0x2B 2 [0, 26] ++
            clear_frame 160 80 := by
        simp only [py_lcd_clear, ht, hw, hh]
      rw [e]
      constructor
      · unfold wire_trace
        rw [wire_from_append, wire_from_window_reset, wire_from_clear_frame]
        rfl
      · rw [scratch_events_append, hsc]
        rfl
  · rintro ⟨hv, hw, hh⟩
    rcases hv with ⟨ht, _, _⟩ | ⟨_, hc, _⟩
    · have e : (py_lcd_clear s).ev = clear_frame 128 160 := by
        simp only [py_lcd_clear, ht, hw, hh]
      rw [e]
      constructor
      · unfold wire_trace
        rw [wire_from_clear_frame]
        rfl
      · rw [hsc]
        rfl
    · exact absurd hc (by decide)

/-- Witness for C17: the initialised 0.96 inch driver. -/
theorem clear_wire_trace_witness :
    wire_trace (py_lcd_clear state_0_96).ev =
      [ .byte false 0x2A, .byte true 0x00, .byte true 0x01,
        .byte false 0x2B, .byte true 0x00, .byte true 0x1A, .byte false 0x2C ] ++
      List.replicate 80 (.burst true 320 (List.replicate 320 0)) :=
  ((clear_wire_trace state_0_96).1 ⟨Or.inr ⟨rfl, rfl, rfl⟩, rfl, rfl⟩).1

/-- C18: in the trace of `py_lcd_init` (either panel, also when the SPI open fails) and of
`py_lcd_set_backlight`, every `HAL_GPIO_Init` comes right after a write of the idle level
of the same pad: CS high, RST high, RS/DC high and LED low in `init`, LED = NOT state in
`set_backlight`; CS and LED are configured open-drain, RST and RS/DC push-pull, all with no
pull and low speed. -/
theorem gpio_init_after_idle_write (s : Lcd) (bgr : Option Int) (x : Int) :
    gpio_inits (py_lcd_init true ⟨some 1, bgr⟩ s).ev =
      [ (some (.HAL_GPIO_WritePin .CS true), pad_cfg .CS .GPIO_MODE_OUTPUT_OD),
        (some (.HAL_GPIO_WritePin .RST true), pad_cfg .RST .GPIO_MODE_OUTPUT_PP),
        (some (.HAL_GPIO_WritePin .RS true), pad_cfg .RS .GPIO_MODE_OUTPUT_PP),
        (some (.HAL_GPIO_WritePin .LED false), pad_cfg .LED .GPIO_MODE_OUTPUT_OD) ] ∧
    gpio_inits (py_lcd_init true ⟨some 2, bgr⟩ s).ev =
      [ (some (.HAL_GPIO_WritePin .CS true), pad_cfg .CS .GPIO_MODE_OUTPUT_OD),
        (some (.HAL_GPIO_WritePin .RST true), pad_cfg .RST .GPIO_MODE_OUTPUT_PP),
        (some (.HAL_GPIO_WritePin .RS true), pad_cfg .RS .GPIO_MODE_OUTPUT_PP),
        (some (.HAL_GPIO_WritePin .LED false), pad_cfg .LED .GPIO_MODE_OUTPUT_OD) ] ∧
    gpio_inits (py_lcd_init false ⟨some 1, bgr⟩ s).ev =
      [ (some (.HAL_GPIO_WritePin .CS true), pad_cfg .CS .GPIO_MODE_OUTPUT_OD),
        (some (.HAL_GPIO_WritePin .RST true), pad_cfg .RST .GPIO_MODE_OUTPUT_PP) ] ∧
    gpio_inits (py_lcd_init false ⟨some 2, bgr⟩ s).ev =
      [ (some (.HAL_GPIO_WritePin .CS true), pad_cfg .CS .GPIO_MODE_OUTPUT_OD),
        (some (.HAL_GPIO_WritePin .RST true), pad_cfg .RST .GPIO_MODE_OUTPUT_PP) ] ∧
    gpio_inits (py_lcd_set_backlight x s).ev =
      (if s.type ≠ .LCD_NONE ∧ s.backlight_init = false then
        [ (some (.HAL_GPIO_WritePin .LED (decide (x = 0))), pad_cfg .LED .GPIO_MODE_OUTPUT_OD) ]
       else []) ∧
    (∀ (p : Pin) (m : GpioMode),
      pad_cfg p m = { Pin := p, Mode := m, Pull := .GPIO_NOPULL, Speed := .GPIO_SPEED_LOW }) := by
  refine ⟨gpio_inits_init true _ s _ (fun p => gpio_inits_init_1_8 p bgr),
    gpio_inits_init true _ s _ (fun p => gpio_inits_init_0_96 p bgr),
    gpio_inits_init false _ s _ (fun _ => rfl),
    gpio_inits_init false _ s _ (fun _ => rfl), ?_, fun _ _ => rfl⟩
  unfold py_lcd_set_backlight
  cases s.type <;> cases s.backlight_init <;> simp <;> rfl

/-- C19: for each initialised panel and every supported image, the wire trace of
`py_lcd_clear()` (command bytes, parameter bytes and data bursts with their RS levels)
equals the wire trace of `py_lcd_display` with the rectangle of width 0 and height 0 at the
origin. -/
theorem clear_is_empty_display (s : Lcd) (W H : Int) (hp : s.is_panel W H) (img : image_t)
    (hm : IM_IS_MUTABLE img = true) :
    wire_trace (py_lcd_clear s).ev =
      wire_trace (py_lcd_display img (some ⟨0, 0, 0, 0⟩) s).ev := by
  obtain ⟨hv, hw, hh⟩ := hp
  rcases hv with ⟨ht, rfl, rfl⟩ | ⟨ht, rfl, rfl⟩
  · have hf : fit ⟨0, 0, 0, 0⟩ 128 160 = ⟨⟨0, 0, 0, 0⟩, 64, 64, 80, 80⟩ := by decide
    simp only [py_lcd_clear, py_lcd_display, hm, Bool.not_true, Bool.false_eq_true, if_false,
      ht, hw, hh, hf]
    unfold wire_trace
    rw [wire_from_clear_frame, wire_from_display_frame_empty _ _ _ _ rfl]
    rfl
  · have hf : fit ⟨0, 0, 0, 0⟩ 160 80 = ⟨⟨0, 0, 0, 0⟩, 80, 80, 40, 40⟩ := by decide
    simp only [py_lcd_clear, py_lcd_display, hm, Bool.not_true, Bool.false_eq_true, if_false,
      ht, hw, hh, hf]
    unfold wire_trace
    have hL := wire_from_append true
      (lcd_write_command 0x2A 2 [0, 1] ++ lcd_write_command 0x2B 2 [0, 26]) (clear_frame 160 80)
    have hR := wire_from_append true
      (lcd_write_command 0x2A 2 [0, 1] ++ lcd_write_command 0x2B 2 [0, 26])
      (display_frame 160 img ⟨⟨0, 0, 0, 0⟩, 80, 80, 40, 40⟩)
    rw [wire_from_clear_frame] at hL
    rw [wire_from_display_frame_empty _ _ _ _ rfl] at hR
    rw [hL, hR]
    rfl

/-- Witness for C19: the 4x3 sample image on the initialised 0.96 inch driver. -/
theorem clear_is_empty_display_witness :
    wire_trace (py_lcd_clear state_0_96).ev =
      wire_trace (py_lcd_display sample_gs (some ⟨0, 0, 0, 0⟩) state_0_96).ev :=
  clear_is_empty_display state_0_96 160 80 ⟨Or.inr ⟨rfl, rfl, rfl⟩, rfl, rfl⟩ sample_gs rfl

/-! ## Claims on the reads of the pixel pump -/

/-- Fit X moves and shrinks the rectangle only inside its own x range. -/
theorem fit_x_inside (rect : rectangle_t) (W : Int) :
    rect.x ≤ (fit_x rect W).1.x ∧
    (fit_x rect W).1.x + (fit_x rect W).1.w ≤ rect.x + rect.w := by
  rcases lt_or_le W rect.w with h | h
  · rw [fit_x_crop rect W h]
    constructor
    · show rect.x ≤ rect.x + (rect.w - W) / 2
      omega
    · show rect.x + (rect.w - W) / 2 + W ≤ rect.x + rect.w
      omega
  · rw [fit_x_pad rect W h]
    exact ⟨le_refl _, le_refl _⟩

/-- Fit Y moves and shrinks the rectangle only inside its own y range. -/
theorem fit_y_inside (rect : rectangle_t) (H : Int) :
    rect.y ≤ (fit_y rect H).1.y ∧
    (fit_y rect H).1.y + (fit_y rect H).1.h ≤ rect.y + rect.h := by
  rcases lt_or_le H rect.h with h | h
  · rw [fit_y_crop rect H h]
    constructor
    · show rect.y ≤ rect.y + (rect.h - H) / 2
      omega
    · show rect.y + (rect.h - H) / 2 + H ≤ rect.y + rect.h
      omega
  · rw [fit_y_pad rect H h]
    exact ⟨le_refl _, le_refl _⟩

/-- The fitted rectangle lies inside the original one. -/
theorem fit_inside (rect : rectangle_t) (W H : Int) :
    rect.x ≤ (fit rect W H).rect.x ∧
    (fit rect W H).rect.x + (fit rect W H).rect.w ≤ rect.x + rect.w ∧
    rect.y ≤ (fit rect W H).rect.y ∧
    (fit rect W H).rect.y + (fit rect W H).rect.h ≤ rect.y + rect.h := by
  obtain ⟨x1, x2⟩ := fit_x_inside rect W
  obtain ⟨_, _, _, _, xh, xy, _⟩ := fit_x_facts rect W
  obtain ⟨y1, y2⟩ := fit_y_inside (fit_x rect W).1 H
  obtain ⟨_, _, _, _, yw, yx, _⟩ := fit_y_facts (fit_x rect W).1 H
  refine ⟨?_, ?_, ?_, ?_⟩
  · show rect.x ≤ (fit_y (fit_x rect W).1 H).1.x
    rw [yx]; exact x1
  · show (fit_y (fit_x rect W).1 H).1.x + (fit_y (fit_x rect W).1 H).1.w ≤ rect.x + rect.w
    rw [yx, yw]; exact x2
  · show rect.y ≤ (fit_y (fit_x rect W).1 H).1.y
    rw [← xy]; exact y1
  · show (fit_y (fit_x rect W).1 H).1.y + (fit_y (fit_x rect W).1 H).1.h ≤ rect.y + rect.h
    rw [← xy, ← xh]; exact y2

/-- A pixel position inside an image has its row-major index inside the pixel array. -/
theorem index_in_image (w h x y : Int) (hx0 : 0 ≤ x) (hx : x < w) (hy0 : 0 ≤ y) (hy : y < h) :
    0 ≤ y * w + x ∧ y * w + x < w * h := by
  have hw : 0 ≤ w := by omega
  have h1 : 0 ≤ y * w := Int.mul_nonneg hy0 hw
  have h2 : y * w ≤ (h - 1) * w := Int.mul_le_mul_of_nonneg_right (by omega) hw
  have h3 : (h - 1) * w = w * h - w := by ring
  constructor <;> omega

/-- C21: for every rectangle (so for every one with non-negative width and height) and
every panel size, the rectangle the fit step of `py_lcd_display` produces lies inside the
original one (`x ≤ x'`, `x' + w' ≤ x + w`, `y ≤ y'`, `y' + h' ≤ y + h`); hence, when the
original roi lies inside the image, every pixel index `(rect.y + i) * img.w + rect.x + j`
the pump reads for `0 ≤ i < rect.h`, `0 ≤ j < rect.w` is non-negative and below
`img.w * img.h`: it is the index `IM_GET_GS_PIXEL` reads for a grayscale image, and twice
it (plus 0 or 1) is the byte the RGB565 row pointer sends. -/
theorem display_reads_inside (rect : rectangle_t) (W H : Int) :
    (rect.x ≤ (fit rect W H).rect.x ∧
     (fit rect W H).rect.x + (fit rect W H).rect.w ≤ rect.x + rect.w ∧
     rect.y ≤ (fit rect W H).rect.y ∧
     (fit rect W H).rect.y + (fit rect W H).rect.h ≤ rect.y + rect.h) ∧
    (∀ img : image_t, 0 ≤ rect.x → 0 ≤ rect.y → rect.x + rect.w ≤ img.w →
      rect.y + rect.h ≤ img.h →
      ∀ i j : Nat, (i : Int) < (fit rect W H).rect.h → (j : Int) < (fit rect W H).rect.w →
        0 ≤ ((fit rect W H).rect.y + (i : Int)) * img.w + (fit rect W H).rect.x + (j : Int) ∧
        ((fit rect W H).rect.y + (i : Int)) * img.w + (fit rect W H).rect.x + (j : Int) <
          img.w * img.h ∧
        IM_GET_GS_PIXEL img ((fit rect W H).rect.x + (j : Int)) ((fit rect W H).rect.y + (i : Int)) =
          img.pixels
            (((fit rect W H).rect.y + (i : Int)) * img.w + (fit rect W H).rect.x + (j : Int)) % 256 ∧
        rgb565_line img (fit rect W H).rect (i : Int) (2 * j) =
          img.pixels (2 * (((fit rect W H).rect.y + (i : Int)) * img.w +
            (fit rect W H).rect.x + (j : Int))) ∧
        rgb565_line img (fit rect W H).rect (i : Int) (2 * j + 1) =
          img.pixels (2 * (((fit rect W H).rect.y + (i : Int)) * img.w +
            (fit rect W H).rect.x + (j : Int)) + 1)) := by
  obtain ⟨f1, f2, f3, f4⟩ := fit_inside rect W H
  refine ⟨⟨f1, f2, f3, f4⟩, ?_⟩
  intro img hx hy hxw hyh i j hi hj
  generalize (fit rect W H).rect = r at *
  obtain ⟨b1, b2⟩ := index_in_image img.w img.h (r.x + (j : Int)) (r.y + (i : Int))
    (by omega) (by omega) (by omega) (by omega)
  refine ⟨by omega, by omega, ?_, ?_, ?_⟩
  · unfold IM_GET_GS_PIXEL
    congr 2
    ring
  · unfold rgb565_line
    congr 1
    push_cast
    ring
  · unfold rgb565_line
    congr 1
    push_cast
    ring

/-- Witness for C21: a 256x200 roi at the origin of a 256x200 image on the 160x80 panel;
image row 10 and column 20 of the fitted rectangle. -/
theorem display_reads_inside_witness :
    ((fit ⟨0, 0, 256, 200⟩ 160 80).rect.y + ((10 : Nat) : Int)) * 256 +
        (fit ⟨0, 0, 256, 200⟩ 160 80).rect.x + ((20 : Nat) : Int) < 256 * 200 :=
  ((display_reads_inside ⟨0, 0, 256, 200⟩ 160 80).2
    { w := 256, h := 200, format := .rgb565, pixels := fun _ => 0 }
    (by decide) (by decide) (by decide) (by decide) 10 20 (by decide) (by decide)).2.1

end PyLcd
